import Mathlib

/-!
# pkedit-qt: the main window as a state machine

A shallow embedding of `src/src/window.cc` (class `MainWindow`, declared in
`src/include/window.h`).

* The window is a record `MainWindow`: the members of the C++ class, the
  widgets of its form, and a journal of the calls it makes to collaborators
  (error pop-ups, file reads and writes, mutators of the domain library).
* Every slot connected in the constructor is a function from the window to an
  `Outcome`: the slot returned, an exception left it, or it dereferenced a
  null or dangling pointer.
* The domain library (`pokemon.h`, `save.h`, `trainer.h`) is not part of this
  repository.  A `pokemon` or `trainer` value is the record of what the
  object's const accessors return; the mutators are the fields of `pklib` and
  are arbitrary, possibly throwing, functions.  Theorems quantify over every
  `pklib`.
* Widgets are records of the properties the window reads or writes.  A spin
  box keeps its value inside `[minimum, maximum]` as `QSpinBox` does; the other
  setters are property writes.  What the form file declares (static combo
  entries, initial ranges) is the arbitrary initial widget state.
* A value the source holds in a `u16` is the `int` it was read from, modulo
  `2 ^ 16` (`u16`).  A `u8` likewise, modulo `2 ^ 8` (`u8`).
* A slot is one step.  The seven handlers that write the creature's value
  back into the widget that raised the signal (origin game, met level, fateful
  encounter, the four move combos) do so with the widget's signals not
  blocked; the slot that this write raises runs inside the step
  (`revert_then_report`).  No other signal that a slot's own widget write
  could raise is dispatched inside the step, and `blockSignals` has no other
  counterpart: the writes of `set_pkmn_in_editor` and `reset_ui` to the
  friendship field and of `update_stats_on_ui` to the IV and EV fields are
  plain writes.
* The connections of the constructor are `dispatch`.  A session is a `run`
  from `MainWindow.construct`: between two slots the user may change the form
  in any way, and the members change only in the slots.
-/

namespace PkEdit

/-! ## Widgets -/

/-- The properties of a `QComboBox` the window uses. -/
structure QComboBox where
  items : List String := []
  currentIndex : Int := -1
  enabled : Bool := false
  editable : Bool := false
deriving DecidableEq, Repr

/-- Qt call `QComboBox::clear`: no entries, no current entry. -/
def QComboBox.clear (c : QComboBox) : QComboBox :=
  { c with items := [], currentIndex := -1 }

/-- Qt call `QComboBox::addItem`. -/
def QComboBox.addItem (c : QComboBox) (text : String) : QComboBox :=
  { c with items := c.items ++ [text] }

/-- Repeated `addItem`, in list order (the `for` loops over a library list). -/
def QComboBox.addItems (c : QComboBox) (texts : List String) : QComboBox :=
  texts.foldl QComboBox.addItem c

/-- Qt call `QComboBox::setCurrentIndex`. -/
def QComboBox.setCurrentIndex (c : QComboBox) (i : Int) : QComboBox :=
  { c with currentIndex := i }

/-- Qt call `QComboBox::setEnabled`. -/
def QComboBox.setEnabled (c : QComboBox) (b : Bool) : QComboBox :=
  { c with enabled := b }

/-- Qt call `QComboBox::setEditable`. -/
def QComboBox.setEditable (c : QComboBox) (b : Bool) : QComboBox :=
  { c with editable := b }

/-- Qt call `QComboBox::currentText`: the text of the current entry, empty if none. -/
def QComboBox.currentText (c : QComboBox) : String :=
  if c.currentIndex < 0 then "" else c.items.getD c.currentIndex.toNat ""

/-- The properties of a `QSpinBox` the window uses. -/
structure QSpinBox where
  minimum : Int := 0
  maximum : Int := 99
  value : Int := 0
  enabled : Bool := false
  readOnly : Bool := false
deriving DecidableEq, Repr

/-- The value a spin box keeps when asked to hold `v` in `[lo, hi]`. -/
def bound (lo hi v : Int) : Int := max lo (min hi v)

/-- Qt call `QSpinBox::setValue`: the value is kept inside the current range. -/
def QSpinBox.setValue (b : QSpinBox) (v : Int) : QSpinBox :=
  { b with value := bound b.minimum b.maximum v }

/-- Qt call `QSpinBox::setMinimum`: the maximum is raised if needed, the value
re-bounded. -/
def QSpinBox.setMinimum (b : QSpinBox) (m : Int) : QSpinBox :=
  { b with minimum := m, maximum := max m b.maximum,
           value := bound m (max m b.maximum) b.value }

/-- Qt call `QSpinBox::setMaximum`: the minimum is lowered if needed, the value
re-bounded. -/
def QSpinBox.setMaximum (b : QSpinBox) (m : Int) : QSpinBox :=
  { b with minimum := min b.minimum m, maximum := m,
           value := bound (min b.minimum m) m b.value }

/-- Qt call `QSpinBox::setEnabled`. -/
def QSpinBox.setEnabled (b : QSpinBox) (e : Bool) : QSpinBox :=
  { b with enabled := e }

/-- Qt call `QSpinBox::setReadOnly`. -/
def QSpinBox.setReadOnly (b : QSpinBox) (r : Bool) : QSpinBox :=
  { b with readOnly := r }

/-- The properties of a `QLineEdit` the window uses. -/
structure QLineEdit where
  text : String := ""
  enabled : Bool := false
  readOnly : Bool := false
  maxLength : Int := 32767
deriving DecidableEq, Repr

/-- Qt call `QLineEdit::setText`. -/
def QLineEdit.setText (l : QLineEdit) (t : String) : QLineEdit :=
  { l with text := t }

/-- Qt call `QLineEdit::clear`. -/
def QLineEdit.clear (l : QLineEdit) : QLineEdit :=
  { l with text := "" }

/-- Qt call `QLineEdit::setEnabled`. -/
def QLineEdit.setEnabled (l : QLineEdit) (e : Bool) : QLineEdit :=
  { l with enabled := e }

/-- Qt call `QLineEdit::setReadOnly`. -/
def QLineEdit.setReadOnly (l : QLineEdit) (r : Bool) : QLineEdit :=
  { l with readOnly := r }

/-- Qt call `QLineEdit::setMaxLength`. -/
def QLineEdit.setMaxLength (l : QLineEdit) (n : Int) : QLineEdit :=
  { l with maxLength := n }

/-- The properties of a `QCheckBox` the window uses. -/
structure QCheckBox where
  checked : Bool := false
  enabled : Bool := false
  checkable : Bool := true
deriving DecidableEq, Repr

/-- Qt call `QCheckBox::setChecked`. -/
def QCheckBox.setChecked (c : QCheckBox) (b : Bool) : QCheckBox :=
  { c with checked := b }

/-- Qt call `QCheckBox::setEnabled`. -/
def QCheckBox.setEnabled (c : QCheckBox) (b : Bool) : QCheckBox :=
  { c with enabled := b }

/-- Qt call `QCheckBox::setCheckable`. -/
def QCheckBox.setCheckable (c : QCheckBox) (b : Bool) : QCheckBox :=
  { c with checkable := b }

/-- A `QPushButton`: only its enabled flag is used. -/
structure QPushButton where
  enabled : Bool := false
deriving DecidableEq, Repr

/-- Qt call `QPushButton::setEnabled`. -/
def QPushButton.setEnabled (_b : QPushButton) (e : Bool) : QPushButton :=
  { enabled := e }

/-- A `QLabel`: its text and style sheet. -/
structure QLabel where
  text : String := ""
  styleSheet : String := ""
deriving DecidableEq, Repr

/-- A `QTableWidget`: the cell texts row by row, the row of the first selected
item, the row and the column of the current item (`-1` when there is none) and
the enabled flag. -/
structure QTableWidget where
  rows : List (List String) := []
  selectedRow : Option Nat := none
  currentRow : Int := -1
  currentColumn : Int := -1
  enabled : Bool := false
deriving DecidableEq, Repr

/-- Qt call `QTableWidget::setEnabled`. -/
def QTableWidget.setEnabled (t : QTableWidget) (e : Bool) : QTableWidget :=
  { t with enabled := e }

/-- Qt call `QTableWidget::clearSelection`. -/
def QTableWidget.clearSelection (t : QTableWidget) : QTableWidget :=
  { t with selectedRow := none }

/-- Qt call `QTableWidget::rowCount`. -/
def QTableWidget.rowCount (t : QTableWidget) : Nat := t.rows.length

/-- Qt call `QTableWidget::insertRow`: a row without items is inserted at
`row` when `row` is at most the row count, and nothing happens otherwise.  The
rows from `row` on move down by one, the selected and the current row with
them. -/
def QTableWidget.insertRow (t : QTableWidget) (row : Nat) : QTableWidget :=
  if row ≤ t.rows.length then
    { t with
      rows := t.rows.take row ++ [[]] ++ t.rows.drop row,
      selectedRow := t.selectedRow.map (fun r => if row ≤ r then r + 1 else r),
      currentRow := if (row : Int) ≤ t.currentRow then t.currentRow + 1 else t.currentRow }
  else t

/-- Qt call `QTableWidget::removeRow`: row `row` is removed when there is one,
and nothing happens otherwise.  The rows after it move up by one.  A removed
row is no longer selected; when it was the current row, the current row
becomes the one above it, or the one that took its place when it was the
first, as the default selection model does. -/
def QTableWidget.removeRow (t : QTableWidget) (row : Nat) : QTableWidget :=
  if row < t.rows.length then
    { t with
      rows := t.rows.eraseIdx row,
      selectedRow :=
        match t.selectedRow with
        | none => none
        | some r => if r = row then none else if row < r then some (r - 1) else some r,
      currentRow :=
        if t.currentRow = row then
          (if 0 < row then t.currentRow - 1 else if 1 < t.rows.length then 0 else -1)
        else if (row : Int) < t.currentRow then t.currentRow - 1
        else t.currentRow }
  else t

/-- The cells of a row after the cell of column `col` has been given the text
`text`; columns that had no item yet read as empty. -/
def set_cell (cells : List String) (col : Nat) (text : String) : List String :=
  (cells ++ List.replicate (col + 1 - cells.length) "").set col text

/-- Qt call `QTableWidget::setItem` with a new item of text `text`: the cell is
set when row `row` exists, and nothing happens otherwise. -/
def QTableWidget.setItem (t : QTableWidget) (row col : Nat) (text : String) :
    QTableWidget :=
  match t.rows.get? row with
  | none => t
  | some cells => { t with rows := t.rows.set row (set_cell cells col text) }

/-- Qt call `QTableWidget::setCurrentItem` on `item(row, col)`: the cell
becomes the current and selected one when row `row` has a cell in column
`col`; a null item leaves no current row. -/
def QTableWidget.setCurrentItem (t : QTableWidget) (row col : Nat) : QTableWidget :=
  match (t.rows.get? row).bind (fun cells => cells.get? col) with
  | none => { t with currentRow := -1, currentColumn := -1, selectedRow := none }
  | some _ => { t with currentRow := row, currentColumn := col, selectedRow := some row }

/-- The text of `item(row, col)`; `none` is the null pointer the call returns
where the table has no such cell. -/
def QTableWidget.item (t : QTableWidget) (row : Int) (col : Nat) : Option String :=
  if row < 0 then none
  else (t.rows.get? row.toNat).bind (fun cells => cells.get? col)

/-- The text of `currentItem()`; `none` is the null pointer. -/
def QTableWidget.currentItem (t : QTableWidget) : Option String :=
  if t.currentColumn < 0 then none
  else t.item t.currentRow t.currentColumn.toNat

/-! ## The domain library's data, as the window observes it -/

/-- The enum `pokemon_gender` of the library, as the window's two switches use
it: four named values. -/
inductive pokemon_gender where
  | NA | MALE | FEMALE | GENDERLESS
deriving DecidableEq, Repr

/-- The enum `status_condition` of the library: the six values the window's
switches name, and `other` for any value they leave to `default`. -/
inductive status_condition where
  | HEALTHY | PAR | PSN | SLP | FRZ | BRN
  | other (raw : Nat)
deriving DecidableEq, Repr

/-- The enum `item_category` of the library. -/
inductive item_category where
  | Pocket | Pokeball | Berry | Tm | Key_Item | Pc
deriving DecidableEq, Repr

/-- The enum `pkstat` of the library, as far as the window names it. -/
inductive pkstat where
  | Hp | Atk | Def | Spe | Spa | Spd
deriving DecidableEq, Repr

/-- The struct `pkmn_allowed_set_fields` returned by `allowed_modifications()`:
one flag per legality-gated mutator. -/
structure pkmn_allowed_set_fields where
  set_species : Bool := false
  set_gender : Bool := false
  set_nature : Bool := false
  set_ability : Bool := false
  set_shiny : Bool := false
  set_egg : Bool := false
  set_origin_game : Bool := false
  set_met_location : Bool := false
  set_level_met : Bool := false
  set_fateful_encounter : Bool := false
  set_ivs : Bool := false
  set_moveset : Bool := false
  set_ot_pid : Bool := false
  set_ot_sid : Bool := false
deriving DecidableEq, Repr

/-- An entry of `met_locations_list()`. -/
structure location where
  name : String
  id : Nat
deriving DecidableEq, Repr

/-- A `pokemon` object: what each const accessor the window calls returns.
`held_item` is `none` for a null pointer and otherwise the held item's name. -/
structure pokemon where
  species : Nat := 0
  species_list : List String := []
  nickname : String := ""
  nickname_max_size : Nat := 10
  gender_name : String := ""
  level : Nat := 1
  exp : Nat := 0
  min_exp : Nat := 0
  max_exp : Nat := 0
  friendship : Nat := 0
  personality_value : Nat := 0
  generation : Nat := 3
  compat_has_gender : Bool := false
  gender : pokemon_gender := pokemon_gender.NA
  compat_has_nature : Bool := false
  nature : Nat := 0
  status : status_condition := status_condition.HEALTHY
  compat_has_ability : Bool := false
  abilities : List String := []
  ability_id : Nat := 0
  compat_has_held_item : Bool := false
  held_item : Option String := none
  has_item : Bool := false
  compat_has_pokerus : Bool := false
  is_infected : Bool := false
  is_cured : Bool := false
  compat_has_shiny : Bool := false
  is_shiny : Bool := false
  compat_has_egg : Bool := false
  is_egg : Bool := false
  compat_has_origin : Bool := false
  origin_games : List String := []
  game_of_origin : Nat := 0
  compat_has_location_met : Bool := false
  met_locations_list : List location := []
  met_location : Nat := 0
  compat_has_pokeball : Bool := false
  pokeball_list : List String := []
  pokeball : Nat := 0
  compat_has_level_met : Bool := false
  level_met : Nat := 0
  compat_has_fateful_encounter : Bool := false
  fateful_encounter : Bool := false
  iv_maximum_value : Nat := 31
  ev_maximum_value : Nat := 255
  compat_has_spc_eviv : Bool := false
  compat_has_spc : Bool := false
  total_hp : Nat := 0
  attack : Nat := 0
  defense : Nat := 0
  speed : Nat := 0
  special_atk : Nat := 0
  special_def : Nat := 0
  special : Nat := 0
  hp_iv : Nat := 0
  attack_iv : Nat := 0
  defense_iv : Nat := 0
  speed_iv : Nat := 0
  special_atk_iv : Nat := 0
  special_def_iv : Nat := 0
  special_dv : Nat := 0
  hp_ev : Nat := 0
  attack_ev : Nat := 0
  defense_ev : Nat := 0
  speed_ev : Nat := 0
  special_atk_ev : Nat := 0
  special_def_ev : Nat := 0
  special_ev : Nat := 0
  move_list : List String := []
  move1 : Nat := 0
  move2 : Nat := 0
  move3 : Nat := 0
  move4 : Nat := 0
  pp1 : Nat := 0
  pp2 : Nat := 0
  pp3 : Nat := 0
  pp4 : Nat := 0
  move1_pp_bonus : Nat := 0
  move2_pp_bonus : Nat := 0
  move3_pp_bonus : Nat := 0
  move4_pp_bonus : Nat := 0
  move1_max_pp : Nat := 0
  move2_max_pp : Nat := 0
  move3_max_pp : Nat := 0
  move4_max_pp : Nat := 0
  ot_public_id : Nat := 0
  ot_secret_id : Nat := 0
  compat_has_ot_name : Bool := false
  ot_name : String := ""
  compat_has_ot_gender : Bool := false
  ot_is_female : Bool := false
  has_trade_evolution : Bool := false
  allowed_modifications : pkmn_allowed_set_fields := {}
deriving DecidableEq, Repr

/-- An entry of an inventory pocket: `item::name()` and `item::count()`. -/
structure item where
  name : String
  count : Nat
deriving DecidableEq, Repr

/-- The struct `trainer_time_played`. -/
structure trainer_time_played where
  hours : Nat := 0
  minutes : Nat := 0
  seconds : Nat := 0
deriving DecidableEq, Repr

/-- A `trainer` object: what each const accessor the window calls returns.
`pkmn_team` is the vector of owning pointers: each entry is the address of a
`pokemon` object together with the object it owns. -/
structure trainer where
  name : String := ""
  name_length : Nat := 7
  is_female : Bool := false
  money : Nat := 0
  max_money : Nat := 999999
  coins : Nat := 0
  max_coins : Nat := 9999
  public_id : Nat := 0
  secret_id : Nat := 0
  time_played : trainer_time_played := {}
  pkmn_team : List (Nat × pokemon) := []
  get_pocket_items : List item := []
  get_ball_items : List item := []
  get_berry_case : List item := []
  get_tm_case : List item := []
  get_key_items : List item := []
  get_pc_items : List item := []
  get_all_items : List String := []
  get_item_names : item_category → List String := fun _ => []

/-- The struct `pkmn_save`: `trainer` is `none` when the pointer is null or
the trainer it pointed to has been deleted. -/
structure pkmn_save where
  file_name : String := ""
  game_name : String := ""
  trainer : Option trainer := none

/-- The struct `options` of `window.h`. -/
structure options where
  backup_save : Bool := true
  allow_illegal_modifications : Bool := false
deriving DecidableEq, Repr

/-! ## The window -/

/-- A checkable `QAction` of the menu bar. -/
structure QAction where
  checked : Bool := false
deriving DecidableEq, Repr

/-- A `QTabWidget`: the index of the page shown and the enabled flag. -/
structure QTabWidget where
  currentIndex : Int := 0
  enabled : Bool := false
deriving DecidableEq, Repr

/-- The form `Ui::MainWindow`: every widget `window.cc` names through `ui->`. -/
structure Ui where
  actionBackup_Save : QAction := {}
  actionAllow_Potentially_Illegal_Modifications : QAction := {}
  tabWidget : QTabWidget := {}
  pkmnEditorTabWidget : QTabWidget := {}
  itemsTabWidget : QTabWidget := {}
  saveLoadedLabel : QLabel := {}
  hpIvLabel : QLabel := {}
  atkIvLabel : QLabel := {}
  defIvLabel : QLabel := {}
  speIvLabel : QLabel := {}
  partyTableWidget : QTableWidget := {}
  itemsTableWidget : QTableWidget := {}
  ballsTableWidget : QTableWidget := {}
  berriesTableWidget : QTableWidget := {}
  tmsTableWidget : QTableWidget := {}
  keyItemsTableWidget : QTableWidget := {}
  pcItemsTableWidget : QTableWidget := {}
  editPkmnPartyPushButton : QPushButton := {}
  deletePkmnPartyPushButton : QPushButton := {}
  addItemPushButton : QPushButton := {}
  editItemPushButton : QPushButton := {}
  deleteItemPushButton : QPushButton := {}
  pkmnSimulateTradePushButton : QPushButton := {}
  speciesComboBox : QComboBox := {}
  abilityComboBox : QComboBox := {}
  heldItemComboBox : QComboBox := {}
  originGameComboBox : QComboBox := {}
  locationComboBox : QComboBox := {}
  pokeballComboBox : QComboBox := {}
  m1ComboBox : QComboBox := {}
  m2ComboBox : QComboBox := {}
  m3ComboBox : QComboBox := {}
  m4ComboBox : QComboBox := {}
  pkmnGenderComboBox : QComboBox := {}
  natureComboBox : QComboBox := {}
  statusComboBox : QComboBox := {}
  otGenderComboBox : QComboBox := {}
  genderComboBox : QComboBox := {}
  itemNameComboBox : QComboBox := {}
  levelSpinBox : QSpinBox := {}
  expSpinBox : QSpinBox := {}
  friendshipSpinBox : QSpinBox := {}
  levelMetSpinBox : QSpinBox := {}
  hpSpinBox : QSpinBox := {}
  atkSpinBox : QSpinBox := {}
  defSpinBox : QSpinBox := {}
  speSpinBox : QSpinBox := {}
  spAtkSpinBox : QSpinBox := {}
  spDefSpinBox : QSpinBox := {}
  spSpinBox : QSpinBox := {}
  hpIvSpinBox : QSpinBox := {}
  atkIvSpinBox : QSpinBox := {}
  defIvSpinBox : QSpinBox := {}
  speIvSpinBox : QSpinBox := {}
  spAtkIvSpinBox : QSpinBox := {}
  spDefIvSpinBox : QSpinBox := {}
  spDvSpinBox : QSpinBox := {}
  hpevSpinBox : QSpinBox := {}
  atkEvSpinBox : QSpinBox := {}
  defEvSpinBox : QSpinBox := {}
  speEvSpinBox : QSpinBox := {}
  spAtkEvSpinBox : QSpinBox := {}
  spDefEvSpinBox : QSpinBox := {}
  spcEvSpinBox : QSpinBox := {}
  pp1SpinBox : QSpinBox := {}
  pp2SpinBox : QSpinBox := {}
  pp3SpinBox : QSpinBox := {}
  pp4SpinBox : QSpinBox := {}
  pp1BonusSpinBox : QSpinBox := {}
  pp2BonusSpinBox : QSpinBox := {}
  pp3BonusSpinBox : QSpinBox := {}
  pp4BonusSpinBox : QSpinBox := {}
  moneySpinBox : QSpinBox := {}
  coinsSpinBox : QSpinBox := {}
  quantitySpinBox : QSpinBox := {}
  nicknameLineEdit : QLineEdit := {}
  pIDLineEdit : QLineEdit := {}
  m1MaxppLineEdit : QLineEdit := {}
  m2MaxppLineEdit : QLineEdit := {}
  m3MaxppLineEdit : QLineEdit := {}
  m4MaxppLineEdit : QLineEdit := {}
  otPidLineEdit : QLineEdit := {}
  otSidLineEdit : QLineEdit := {}
  otNameLineEdit : QLineEdit := {}
  nameLineEdit : QLineEdit := {}
  publicIdLineEdit : QLineEdit := {}
  secretIdLineEdit : QLineEdit := {}
  timePlayedLineEdit : QLineEdit := {}
  infectedCheckBox : QCheckBox := {}
  curedCheckBox : QCheckBox := {}
  shinyCheckBox : QCheckBox := {}
  eggCheckBox : QCheckBox := {}
  fatefulEncounterCheckBox : QCheckBox := {}
deriving Repr

/-- The table a `QTableWidget *` member points to.  `sel_item_table_widget`
is always one of the six item tables; `sel_pkmn_table_widget` is null or the
party table. -/
inductive table_ref where
  | itemsTableWidget | ballsTableWidget | berriesTableWidget
  | tmsTableWidget | keyItemsTableWidget | pcItemsTableWidget
  | partyTableWidget
deriving DecidableEq, Repr

/-- A call to a mutator of the library, as recorded in the journal: the
mutators of the slots of window.cc:248-277, 295-323, 335-368, 427-511,
548-596, 679-721 and 821-864. -/
inductive Mutator where
  | set_iv (pkmn : Nat) (stat : pkstat) (iv : Nat)
  | set_ev (pkmn : Nat) (stat : pkstat) (ev : Nat)
  | set_nickname (pkmn : Nat) (nickname : String)
  | set_exp (pkmn : Nat) (exp : Int)
  | set_friendship (pkmn : Nat) (friendship : Int)
  | set_status (pkmn : Nat) (status : status_condition)
  | set_ability (pkmn : Nat) (ability : Int)
  | set_infected (pkmn : Nat) (infected : Bool)
  | set_cured (pkmn : Nat) (cured : Bool)
  | item_idx_from_name (name : String)
  | set_held_item (pkmn : Nat) (idx : Nat)
  | set_origin_game (pkmn : Nat) (game : Int)
  | set_location_met (pkmn : Nat) (name : String)
  | set_pokeball (pkmn : Nat) (ball : Int)
  | set_level_met (pkmn : Nat) (level : Int)
  | set_move1_pp (pkmn : Nat) (pp : Int)
  | set_move2_pp (pkmn : Nat) (pp : Int)
  | set_move3_pp (pkmn : Nat) (pp : Int)
  | set_move4_pp (pkmn : Nat) (pp : Int)
  | set_ot_name (pkmn : Nat) (name : String)
  | set_ot_gender (pkmn : Nat) (gender : Int)
  | trainer_set_name (name : String)
  | trainer_set_gender (gender : Int)
  | trainer_set_money (money : Int)
  | trainer_set_coins (coins : Int)
  | trainer_set_public_id (id : Int)
  | trainer_set_secret_id (id : Int)
deriving DecidableEq, Repr

/-- A call the window makes to a collaborator, as recorded in the journal. -/
inductive Event where
  | show_popup_error (what : String)
  | read_pkmn_save_file (file_name : String)
  | write_pkmn_save_file (file_name : String) (backup : Bool)
  | trainer_save
  | remove_pkmn_from_party (row : Nat)
  | allow_illegal_changes (pkmn : Nat) (allow : Bool)
  | set_nature (pkmn : Nat) (nature : Int)
  | set_gender (pkmn : Nat) (gender : pokemon_gender)
  | set_shiny (pkmn : Nat) (shiny : Bool)
  | set_ot_pid (pkmn : Nat) (id : Int)
  | set_ot_sid (pkmn : Nat) (id : Int)
  | add_item (category : item_category) (name : String) (quantity : Nat)
  | edit_item (category : item_category) (row : Nat) (name : String) (quantity : Nat)
  | del_item (category : item_category) (row : Nat)
  | set_level (pkmn : Nat) (level : Int)
  | set_egg (pkmn : Nat) (egg : Bool)
  | set_fateful_encounter (pkmn : Nat) (fateful : Bool)
  | set_species (pkmn : Nat) (species : Int)
  | simulate_trade_evolution (pkmn : Nat)
  | set_move1 (pkmn : Nat) (move : Int)
  | set_move2 (pkmn : Nat) (move : Int)
  | set_move3 (pkmn : Nat) (move : Int)
  | set_move4 (pkmn : Nat) (move : Int)
  | set_move1_bonus (pkmn : Nat) (bonus : Int)
  | set_move2_bonus (pkmn : Nat) (bonus : Int)
  | set_move3_bonus (pkmn : Nat) (bonus : Int)
  | set_move4_bonus (pkmn : Nat) (bonus : Int)
  | mutator (call : Mutator)
deriving DecidableEq, Repr

/-- The class `MainWindow` of `window.h`.  `sel_pkmn` is a raw pointer: `none`
is `nullptr`, `some a` the address `a`.  `journal` lists the collaborator
calls made so far, the latest first. -/
structure MainWindow where
  save : pkmn_save := {}
  opt : options := {}
  sel_item_table_widget : table_ref := table_ref.itemsTableWidget
  sel_pkmn_table_widget : Option table_ref := none
  sel_pkmn_table_row : Nat := 0
  sel_item_category : item_category := item_category.Pocket
  sel_pkmn : Option Nat := none
  save_loaded : Bool := false
  ui : Ui := {}
  journal : List Event := []

/-- How a call ends: it returned, an exception left it (with the window as it
was when the exception was thrown), or it dereferenced a null or dangling
pointer. -/
inductive Outcome where
  | returned (w : MainWindow)
  | threw (what : String) (w : MainWindow)
  | undefined

/-- The mutators and file operations of the domain library.  A mutator that
throws leaves its object as it was.  Each takes the object and returns the
object after the call.  The mutators of the trainer are the fields whose name
starts with `trainer_`; `status_zero` is the `status_condition` whose value is
0, which `status_condition status {}` yields. -/
structure pklib where
  read_pkmn_save_file : String → Except String pkmn_save :=
    fun _ => Except.error "cannot open file"
  write_pkmn_save_file : String → pkmn_save → Bool → Except String Unit :=
    fun _ _ _ => Except.ok ()
  trainer_save : trainer → Except String trainer := fun t => Except.ok t
  remove_pkmn_from_party : trainer → Nat → Except String trainer :=
    fun t _ => Except.ok t
  item_idx_from_name : trainer → String → Except String Nat :=
    fun _ _ => Except.ok 0
  allow_illegal_changes : pokemon → Bool → Except String pokemon :=
    fun p _ => Except.ok p
  set_nature : pokemon → Int → Except String pokemon := fun p _ => Except.ok p
  set_gender : pokemon → pokemon_gender → Except String pokemon :=
    fun p _ => Except.ok p
  set_shiny : pokemon → Bool → Except String pokemon := fun p _ => Except.ok p
  set_ot_pid : pokemon → Int → Except String pokemon := fun p _ => Except.ok p
  set_ot_sid : pokemon → Int → Except String pokemon := fun p _ => Except.ok p
  add_item : trainer → item_category → String → Nat → Except String trainer :=
    fun t _ _ _ => Except.ok t
  edit_item : trainer → item_category → Nat → String → Nat → Except String trainer :=
    fun t _ _ _ _ => Except.ok t
  del_item : trainer → item_category → Nat → Except String trainer :=
    fun t _ _ => Except.ok t
  set_level : pokemon → Int → Except String pokemon := fun p _ => Except.ok p
  set_egg : pokemon → Bool → Except String pokemon := fun p _ => Except.ok p
  set_fateful_encounter : pokemon → Bool → Except String pokemon :=
    fun p _ => Except.ok p
  set_species : pokemon → Int → Except String pokemon := fun p _ => Except.ok p
  simulate_trade_evolution : pokemon → Except String pokemon := fun p => Except.ok p
  set_move1 : pokemon → Int → Except String pokemon := fun p _ => Except.ok p
  set_move2 : pokemon → Int → Except String pokemon := fun p _ => Except.ok p
  set_move3 : pokemon → Int → Except String pokemon := fun p _ => Except.ok p
  set_move4 : pokemon → Int → Except String pokemon := fun p _ => Except.ok p
  set_move1_bonus : pokemon → Int → Except String pokemon := fun p _ => Except.ok p
  set_move2_bonus : pokemon → Int → Except String pokemon := fun p _ => Except.ok p
  set_move3_bonus : pokemon → Int → Except String pokemon := fun p _ => Except.ok p
  set_move4_bonus : pokemon → Int → Except String pokemon := fun p _ => Except.ok p
  set_iv : pokemon → pkstat → Nat → Except String pokemon := fun p _ _ => Except.ok p
  set_ev : pokemon → pkstat → Nat → Except String pokemon := fun p _ _ => Except.ok p
  set_nickname : pokemon → String → Except String pokemon := fun p _ => Except.ok p
  set_exp : pokemon → Int → Except String pokemon := fun p _ => Except.ok p
  set_friendship : pokemon → Int → Except String pokemon := fun p _ => Except.ok p
  status_zero : status_condition := status_condition.HEALTHY
  set_status : pokemon → status_condition → Except String pokemon :=
    fun p _ => Except.ok p
  set_ability : pokemon → Int → Except String pokemon := fun p _ => Except.ok p
  set_infected : pokemon → Bool → Except String pokemon := fun p _ => Except.ok p
  set_cured : pokemon → Bool → Except String pokemon := fun p _ => Except.ok p
  set_held_item : pokemon → Nat → Except String pokemon := fun p _ => Except.ok p
  set_origin_game : pokemon → Int → Except String pokemon := fun p _ => Except.ok p
  set_location_met : pokemon → String → Except String pokemon := fun p _ => Except.ok p
  set_pokeball : pokemon → Int → Except String pokemon := fun p _ => Except.ok p
  set_level_met : pokemon → Int → Except String pokemon := fun p _ => Except.ok p
  set_move1_pp : pokemon → Int → Except String pokemon := fun p _ => Except.ok p
  set_move2_pp : pokemon → Int → Except String pokemon := fun p _ => Except.ok p
  set_move3_pp : pokemon → Int → Except String pokemon := fun p _ => Except.ok p
  set_move4_pp : pokemon → Int → Except String pokemon := fun p _ => Except.ok p
  set_ot_name : pokemon → String → Except String pokemon := fun p _ => Except.ok p
  set_ot_gender : pokemon → Int → Except String pokemon := fun p _ => Except.ok p
  trainer_set_name : trainer → String → Except String trainer := fun t _ => Except.ok t
  trainer_set_gender : trainer → Int → Except String trainer := fun t _ => Except.ok t
  trainer_set_money : trainer → Int → Except String trainer := fun t _ => Except.ok t
  trainer_set_coins : trainer → Int → Except String trainer := fun t _ => Except.ok t
  trainer_set_public_id : trainer → Int → Except String trainer := fun t _ => Except.ok t
  trainer_set_secret_id : trainer → Int → Except String trainer := fun t _ => Except.ok t

/-- Record a collaborator call. -/
def MainWindow.log (w : MainWindow) (e : Event) : MainWindow :=
  { w with journal := e :: w.journal }

/-- Function `show_popup_error(err)`. -/
def show_popup_error (w : MainWindow) (err : String) : MainWindow :=
  w.log (Event.show_popup_error err)

/-- The object an owning pointer of the team holds at address `a`, if any. -/
def team_lookup (team : List (Nat × pokemon)) (a : Nat) : Option pokemon :=
  team.lookup a

/-- The team after the object at address `a` has become `p`. -/
def team_store (team : List (Nat × pokemon)) (a : Nat) (p : pokemon) :
    List (Nat × pokemon) :=
  team.map (fun e => if e.1 = a then (a, p) else e)

/-- Dereference a `pokemon *`: the live object at address `a`.  The live
objects are those the loaded trainer's team owns. -/
def MainWindow.deref (w : MainWindow) (a : Nat) : Option pokemon :=
  w.save.trainer.bind (fun t => team_lookup t.pkmn_team a)

/-- The window after the object at address `a` has become `p`. -/
def MainWindow.store (w : MainWindow) (a : Nat) (p : pokemon) : MainWindow :=
  { w with save := { w.save with
      trainer := w.save.trainer.map
        (fun t => { t with pkmn_team := team_store t.pkmn_team a p }) } }

/-- The static function `save_file` (window.cc:54), called with the window's
own `save` and `opt`. -/
def save_file (lib : pklib) (file_name : String) (w : MainWindow) : Outcome :=
  if file_name.isEmpty then Outcome.returned w
  else
    match w.save.trainer with
    | none => Outcome.undefined
    | some t =>
      let w1 := w.log Event.trainer_save
      match lib.trainer_save t with
      | Except.error e => Outcome.threw e w1
      | Except.ok t1 =>
        let w2 := { w1 with save := { w1.save with trainer := some t1 } }
        let w3 := w2.log (Event.write_pkmn_save_file file_name w2.opt.backup_save)
        match lib.write_pkmn_save_file file_name w2.save w2.opt.backup_save with
        | Except.error e => Outcome.threw e w3
        | Except.ok _ => Outcome.returned w3

/-- What a `try` block followed by
`catch (const std::exception &e) { show_popup_error(e.what()); }` does with
the outcome of its body. -/
def catch_popup (o : Outcome) : Outcome :=
  match o with
  | Outcome.threw what w => Outcome.returned (show_popup_error w what)
  | o => o

/-- What a `catch` block does once it has written the creature's value back
into the edited widget, `w` being the window after that write.  The signals of
the widget are not blocked: when the write changed the widget, its change
signal is raised and the slot connected to it, `raised`, runs to its end inside
the write; then the error is reported. -/
def revert_then_report (changed : Bool) (raised : MainWindow → Outcome) (w : MainWindow)
    (err : String) : Outcome :=
  match (if changed then raised w else Outcome.returned w) with
  | Outcome.returned w1 => Outcome.returned (show_popup_error w1 err)
  | o => o

/-- The slot of `actionSave_File` (window.cc:80).  `filename` is what the
file dialog returns; it is consulted only after the loaded check. -/
def actionSave_File_triggered (lib : pklib) (filename : String)
    (w : MainWindow) : Outcome :=
  catch_popup
    (if !w.save_loaded then Outcome.threw "Unable to save: no save loaded" w
     else save_file lib filename w)

/-- The slot of `actionSave_As` (window.cc:92); the dialog starts at
`save.file_name`, which does not constrain the name returned. -/
def actionSave_As_triggered (lib : pklib) (filename : String)
    (w : MainWindow) : Outcome :=
  catch_popup
    (if !w.save_loaded then Outcome.threw "Unable to save: no save loaded" w
     else save_file lib filename w)

/-- The slot of `actionBackup_Save` (window.cc:78). -/
def actionBackup_Save_triggered (w : MainWindow) : Outcome :=
  Outcome.returned
    { w with opt := { w.opt with backup_save := w.ui.actionBackup_Save.checked } }

/-! ## Helpers of the window (window.cc:985-1060, 1413-1418, 1542-1602) -/

/-- Function `reset_checkbox`. -/
def reset_checkbox (c : QCheckBox) : QCheckBox :=
  (c.setChecked false).setEnabled false

/-- Function `reset_combo_box`. -/
def reset_combo_box (c : QComboBox) : QComboBox :=
  c.clear.setEnabled false

/-- Function `reset_line_edit`. -/
def reset_line_edit (l : QLineEdit) : QLineEdit :=
  l.clear.setEnabled false

/-- Function `reset_spinbox`. -/
def reset_spinbox (b : QSpinBox) : QSpinBox :=
  (b.setValue 0).setEnabled false

/-- Function `reset_table_widget`: `clearContents`, `setRowCount(0)`,
`setEnabled(false)`. -/
def reset_table_widget (_t : QTableWidget) : QTableWidget :=
  { rows := [], selectedRow := none, currentRow := -1, currentColumn := -1, enabled := false }

/-- The text `std::format` gives a number under `{:X}`: upper-case
hexadecimal digits. -/
def hex_upper (n : Nat) : String :=
  String.mk ((Nat.toDigits 16 n).map Char.toUpper)

/-- Function `update_pid_on_ui`: the PID text is `0x` followed by the personality value
in upper-case hexadecimal. -/
def update_pid_on_ui (p : pokemon) (ui : Ui) : Ui :=
  { ui with pIDLineEdit := ui.pIDLineEdit.setText ("0x" ++ hex_upper p.personality_value) }

/-- The switch of `set_pkmn_gender_combo_box`: the `PKMN_GENDER_COMBOBOX_*`
index of a gender. -/
def gender_index (g : pokemon_gender) : Int :=
  match g with
  | pokemon_gender.MALE => 1
  | pokemon_gender.FEMALE => 2
  | pokemon_gender.GENDERLESS => 3
  | _ => 0

/-- Function `set_pkmn_gender_combo_box`. -/
def set_pkmn_gender_combo_box (p : pokemon) (ui : Ui) : Ui :=
  { ui with pkmnGenderComboBox := ui.pkmnGenderComboBox.setCurrentIndex (gender_index p.gender) }

/-- The text of a shiny or egg cell. -/
def yes_no (b : Bool) : String := if b then "Yes" else "No"

/-- The five cells `add_pkmn_to_table_widget` writes for one member, in column
order: nickname, gender, level, shiny, egg. -/
def add_pkmn_to_table_widget (p : pokemon) : List String :=
  [p.nickname, p.gender_name, toString p.level, yes_no p.is_shiny, yes_no p.is_egg]

/-- Function `update_party_table_widget`, given the trainer `save.trainer` points to:
the contents are cleared and one row per member is written. -/
def update_party_table_widget (t : trainer) (ui : Ui) : Ui :=
  { ui with partyTableWidget :=
      { ui.partyTableWidget with
          rows := t.pkmn_team.map (fun e => add_pkmn_to_table_widget e.2),
          selectedRow := none } }

/-- Function `update_stats_on_ui`; `none` is the null pointer.  Each box is listed with
the `setValue` calls the function makes on it, under the branch conditions of
the source. -/
def update_stats_on_ui (pkmn : Option pokemon) (ui : Ui) : Ui :=
  match pkmn with
  | none => ui
  | some p =>
    { ui with
      hpSpinBox := ui.hpSpinBox.setValue p.total_hp,
      atkSpinBox := ui.atkSpinBox.setValue p.attack,
      defSpinBox := ui.defSpinBox.setValue p.defense,
      speSpinBox := ui.speSpinBox.setValue p.speed,
      spAtkSpinBox :=
        if !p.compat_has_spc_eviv then ui.spAtkSpinBox.setValue p.special_atk
        else ui.spAtkSpinBox,
      spDefSpinBox :=
        if !p.compat_has_spc_eviv then ui.spDefSpinBox.setValue p.special_def
        else ui.spDefSpinBox,
      spAtkIvSpinBox :=
        if !p.compat_has_spc_eviv then ui.spAtkIvSpinBox.setValue p.special_atk_iv
        else ui.spAtkIvSpinBox,
      spDefIvSpinBox :=
        if !p.compat_has_spc_eviv then ui.spDefIvSpinBox.setValue p.special_def_iv
        else ui.spDefIvSpinBox,
      spAtkEvSpinBox :=
        if !p.compat_has_spc_eviv then ui.spAtkEvSpinBox.setValue p.special_atk_ev
        else ui.spAtkEvSpinBox,
      spDefEvSpinBox :=
        if !p.compat_has_spc_eviv then ui.spDefEvSpinBox.setValue p.special_def_ev
        else ui.spDefEvSpinBox,
      spSpinBox :=
        if !p.compat_has_spc_eviv then ui.spSpinBox
        else if p.compat_has_spc then ui.spSpinBox.setValue p.special
        else ui.spSpinBox,
      spDvSpinBox :=
        if !p.compat_has_spc_eviv then ui.spDvSpinBox
        else ui.spDvSpinBox.setValue p.special_dv,
      spcEvSpinBox :=
        if !p.compat_has_spc_eviv then ui.spcEvSpinBox
        else ui.spcEvSpinBox.setValue p.special_ev,
      hpIvSpinBox := ui.hpIvSpinBox.setValue p.hp_iv,
      atkIvSpinBox := ui.atkIvSpinBox.setValue p.attack_iv,
      defIvSpinBox := ui.defIvSpinBox.setValue p.defense_iv,
      speIvSpinBox := ui.speIvSpinBox.setValue p.speed_iv,
      hpevSpinBox := ui.hpevSpinBox.setValue p.hp_ev,
      atkEvSpinBox := ui.atkEvSpinBox.setValue p.attack_ev,
      defEvSpinBox := ui.defEvSpinBox.setValue p.defense_ev,
      speEvSpinBox := ui.speEvSpinBox.setValue p.speed_ev }

/-- Function `add_item_names_to_combo_box`, given the trainer `save.trainer` points
to. -/
def add_item_names_to_combo_box (t : trainer) (category : item_category)
    (c : QComboBox) : QComboBox :=
  c.clear.addItems (t.get_item_names category)

/-! ## `set_pkmn_in_editor` (window.cc:1062-1402), section by section

Within a section each widget is listed once, with the calls the source makes
on it in source order, under the branch condition of the source. -/

/-- Lines 1066-1075: the ten list-backed combos are emptied and disabled. -/
def editor_reset_combos (ui : Ui) : Ui :=
  { ui with
    speciesComboBox := reset_combo_box ui.speciesComboBox,
    abilityComboBox := reset_combo_box ui.abilityComboBox,
    heldItemComboBox := reset_combo_box ui.heldItemComboBox,
    originGameComboBox := reset_combo_box ui.originGameComboBox,
    locationComboBox := reset_combo_box ui.locationComboBox,
    pokeballComboBox := reset_combo_box ui.pokeballComboBox,
    m1ComboBox := reset_combo_box ui.m1ComboBox,
    m2ComboBox := reset_combo_box ui.m2ComboBox,
    m3ComboBox := reset_combo_box ui.m3ComboBox,
    m4ComboBox := reset_combo_box ui.m4ComboBox }

/-- Lines 1085-1103: species, nickname, level, experience, friendship, PID.
`ai` is `opt.allow_illegal_modifications`. -/
def editor_description (ai : Bool) (p : pokemon) (ui : Ui) : Ui :=
  let allow := p.allowed_modifications
  update_pid_on_ui p
    { ui with
      speciesComboBox :=
        ((((ui.speciesComboBox.addItems p.species_list).setCurrentIndex p.species).setEditable
          (allow.set_species || ai)).setEnabled (allow.set_species || ai)),
      nicknameLineEdit :=
        ((ui.nicknameLineEdit.setText p.nickname).setMaxLength p.nickname_max_size).setEnabled true,
      levelSpinBox := (ui.levelSpinBox.setValue p.level).setEnabled true,
      expSpinBox :=
        (((ui.expSpinBox.setValue p.exp).setMinimum p.min_exp).setMaximum p.max_exp).setEnabled true,
      friendshipSpinBox := (ui.friendshipSpinBox.setValue p.friendship).setEnabled true }

/-- Lines 1106-1112: the gender field.  The index is set by
`set_pkmn_gender_combo_box`. -/
def editor_gender (ai : Bool) (p : pokemon) (ui : Ui) : Ui :=
  let allow := p.allowed_modifications
  { ui with pkmnGenderComboBox :=
      if p.compat_has_gender then
        (((set_pkmn_gender_combo_box p ui).pkmnGenderComboBox.setEnabled
          (allow.set_gender || ai)).setEditable (allow.set_gender || ai))
      else ui.pkmnGenderComboBox.setEnabled false }

/-- Lines 1114-1123: the nature field, then the editor tab is shown. -/
def editor_nature (ai : Bool) (p : pokemon) (ui : Ui) : Ui :=
  let allow := p.allowed_modifications
  { ui with
    natureComboBox :=
      if p.compat_has_nature then
        (((ui.natureComboBox.setCurrentIndex (p.nature + 1)).setEnabled
          (allow.set_nature || ai)).setEditable (allow.set_nature || ai))
      else ui.natureComboBox.setEnabled false,
    tabWidget := { ui.tabWidget with currentIndex := 2 },
    pkmnEditorTabWidget := { ui.pkmnEditorTabWidget with currentIndex := 0 } }

/-- The switch of lines 1125-1146: the `PKMN_STATUS_COMBOBOX_*` index of a
status, `none` where the switch throws. -/
def status_index (st : status_condition) : Option Int :=
  match st with
  | status_condition.HEALTHY => some 0
  | status_condition.PAR => some 1
  | status_condition.PSN => some 2
  | status_condition.SLP => some 3
  | status_condition.FRZ => some 4
  | status_condition.BRN => some 5
  | status_condition.other _ => none

/-- Lines 1148-1170: the status field and the ability field.  Only the
abilities whose name is not the placeholder `_` are listed, and the field is
left as reset when there is none. -/
def editor_status_ability (ai : Bool) (p : pokemon) (index : Int) (ui : Ui) : Ui :=
  let allow := p.allowed_modifications
  let named := p.abilities.filter (fun a => a != "_")
  let has_ability := p.abilities.any (fun a => a != "_")
  { ui with
    statusComboBox := (ui.statusComboBox.setCurrentIndex index).setEnabled true,
    abilityComboBox :=
      if p.compat_has_ability then
        if has_ability then
          ((((ui.abilityComboBox.addItems named).setCurrentIndex p.ability_id).setEnabled
            (allow.set_ability || ai)).setEditable (allow.set_ability || ai))
        else ui.abilityComboBox.addItems named
      else ui.abilityComboBox.setEnabled false }

/-- Lines 1172-1187: the held-item field.  `t` is the trainer `save.trainer`
points to; `item_idx_from_name` may throw. -/
def editor_held_item (lib : pklib) (t : trainer) (p : pokemon) (box : QComboBox) :
    Except String QComboBox :=
  if p.compat_has_held_item then
    match p.held_item with
    | none => Except.ok box
    | some held_name =>
      let box := box.addItems t.get_all_items
      if p.has_item then
        match lib.item_idx_from_name t held_name with
        | Except.error e => Except.error e
        | Except.ok idx => Except.ok ((box.setCurrentIndex idx).setEnabled true)
      else
        Except.ok ((box.setCurrentIndex 0).setEnabled true)
  else
    Except.ok (box.setEnabled false)

/-- Lines 1189-1211: Pokerus, shininess and egg flags. -/
def editor_flags (ai : Bool) (p : pokemon) (ui : Ui) : Ui :=
  let allow := p.allowed_modifications
  { ui with
    infectedCheckBox :=
      if p.compat_has_pokerus then
        (ui.infectedCheckBox.setChecked p.is_infected).setEnabled true
      else ui.infectedCheckBox.setEnabled false,
    curedCheckBox :=
      if p.compat_has_pokerus then
        (ui.curedCheckBox.setChecked p.is_cured).setEnabled true
      else ui.curedCheckBox.setEnabled false,
    shinyCheckBox :=
      if p.compat_has_shiny then
        (ui.shinyCheckBox.setEnabled (allow.set_shiny || ai)).setChecked p.is_shiny
      else ui.shinyCheckBox.setEnabled false,
    eggCheckBox :=
      if p.compat_has_egg then
        (ui.eggCheckBox.setEnabled (allow.set_egg || ai)).setChecked p.is_egg
      else ui.eggCheckBox.setEnabled false }

/-- The loop of lines 1229-1233: every location is listed, and the current
index is moved to each position whose id is `met`. -/
def add_locations (met : Nat) (locs : List location) (c : QComboBox) : QComboBox :=
  locs.enum.foldl
    (fun c e =>
      let c1 := c.addItem e.2.name
      if e.2.id = met then c1.setCurrentIndex e.1 else c1)
    c

/-- Lines 1213-1267: origin game, met location, pokeball, met level and
fateful encounter. -/
def editor_met (ai : Bool) (p : pokemon) (ui : Ui) : Ui :=
  let allow := p.allowed_modifications
  { ui with
    originGameComboBox :=
      if p.compat_has_origin then
        ((((ui.originGameComboBox.addItems p.origin_games).setCurrentIndex
          p.game_of_origin).setEnabled (allow.set_origin_game || ai)).setEditable
          (allow.set_origin_game || ai))
      else ui.originGameComboBox.setEnabled false,
    locationComboBox :=
      if p.compat_has_location_met then
        (((add_locations (p.met_location % 65536) p.met_locations_list
          ui.locationComboBox).setEnabled (allow.set_met_location || ai)).setEditable
          (allow.set_met_location || ai))
      else ui.locationComboBox.setEnabled false,
    pokeballComboBox :=
      if p.compat_has_pokeball then
        (((ui.pokeballComboBox.addItems p.pokeball_list).setCurrentIndex
          p.pokeball).setEnabled true)
      else ui.pokeballComboBox.setEnabled false,
    levelMetSpinBox :=
      if p.compat_has_level_met then
        (((ui.levelMetSpinBox.setValue p.level_met).setEnabled
          (allow.set_level_met || ai)).setReadOnly (!(allow.set_level_met || ai)))
      else ui.levelMetSpinBox.setEnabled false,
    fatefulEncounterCheckBox :=
      if p.compat_has_fateful_encounter then
        (((ui.fatefulEncounterCheckBox.setChecked p.fateful_encounter).setEnabled
          (allow.set_fateful_encounter || ai)).setCheckable
          (allow.set_fateful_encounter || ai))
      else ui.fatefulEncounterCheckBox.setEnabled false }

/-- Lines 1269-1326: IV and EV ranges, the two groups of special fields, the
four common IV and EV fields, and the stat values.  `iv_max` is a `u8` and
`ev_max` a `u16`. -/
def editor_stats (ai : Bool) (p : pokemon) (ui : Ui) : Ui :=
  let allow := p.allowed_modifications
  let label_text := if p.generation ≤ 2 then "DV:" else "IV:"
  let iv_max : Int := (p.iv_maximum_value % 256 : Nat)
  let ev_max : Int := (p.ev_maximum_value % 65536 : Nat)
  let iv_modifiable := allow.set_ivs || ai
  update_stats_on_ui (some p)
    { ui with
      hpIvLabel := { ui.hpIvLabel with text := label_text },
      atkIvLabel := { ui.atkIvLabel with text := label_text },
      defIvLabel := { ui.defIvLabel with text := label_text },
      speIvLabel := { ui.speIvLabel with text := label_text },
      hpIvSpinBox :=
        (((ui.hpIvSpinBox.setMaximum iv_max).setEnabled true).setReadOnly (!iv_modifiable)),
      atkIvSpinBox :=
        (((ui.atkIvSpinBox.setMaximum iv_max).setEnabled true).setReadOnly (!iv_modifiable)),
      defIvSpinBox :=
        (((ui.defIvSpinBox.setMaximum iv_max).setEnabled true).setReadOnly (!iv_modifiable)),
      speIvSpinBox :=
        (((ui.speIvSpinBox.setMaximum iv_max).setEnabled true).setReadOnly (!iv_modifiable)),
      hpevSpinBox := (ui.hpevSpinBox.setMaximum ev_max).setEnabled true,
      atkEvSpinBox := (ui.atkEvSpinBox.setMaximum ev_max).setEnabled true,
      defEvSpinBox := (ui.defEvSpinBox.setMaximum ev_max).setEnabled true,
      speEvSpinBox := (ui.speEvSpinBox.setMaximum ev_max).setEnabled true,
      spAtkIvSpinBox :=
        if !p.compat_has_spc_eviv then
          (ui.spAtkIvSpinBox.setEnabled true).setReadOnly (!iv_modifiable)
        else ui.spAtkIvSpinBox.setEnabled false,
      spDefIvSpinBox :=
        if !p.compat_has_spc_eviv then
          (ui.spDefIvSpinBox.setEnabled true).setReadOnly (!iv_modifiable)
        else ui.spDefIvSpinBox.setEnabled false,
      spAtkEvSpinBox :=
        if !p.compat_has_spc_eviv then (ui.spAtkEvSpinBox.setMaximum ev_max).setEnabled true
        else (ui.spAtkEvSpinBox.setMaximum ev_max).setEnabled false,
      spDefEvSpinBox :=
        if !p.compat_has_spc_eviv then (ui.spDefEvSpinBox.setMaximum ev_max).setEnabled true
        else (ui.spDefEvSpinBox.setMaximum ev_max).setEnabled false,
      spcEvSpinBox :=
        if !p.compat_has_spc_eviv then (ui.spcEvSpinBox.setEnabled false).setEnabled false
        else ui.spcEvSpinBox.setEnabled true,
      spDvSpinBox :=
        if !p.compat_has_spc_eviv then ui.spDvSpinBox.setEnabled false
        else (ui.spDvSpinBox.setEnabled true).setReadOnly (!iv_modifiable),
      spSpinBox :=
        if !p.compat_has_spc_eviv then ui.spSpinBox
        else ui.spSpinBox.setEnabled p.compat_has_spc }

/-- What lines 1330-1348 do to the combo of one move slot holding move
`move`. -/
def editor_move_combo (m_modifiable : Bool) (names : List String) (move : Nat)
    (c : QComboBox) : QComboBox :=
  ((((c.addItems names).setEnabled m_modifiable).setCurrentIndex move).setEditable m_modifiable)

/-- What lines 1350-1357 and 1372-1375 do to the PP box of one move slot:
the value is set first, the maximum last. -/
def editor_pp_box (pp max_pp : Nat) (b : QSpinBox) : QSpinBox :=
  (((b.setValue pp).setEnabled true).setMaximum max_pp)

/-- Lines 1328-1375: the four move slots. -/
def editor_moves (ai : Bool) (p : pokemon) (ui : Ui) : Ui :=
  let m_modifiable := p.allowed_modifications.set_moveset || ai
  { ui with
    m1ComboBox := editor_move_combo m_modifiable p.move_list p.move1 ui.m1ComboBox,
    m2ComboBox := editor_move_combo m_modifiable p.move_list p.move2 ui.m2ComboBox,
    m3ComboBox := editor_move_combo m_modifiable p.move_list p.move3 ui.m3ComboBox,
    m4ComboBox := editor_move_combo m_modifiable p.move_list p.move4 ui.m4ComboBox,
    pp1SpinBox := editor_pp_box p.pp1 p.move1_max_pp ui.pp1SpinBox,
    pp2SpinBox := editor_pp_box p.pp2 p.move2_max_pp ui.pp2SpinBox,
    pp3SpinBox := editor_pp_box p.pp3 p.move3_max_pp ui.pp3SpinBox,
    pp4SpinBox := editor_pp_box p.pp4 p.move4_max_pp ui.pp4SpinBox,
    pp1BonusSpinBox := (ui.pp1BonusSpinBox.setValue p.move1_pp_bonus).setEnabled true,
    pp2BonusSpinBox := (ui.pp2BonusSpinBox.setValue p.move2_pp_bonus).setEnabled true,
    pp3BonusSpinBox := (ui.pp3BonusSpinBox.setValue p.move3_pp_bonus).setEnabled true,
    pp4BonusSpinBox := (ui.pp4BonusSpinBox.setValue p.move4_pp_bonus).setEnabled true,
    m1MaxppLineEdit := ui.m1MaxppLineEdit.setText (toString p.move1_max_pp),
    m2MaxppLineEdit := ui.m2MaxppLineEdit.setText (toString p.move2_max_pp),
    m3MaxppLineEdit := ui.m3MaxppLineEdit.setText (toString p.move3_max_pp),
    m4MaxppLineEdit := ui.m4MaxppLineEdit.setText (toString p.move4_max_pp) }

/-- Lines 1377-1398: the original trainer's ids, name and gender, and the
trade button. -/
def editor_trainer (ai : Bool) (p : pokemon) (ui : Ui) : Ui :=
  let allow := p.allowed_modifications
  { ui with
    otPidLineEdit :=
      (((ui.otPidLineEdit.setText (toString p.ot_public_id)).setEnabled
        (allow.set_ot_pid || ai)).setReadOnly (!(allow.set_ot_pid || ai))),
    otSidLineEdit :=
      (((ui.otSidLineEdit.setText (toString p.ot_secret_id)).setEnabled
        (allow.set_ot_sid || ai)).setReadOnly (!(allow.set_ot_sid || ai))),
    otNameLineEdit :=
      if p.compat_has_ot_name then
        (ui.otNameLineEdit.setText p.ot_name).setEnabled true
      else ui.otNameLineEdit.setEnabled false,
    otGenderComboBox :=
      if p.compat_has_ot_gender then
        (ui.otGenderComboBox.setCurrentIndex (if p.ot_is_female then 1 else 0)).setEnabled true
      else ui.otGenderComboBox.setEnabled false,
    pkmnSimulateTradePushButton :=
      ui.pkmnSimulateTradePushButton.setEnabled p.has_trade_evolution }

/-- Function `set_pkmn_in_editor(pkmn)` (window.cc:1062).  The combos are reset before
the null check, so a null argument returns there and `sel_pkmn` is assigned
only on the last line.  The function throws where `allow_illegal_changes`
does, at an unnamed status, and where `item_idx_from_name` does. -/
def set_pkmn_in_editor (lib : pklib) (pkmn : Option Nat) (w : MainWindow) : Outcome :=
  let w := { w with ui := editor_reset_combos w.ui }
  match pkmn with
  | none => Outcome.returned w
  | some a =>
    match w.deref a with
    | none => Outcome.undefined
    | some p0 =>
      let ai := w.opt.allow_illegal_modifications
      let w := w.log (Event.allow_illegal_changes a ai)
      match lib.allow_illegal_changes p0 ai with
      | Except.error e => Outcome.threw e w
      | Except.ok p =>
        let w := w.store a p
        let w := { w with
          ui := editor_nature ai p (editor_gender ai p (editor_description ai p w.ui)) }
        match status_index p.status with
        | none => Outcome.threw "invalid status condition" w
        | some index =>
          let w := { w with ui := editor_status_ability ai p index w.ui }
          match w.save.trainer with
          | none => Outcome.undefined
          | some t =>
            match editor_held_item lib t p w.ui.heldItemComboBox with
            | Except.error e => Outcome.threw e w
            | Except.ok box =>
              Outcome.returned
                { w with
                  ui := editor_trainer ai p (editor_moves ai p (editor_stats ai p
                          (editor_met ai p (editor_flags ai p
                            { w.ui with heldItemComboBox := box })))),
                  sel_pkmn := some a }

/-- The form `set_pkmn_in_editor` leaves when it returns: its sections in
source order, for the creature `p`, the status index `index` and the held-item
combo `box` that `editor_held_item` returned. -/
def editor_form (ai : Bool) (p : pokemon) (index : Int) (box : QComboBox) (ui : Ui) : Ui :=
  editor_trainer ai p (editor_moves ai p (editor_stats ai p (editor_met ai p (editor_flags ai p
    { editor_status_ability ai p index (editor_nature ai p (editor_gender ai p
        (editor_description ai p (editor_reset_combos ui)))) with heldItemComboBox := box }))))

/-! ## `reset_ui` and `open_file` (window.cc:898-983, 1502-1540) -/

/-- Lines 1506-1537 of `reset_ui`: the tables, the trainer fields and the
editor fields are cleared and disabled. -/
def reset_ui_fields (ui : Ui) : Ui :=
  { ui with
    partyTableWidget := reset_table_widget ui.partyTableWidget,
    itemsTableWidget := reset_table_widget ui.itemsTableWidget,
    ballsTableWidget := reset_table_widget ui.ballsTableWidget,
    keyItemsTableWidget := reset_table_widget ui.keyItemsTableWidget,
    berriesTableWidget := reset_table_widget ui.berriesTableWidget,
    tmsTableWidget := reset_table_widget ui.tmsTableWidget,
    pcItemsTableWidget := reset_table_widget ui.pcItemsTableWidget,
    nameLineEdit := reset_line_edit ui.nameLineEdit,
    genderComboBox := reset_combo_box ui.genderComboBox,
    moneySpinBox := reset_spinbox ui.moneySpinBox,
    coinsSpinBox := reset_spinbox ui.coinsSpinBox,
    publicIdLineEdit := reset_line_edit ui.publicIdLineEdit,
    secretIdLineEdit := reset_line_edit ui.secretIdLineEdit,
    timePlayedLineEdit := reset_line_edit ui.timePlayedLineEdit,
    nicknameLineEdit := reset_line_edit ui.nicknameLineEdit,
    levelSpinBox := reset_spinbox ui.levelSpinBox,
    expSpinBox := reset_spinbox ui.expSpinBox,
    friendshipSpinBox := reset_spinbox ui.friendshipSpinBox,
    pIDLineEdit := reset_line_edit ui.pIDLineEdit,
    levelMetSpinBox := reset_spinbox ui.levelMetSpinBox,
    eggCheckBox := reset_checkbox ui.eggCheckBox,
    shinyCheckBox := reset_checkbox ui.shinyCheckBox,
    infectedCheckBox := reset_checkbox ui.infectedCheckBox,
    curedCheckBox := reset_checkbox ui.curedCheckBox,
    fatefulEncounterCheckBox := reset_checkbox ui.fatefulEncounterCheckBox,
    otPidLineEdit := reset_line_edit ui.otPidLineEdit,
    otSidLineEdit := reset_line_edit ui.otSidLineEdit,
    otNameLineEdit := reset_line_edit ui.otNameLineEdit,
    otGenderComboBox := ui.otGenderComboBox.setEnabled false }

/-- Function `reset_ui` (window.cc:1502): `set_pkmn_in_editor(nullptr)`, then the
fields are reset. -/
def reset_ui (lib : pklib) (w : MainWindow) : Outcome :=
  match set_pkmn_in_editor lib none w with
  | Outcome.returned w1 => Outcome.returned { w1 with ui := reset_ui_fields w1.ui }
  | o => o

/-- The lambda `add_items` of `open_file` (window.cc:947): item `i` is
inserted as row `i`, so the new rows come first and push down the rows the
table already had. -/
def add_items (items : List item) (table : QTableWidget) : QTableWidget :=
  { table with
    rows := items.map (fun it => [it.name, toString it.count]) ++ table.rows,
    selectedRow := table.selectedRow.map (fun r => r + items.length),
    currentRow := if table.currentRow < 0 then table.currentRow
                  else table.currentRow + items.length }

/-- Lines 915-976 of `open_file`: what the window shows of the trainer `t` of
the save just read. -/
def open_file_show (game_name : String) (category : item_category) (t : trainer)
    (ui : Ui) : Ui :=
  let ui := { ui with
    saveLoadedLabel :=
      { text := "Detected Save: Pokemon " ++ game_name,
        styleSheet := "font: 16pt \"Sans Serif\"; color: green;" },
    nameLineEdit :=
      (((ui.nameLineEdit.setEnabled true).setText t.name).setMaxLength t.name_length),
    genderComboBox :=
      ((ui.genderComboBox.setEnabled true).setCurrentIndex (if t.is_female then 1 else 0)),
    moneySpinBox :=
      (((ui.moneySpinBox.setEnabled true).setMaximum t.max_money).setValue t.money),
    coinsSpinBox :=
      (((ui.coinsSpinBox.setEnabled true).setMaximum t.max_coins).setValue t.coins),
    partyTableWidget := ui.partyTableWidget.setEnabled true,
    addItemPushButton := ui.addItemPushButton.setEnabled true,
    publicIdLineEdit :=
      ((ui.publicIdLineEdit.setText (toString t.public_id)).setEnabled true),
    secretIdLineEdit :=
      ((ui.secretIdLineEdit.setText (toString t.secret_id)).setEnabled true),
    timePlayedLineEdit :=
      ui.timePlayedLineEdit.setText
        (toString t.time_played.hours ++ ":" ++ toString t.time_played.minutes ++ ":" ++
          toString t.time_played.seconds) }
  let ui := update_party_table_widget t ui
  { ui with
    itemsTableWidget := (add_items t.get_pocket_items ui.itemsTableWidget).setEnabled true,
    ballsTableWidget := (add_items t.get_ball_items ui.ballsTableWidget).setEnabled true,
    berriesTableWidget := (add_items t.get_berry_case ui.berriesTableWidget).setEnabled true,
    tmsTableWidget := (add_items t.get_tm_case ui.tmsTableWidget).setEnabled true,
    keyItemsTableWidget := (add_items t.get_key_items ui.keyItemsTableWidget).setEnabled true,
    pcItemsTableWidget := (add_items t.get_pc_items ui.pcItemsTableWidget).setEnabled true,
    itemsTabWidget := { ui.itemsTabWidget with enabled := true },
    itemNameComboBox :=
      (add_item_names_to_combo_box t category ui.itemNameComboBox).setEnabled true,
    quantitySpinBox := ui.quantitySpinBox.setEnabled true }

/-- The `try` block of `open_file` (window.cc:906-978).  A loaded save is
discarded first: the fields are reset, the trainer is deleted and
`save_loaded` is cleared; then the file is read. -/
def open_file_body (lib : pklib) (filename : String) (w : MainWindow) : Outcome :=
  let discarded :=
    if w.save_loaded then
      match reset_ui lib w with
      | Outcome.returned w1 =>
        Outcome.returned
          { w1 with save := { w1.save with trainer := none }, save_loaded := false }
      | o => o
    else Outcome.returned w
  match discarded with
  | Outcome.returned w1 =>
    let w2 := w1.log (Event.read_pkmn_save_file filename)
    match lib.read_pkmn_save_file filename with
    | Except.error e => Outcome.threw e w2
    | Except.ok new_save =>
      let w3 := { w2 with save := new_save, save_loaded := true }
      match new_save.trainer with
      | none => Outcome.undefined
      | some t =>
        Outcome.returned
          { w3 with ui := open_file_show new_save.game_name w3.sel_item_category t w3.ui }
  | o => o

/-- Function `open_file` (window.cc:898).  `filename` is what the file dialog returns;
an empty name returns at once. -/
def open_file (lib : pklib) (filename : String) (w : MainWindow) : Outcome :=
  if filename.isEmpty then Outcome.returned w
  else catch_popup (open_file_body lib filename w)

/-! ## The slots connected in the constructor (window.cc:63-894) -/

/-- The slot of the allow-illegal action (window.cc:104).  The action's
checked state is read from the form. -/
def actionAllow_Potentially_Illegal_Modifications_triggered (lib : pklib)
    (w : MainWindow) : Outcome :=
  let w := { w with opt := { w.opt with
    allow_illegal_modifications :=
      w.ui.actionAllow_Potentially_Illegal_Modifications.checked } }
  match w.sel_pkmn with
  | none => Outcome.returned w
  | some a => set_pkmn_in_editor lib (some a) w

/-- The slot of `partyTableWidget::itemClicked` (window.cc:118) for an item of
row `row`. -/
def partyTableWidget_itemClicked (row : Nat) (w : MainWindow) : Outcome :=
  match w.save.trainer with
  | none => Outcome.undefined
  | some t =>
    if row ≥ t.pkmn_team.length then Outcome.returned w
    else
      Outcome.returned { w with ui := { w.ui with
        editPkmnPartyPushButton := w.ui.editPkmnPartyPushButton.setEnabled true,
        deletePkmnPartyPushButton :=
          w.ui.deletePkmnPartyPushButton.setEnabled (decide (t.pkmn_team.length > 1)) } }

/-- The slot of `editPkmnPartyPushButton` (window.cc:124).  Indexing the empty
selection, a null trainer or a row past the team is undefined. -/
def editPkmnPartyPushButton_clicked (lib : pklib) (w : MainWindow) : Outcome :=
  match w.ui.partyTableWidget.selectedRow with
  | none => Outcome.undefined
  | some row =>
    let w := { w with
      sel_pkmn_table_widget := some table_ref.partyTableWidget,
      sel_pkmn_table_row := row }
    match w.save.trainer with
    | none => Outcome.undefined
    | some t =>
      match t.pkmn_team.get? row with
      | none => Outcome.undefined
      | some e => set_pkmn_in_editor lib (some e.1) w

/-- The slot of `deletePkmnPartyPushButton` (window.cc:130). -/
def deletePkmnPartyPushButton_clicked (lib : pklib) (w : MainWindow) : Outcome :=
  match w.save.trainer with
  | none => Outcome.undefined
  | some t =>
    if t.pkmn_team.length ≤ 1 then
      Outcome.returned (show_popup_error w "Cannot delete last pokemon in party")
    else
      match w.ui.partyTableWidget.selectedRow with
      | none => Outcome.undefined
      | some row =>
        let w := w.log (Event.remove_pkmn_from_party row)
        match lib.remove_pkmn_from_party t row with
        | Except.error e => Outcome.returned (show_popup_error w e)
        | Except.ok t1 =>
          Outcome.returned
            { w with
              save := { w.save with trainer := some t1 },
              ui := update_party_table_widget t1
                { w.ui with
                  partyTableWidget := w.ui.partyTableWidget.clearSelection,
                  editPkmnPartyPushButton := w.ui.editPkmnPartyPushButton.setEnabled false,
                  deletePkmnPartyPushButton :=
                    w.ui.deletePkmnPartyPushButton.setEnabled false } }

/-- The tail shared by the gender and shiny slots:
`if (sel_pkmn_table_widget == ui->partyTableWidget) update_party_table_widget();`
on a window whose trainer pointer is live. -/
def refresh_party_if_selected (w : MainWindow) : MainWindow :=
  if w.sel_pkmn_table_widget = some table_ref.partyTableWidget then
    match w.save.trainer with
    | none => w
    | some t => { w with ui := update_party_table_widget t w.ui }
  else w

/-- The switch of the gender slot (window.cc:376): the gender of a combo
index, `none` where the switch throws. -/
def gender_of_index (i : Int) : Option pokemon_gender :=
  if i = 0 then some pokemon_gender.NA
  else if i = 1 then some pokemon_gender.MALE
  else if i = 2 then some pokemon_gender.FEMALE
  else if i = 3 then some pokemon_gender.GENDERLESS
  else none

/-- The slot of `pkmnGenderComboBox::currentIndexChanged` (window.cc:369). -/
def pkmnGenderComboBox_currentIndexChanged (lib : pklib) (w : MainWindow) : Outcome :=
  match w.sel_pkmn with
  | none => Outcome.returned w
  | some a =>
    match gender_of_index w.ui.pkmnGenderComboBox.currentIndex with
    | none => Outcome.returned (show_popup_error w "Invalid gender")
    | some gender =>
      match w.deref a with
      | none => Outcome.undefined
      | some p0 =>
        let w := w.log (Event.set_gender a gender)
        match lib.set_gender p0 gender with
        | Except.error e => Outcome.returned (show_popup_error w e)
        | Except.ok p =>
          let w := w.store a p
          let ui := { w.ui with
            shinyCheckBox := w.ui.shinyCheckBox.setChecked p.is_shiny,
            natureComboBox := w.ui.natureComboBox.setCurrentIndex (p.nature + 1) }
          Outcome.returned (refresh_party_if_selected { w with ui := update_pid_on_ui p ui })

/-- The slot of `natureComboBox::currentIndexChanged` (window.cc:406). -/
def natureComboBox_currentIndexChanged (lib : pklib) (w : MainWindow) : Outcome :=
  match w.sel_pkmn with
  | none => Outcome.returned w
  | some a =>
    if w.ui.natureComboBox.currentIndex = 0 then
      Outcome.returned (show_popup_error w "Invalid nature")
    else
      match w.deref a with
      | none => Outcome.undefined
      | some p0 =>
        let nature := w.ui.natureComboBox.currentIndex - 1
        let w := w.log (Event.set_nature a nature)
        match lib.set_nature p0 nature with
        | Except.error e => Outcome.returned (show_popup_error w e)
        | Except.ok p =>
          let w := w.store a p
          let ui := set_pkmn_gender_combo_box p w.ui
          let ui := { ui with shinyCheckBox := ui.shinyCheckBox.setChecked p.is_shiny }
          Outcome.returned
            { w with ui := update_stats_on_ui (some p) (update_pid_on_ui p ui) }

/-- The slot of `shinyCheckBox::stateChanged` (window.cc:513).  Its handler
sets the box to the state the box already has, then reports the error. -/
def shinyCheckBox_stateChanged (lib : pklib) (w : MainWindow) : Outcome :=
  match w.sel_pkmn with
  | none => Outcome.returned w
  | some a =>
    match w.deref a with
    | none => Outcome.undefined
    | some p0 =>
      let checked := w.ui.shinyCheckBox.checked
      let w := w.log (Event.set_shiny a checked)
      match lib.set_shiny p0 checked with
      | Except.error e =>
        Outcome.returned (show_popup_error
          { w with ui := { w.ui with
              shinyCheckBox := w.ui.shinyCheckBox.setChecked w.ui.shinyCheckBox.checked } } e)
      | Except.ok p =>
        let w := w.store a p
        let ui := { w.ui with
          natureComboBox := w.ui.natureComboBox.setCurrentIndex (p.nature + 1) }
        let ui := set_pkmn_gender_combo_box p ui
        Outcome.returned (refresh_party_if_selected { w with ui := update_pid_on_ui p ui })

/-- Whether `isspace` holds of a character (C locale). -/
def isspace (c : Char) : Bool :=
  c = ' ' || (9 ≤ c.toNat && c.toNat ≤ 13)

/-- Function `std::stoi`: leading white space is skipped, then an optional sign and the
longest run of decimal digits are read.  It throws when there is no digit and
when the number is not an `int`. -/
def stoi (text : String) : Except String Int :=
  let cs := text.toList.dropWhile isspace
  let negative := cs.head? = some '-'
  let cs := if cs.head? = some '-' || cs.head? = some '+' then cs.tail else cs
  let digits := cs.takeWhile Char.isDigit
  if digits.isEmpty then Except.error "stoi"
  else
    let n : Nat := digits.foldl (fun acc c => 10 * acc + (c.toNat - 48)) 0
    let v : Int := if negative then -(n : Int) else n
    if v < -2147483648 || 2147483647 < v then Except.error "stoi" else Except.ok v

/-- The slot of `otPidLineEdit::textChanged` (window.cc:787). -/
def otPidLineEdit_textChanged (lib : pklib) (w : MainWindow) : Outcome :=
  match w.sel_pkmn with
  | none => Outcome.returned w
  | some a =>
    if w.ui.otPidLineEdit.text.isEmpty then Outcome.returned w
    else
      match stoi w.ui.otPidLineEdit.text with
      | Except.error e => Outcome.returned (show_popup_error w e)
      | Except.ok id =>
        match w.deref a with
        | none => Outcome.undefined
        | some p0 =>
          let w := w.log (Event.set_ot_pid a id)
          match lib.set_ot_pid p0 id with
          | Except.error e => Outcome.returned (show_popup_error w e)
          | Except.ok p =>
            let w := w.store a p
            Outcome.returned { w with ui := { w.ui with
              shinyCheckBox := w.ui.shinyCheckBox.setChecked p.is_shiny } }

/-- The slot of `otSidLineEdit::textChanged` (window.cc:804). -/
def otSidLineEdit_textChanged (lib : pklib) (w : MainWindow) : Outcome :=
  match w.sel_pkmn with
  | none => Outcome.returned w
  | some a =>
    if w.ui.otSidLineEdit.text.isEmpty then Outcome.returned w
    else
      match stoi w.ui.otSidLineEdit.text with
      | Except.error e => Outcome.returned (show_popup_error w e)
      | Except.ok id =>
        match w.deref a with
        | none => Outcome.undefined
        | some p0 =>
          let w := w.log (Event.set_ot_sid a id)
          match lib.set_ot_sid p0 id with
          | Except.error e => Outcome.returned (show_popup_error w e)
          | Except.ok p =>
            let w := w.store a p
            Outcome.returned { w with ui := { w.ui with
              shinyCheckBox := w.ui.shinyCheckBox.setChecked p.is_shiny } }

/-- The value an `int` has once it is stored in a `u16`. -/
def u16 (v : Int) : Nat := (v % 65536).toNat

/-- The table a `QTableWidget *` points to. -/
def Ui.table (ui : Ui) (r : table_ref) : QTableWidget :=
  match r with
  | table_ref.itemsTableWidget => ui.itemsTableWidget
  | table_ref.ballsTableWidget => ui.ballsTableWidget
  | table_ref.berriesTableWidget => ui.berriesTableWidget
  | table_ref.tmsTableWidget => ui.tmsTableWidget
  | table_ref.keyItemsTableWidget => ui.keyItemsTableWidget
  | table_ref.pcItemsTableWidget => ui.pcItemsTableWidget
  | table_ref.partyTableWidget => ui.partyTableWidget

/-- The form after the table a `QTableWidget *` points to has become `t`. -/
def Ui.set_table (ui : Ui) (r : table_ref) (t : QTableWidget) : Ui :=
  match r with
  | table_ref.itemsTableWidget => { ui with itemsTableWidget := t }
  | table_ref.ballsTableWidget => { ui with ballsTableWidget := t }
  | table_ref.berriesTableWidget => { ui with berriesTableWidget := t }
  | table_ref.tmsTableWidget => { ui with tmsTableWidget := t }
  | table_ref.keyItemsTableWidget => { ui with keyItemsTableWidget := t }
  | table_ref.pcItemsTableWidget => { ui with pcItemsTableWidget := t }
  | table_ref.partyTableWidget => { ui with partyTableWidget := t }

/-- What lines 221-226 do to the selected table: a row is inserted at the end
and its name and quantity cells are set. -/
def append_item_row (name : String) (quantity : Nat) (table : QTableWidget) :
    QTableWidget :=
  let table := table.insertRow table.rowCount
  let table := table.setItem (table.rowCount - 1) 0 name
  table.setItem (table.rowCount - 1) 1 (toString quantity)

/-- The slot of `addItemPushButton` (window.cc:215).  The quantity is read
into a `u16`. -/
def addItemPushButton_clicked (lib : pklib) (w : MainWindow) : Outcome :=
  let name := w.ui.itemNameComboBox.currentText
  let quantity := u16 w.ui.quantitySpinBox.value
  match w.save.trainer with
  | none => Outcome.undefined
  | some t =>
    let w := w.log (Event.add_item w.sel_item_category name quantity)
    match lib.add_item t w.sel_item_category name quantity with
    | Except.error e => Outcome.returned (show_popup_error w e)
    | Except.ok t1 =>
      Outcome.returned
        { w with
          save := { w.save with trainer := some t1 },
          ui := w.ui.set_table w.sel_item_table_widget
            (append_item_row name quantity (w.ui.table w.sel_item_table_widget)) }

/-- What lines 236-241 do to the selected table: row `row` is removed, a row
is inserted there, its name and quantity cells are set and it is made
current. -/
def replace_item_row (row : Nat) (name : String) (quantity : Nat) (table : QTableWidget) :
    QTableWidget :=
  ((((table.removeRow row).insertRow row).setItem row 0 name).setItem row 1
    (toString quantity)).setCurrentItem row 0

/-- The slot of `editItemPushButton` (window.cc:231).  The current row and the
quantity are read into `u16`s.  There is no `try`: what `edit_item` throws
leaves the slot. -/
def editItemPushButton_clicked (lib : pklib) (w : MainWindow) : Outcome :=
  let row := u16 (w.ui.table w.sel_item_table_widget).currentRow
  let name := w.ui.itemNameComboBox.currentText
  let quantity := u16 w.ui.quantitySpinBox.value
  match w.save.trainer with
  | none => Outcome.undefined
  | some t =>
    let w := w.log (Event.edit_item w.sel_item_category row name quantity)
    match lib.edit_item t w.sel_item_category row name quantity with
    | Except.error e => Outcome.threw e w
    | Except.ok t1 =>
      Outcome.returned
        { w with
          save := { w.save with trainer := some t1 },
          ui := w.ui.set_table w.sel_item_table_widget
            (replace_item_row row name quantity (w.ui.table w.sel_item_table_widget)) }

/-- The slot of `deleteItemPushButton` (window.cc:243).  The current row is
read into a `u16`.  There is no `try`: what `del_item` throws leaves the
slot. -/
def deleteItemPushButton_clicked (lib : pklib) (w : MainWindow) : Outcome :=
  let row := u16 (w.ui.table w.sel_item_table_widget).currentRow
  match w.save.trainer with
  | none => Outcome.undefined
  | some t =>
    let w := w.log (Event.del_item w.sel_item_category row)
    match lib.del_item t w.sel_item_category row with
    | Except.error e => Outcome.threw e w
    | Except.ok t1 =>
      Outcome.returned
        { w with
          save := { w.save with trainer := some t1 },
          ui := w.ui.set_table w.sel_item_table_widget
            ((w.ui.table w.sel_item_table_widget).removeRow row) }

/-- The slot of `levelSpinBox::valueChanged` (window.cc:278).  The experience
box is given the new minimum, then the value, then the new maximum. -/
def levelSpinBox_valueChanged (lib : pklib) (w : MainWindow) : Outcome :=
  match w.sel_pkmn with
  | none => Outcome.returned w
  | some a =>
    match w.deref a with
    | none => Outcome.undefined
    | some p0 =>
      let level := w.ui.levelSpinBox.value
      let w := w.log (Event.set_level a level)
      match lib.set_level p0 level with
      | Except.error e => Outcome.returned (show_popup_error w e)
      | Except.ok p =>
        let w := w.store a p
        let ui := { w.ui with
          expSpinBox :=
            ((w.ui.expSpinBox.setMinimum p.min_exp).setValue p.exp).setMaximum p.max_exp }
        Outcome.returned
          (refresh_party_if_selected { w with ui := update_stats_on_ui (some p) ui })

/-- The slot of `speciesComboBox::currentIndexChanged` (window.cc:324):
`set_species`, then `set_pkmn_in_editor` on the selected creature. -/
def speciesComboBox_currentIndexChanged (lib : pklib) (w : MainWindow) : Outcome :=
  match w.sel_pkmn with
  | none => Outcome.returned w
  | some a =>
    catch_popup
      (match w.deref a with
       | none => Outcome.undefined
       | some p0 =>
         let species := w.ui.speciesComboBox.currentIndex
         let w := w.log (Event.set_species a species)
         match lib.set_species p0 species with
         | Except.error e => Outcome.threw e w
         | Except.ok p => set_pkmn_in_editor lib (some a) (w.store a p))

/-- The slot of `eggCheckBox::stateChanged` (window.cc:534).  Its handler sets
the box to the state the box already has, then reports the error. -/
def eggCheckBox_stateChanged (lib : pklib) (w : MainWindow) : Outcome :=
  match w.sel_pkmn with
  | none => Outcome.returned w
  | some a =>
    match w.deref a with
    | none => Outcome.undefined
    | some p0 =>
      let checked := w.ui.eggCheckBox.checked
      let w := w.log (Event.set_egg a checked)
      match lib.set_egg p0 checked with
      | Except.error e =>
        Outcome.returned (show_popup_error
          { w with ui := { w.ui with
              eggCheckBox := w.ui.eggCheckBox.setChecked w.ui.eggCheckBox.checked } } e)
      | Except.ok p => Outcome.returned (refresh_party_if_selected (w.store a p))

/-- The lambda connected to `fatefulEncounterCheckBox::stateChanged`
(window.cc:598).  Its handler sets the box to the creature's flag with the
signals of the box not blocked: when that changes the box, `stateChanged` is
raised again and `raised` runs before the error is reported. -/
def fatefulEncounterCheckBox_lambda (raised : MainWindow → Outcome) (lib : pklib)
    (w : MainWindow) : Outcome :=
  match w.sel_pkmn with
  | none => Outcome.returned w
  | some a =>
    match w.deref a with
    | none => Outcome.undefined
    | some p0 =>
      let checked := w.ui.fatefulEncounterCheckBox.checked
      let w := w.log (Event.set_fateful_encounter a checked)
      match lib.set_fateful_encounter p0 checked with
      | Except.error e =>
        let box := w.ui.fatefulEncounterCheckBox.setChecked p0.fateful_encounter
        revert_then_report (decide (box.checked ≠ checked)) raised
          { w with ui := { w.ui with fatefulEncounterCheckBox := box } } e
      | Except.ok p => Outcome.returned (w.store a p)

/-- The slot of `fatefulEncounterCheckBox::stateChanged`: the lambda, which
the signal raised by its own handler runs once more.  That second run finds
the box showing the creature's flag, so its handler changes nothing and the
signal is not raised a third time. -/
def fatefulEncounterCheckBox_stateChanged (lib : pklib) (w : MainWindow) : Outcome :=
  fatefulEncounterCheckBox_lambda (fatefulEncounterCheckBox_lambda Outcome.returned lib) lib w

/-- The slot of `pkmnSimulateTradePushButton` (window.cc:873).  After the
evolution it sets the species index and the nickname, refreshes the stats and
disables the button. -/
def pkmnSimulateTradePushButton_clicked (lib : pklib) (w : MainWindow) : Outcome :=
  match w.sel_pkmn with
  | none => Outcome.returned w
  | some a =>
    match w.deref a with
    | none => Outcome.undefined
    | some p0 =>
      if !p0.has_trade_evolution then
        Outcome.returned (show_popup_error w "Pokemon does not have a trade evolution")
      else
        let w := w.log (Event.simulate_trade_evolution a)
        match lib.simulate_trade_evolution p0 with
        | Except.error e => Outcome.returned (show_popup_error w e)
        | Except.ok p =>
          let w := w.store a p
          let ui := { w.ui with
            speciesComboBox := w.ui.speciesComboBox.setCurrentIndex p.species,
            nicknameLineEdit := w.ui.nicknameLineEdit.setText p.nickname }
          let ui := update_stats_on_ui (some p) ui
          Outcome.returned
            { w with ui := { ui with
                pkmnSimulateTradePushButton := ui.pkmnSimulateTradePushButton.setEnabled false } }

/-- The lambda connected to `m1ComboBox::currentIndexChanged`
(window.cc:611).  On success the PP box of slot 1 is given the new maximum, then
the value.  Its handler resets the combo to the creature's move 1 with the
signals of the combo not blocked: when that changes the index,
`currentIndexChanged` is raised again and `raised` runs before the error is
reported. -/
def m1ComboBox_lambda (raised : MainWindow → Outcome) (lib : pklib) (w : MainWindow) :
    Outcome :=
  match w.sel_pkmn with
  | none => Outcome.returned w
  | some a =>
    match w.deref a with
    | none => Outcome.undefined
    | some p0 =>
      let move := w.ui.m1ComboBox.currentIndex
      let w := w.log (Event.set_move1 a move)
      match lib.set_move1 p0 move with
      | Except.error e =>
        let box := w.ui.m1ComboBox.setCurrentIndex p0.move1
        revert_then_report (decide (box.currentIndex ≠ move)) raised
          { w with ui := { w.ui with m1ComboBox := box } } e
      | Except.ok p =>
        let w := w.store a p
        Outcome.returned { w with ui := { w.ui with
          pp1SpinBox := (w.ui.pp1SpinBox.setMaximum p.move1_max_pp).setValue p.pp1,
          m1MaxppLineEdit := w.ui.m1MaxppLineEdit.setText (toString p.move1_max_pp) } }

/-- The slot of `m1ComboBox::currentIndexChanged`: the lambda, which the
signal raised by its own handler runs once more.  That second run finds the
combo at the creature's move 1, so its handler changes nothing and the signal
is not raised a third time. -/
def m1ComboBox_currentIndexChanged (lib : pklib) (w : MainWindow) : Outcome :=
  m1ComboBox_lambda (m1ComboBox_lambda Outcome.returned lib) lib w

/-- The lambda connected to `m2ComboBox::currentIndexChanged`
(window.cc:628).  On success the PP box of slot 2 is given the new maximum, then
the value.  Its handler resets the combo to the creature's move 2 with the
signals of the combo not blocked: when that changes the index,
`currentIndexChanged` is raised again and `raised` runs before the error is
reported. -/
def m2ComboBox_lambda (raised : MainWindow → Outcome) (lib : pklib) (w : MainWindow) :
    Outcome :=
  match w.sel_pkmn with
  | none => Outcome.returned w
  | some a =>
    match w.deref a with
    | none => Outcome.undefined
    | some p0 =>
      let move := w.ui.m2ComboBox.currentIndex
      let w := w.log (Event.set_move2 a move)
      match lib.set_move2 p0 move with
      | Except.error e =>
        let box := w.ui.m2ComboBox.setCurrentIndex p0.move2
        revert_then_report (decide (box.currentIndex ≠ move)) raised
          { w with ui := { w.ui with m2ComboBox := box } } e
      | Except.ok p =>
        let w := w.store a p
        Outcome.returned { w with ui := { w.ui with
          pp2SpinBox := (w.ui.pp2SpinBox.setMaximum p.move2_max_pp).setValue p.pp2,
          m2MaxppLineEdit := w.ui.m2MaxppLineEdit.setText (toString p.move2_max_pp) } }

/-- The slot of `m2ComboBox::currentIndexChanged`: the lambda, which the
signal raised by its own handler runs once more.  That second run finds the
combo at the creature's move 2, so its handler changes nothing and the signal
is not raised a third time. -/
def m2ComboBox_currentIndexChanged (lib : pklib) (w : MainWindow) : Outcome :=
  m2ComboBox_lambda (m2ComboBox_lambda Outcome.returned lib) lib w

/-- The lambda connected to `m3ComboBox::currentIndexChanged`
(window.cc:645).  On success the PP box of slot 3 is given the new maximum, then
the value.  Its handler resets the combo to the creature's move 3 with the
signals of the combo not blocked: when that changes the index,
`currentIndexChanged` is raised again and `raised` runs before the error is
reported. -/
def m3ComboBox_lambda (raised : MainWindow → Outcome) (lib : pklib) (w : MainWindow) :
    Outcome :=
  match w.sel_pkmn with
  | none => Outcome.returned w
  | some a =>
    match w.deref a with
    | none => Outcome.undefined
    | some p0 =>
      let move := w.ui.m3ComboBox.currentIndex
      let w := w.log (Event.set_move3 a move)
      match lib.set_move3 p0 move with
      | Except.error e =>
        let box := w.ui.m3ComboBox.setCurrentIndex p0.move3
        revert_then_report (decide (box.currentIndex ≠ move)) raised
          { w with ui := { w.ui with m3ComboBox := box } } e
      | Except.ok p =>
        let w := w.store a p
        Outcome.returned { w with ui := { w.ui with
          pp3SpinBox := (w.ui.pp3SpinBox.setMaximum p.move3_max_pp).setValue p.pp3,
          m3MaxppLineEdit := w.ui.m3MaxppLineEdit.setText (toString p.move3_max_pp) } }

/-- The slot of `m3ComboBox::currentIndexChanged`: the lambda, which the
signal raised by its own handler runs once more.  That second run finds the
combo at the creature's move 3, so its handler changes nothing and the signal
is not raised a third time. -/
def m3ComboBox_currentIndexChanged (lib : pklib) (w : MainWindow) : Outcome :=
  m3ComboBox_lambda (m3ComboBox_lambda Outcome.returned lib) lib w

/-- The lambda connected to `m4ComboBox::currentIndexChanged`
(window.cc:662).  On success the PP box of slot 4 is given the new maximum, then
the value.  Its handler resets the combo to the creature's move 4 with the
signals of the combo not blocked: when that changes the index,
`currentIndexChanged` is raised again and `raised` runs before the error is
reported. -/
def m4ComboBox_lambda (raised : MainWindow → Outcome) (lib : pklib) (w : MainWindow) :
    Outcome :=
  match w.sel_pkmn with
  | none => Outcome.returned w
  | some a =>
    match w.deref a with
    | none => Outcome.undefined
    | some p0 =>
      let move := w.ui.m4ComboBox.currentIndex
      let w := w.log (Event.set_move4 a move)
      match lib.set_move4 p0 move with
      | Except.error e =>
        let box := w.ui.m4ComboBox.setCurrentIndex p0.move4
        revert_then_report (decide (box.currentIndex ≠ move)) raised
          { w with ui := { w.ui with m4ComboBox := box } } e
      | Except.ok p =>
        let w := w.store a p
        Outcome.returned { w with ui := { w.ui with
          pp4SpinBox := (w.ui.pp4SpinBox.setMaximum p.move4_max_pp).setValue p.pp4,
          m4MaxppLineEdit := w.ui.m4MaxppLineEdit.setText (toString p.move4_max_pp) } }

/-- The slot of `m4ComboBox::currentIndexChanged`: the lambda, which the
signal raised by its own handler runs once more.  That second run finds the
combo at the creature's move 4, so its handler changes nothing and the signal
is not raised a third time. -/
def m4ComboBox_currentIndexChanged (lib : pklib) (w : MainWindow) : Outcome :=
  m4ComboBox_lambda (m4ComboBox_lambda Outcome.returned lib) lib w

/-- The slot of `pp1BonusSpinBox::valueChanged` (window.cc:723).  On success
the PP box of slot 1 is given the new maximum, then the value. -/
def pp1BonusSpinBox_valueChanged (lib : pklib) (w : MainWindow) : Outcome :=
  match w.sel_pkmn with
  | none => Outcome.returned w
  | some a =>
    match w.deref a with
    | none => Outcome.undefined
    | some p0 =>
      let bonus := w.ui.pp1BonusSpinBox.value
      let w := w.log (Event.set_move1_bonus a bonus)
      match lib.set_move1_bonus p0 bonus with
      | Except.error e => Outcome.returned (show_popup_error w e)
      | Except.ok p =>
        let w := w.store a p
        Outcome.returned { w with ui := { w.ui with
          pp1SpinBox := (w.ui.pp1SpinBox.setMaximum p.move1_max_pp).setValue p.pp1,
          m1MaxppLineEdit := w.ui.m1MaxppLineEdit.setText (toString p.move1_max_pp) } }

/-- The slot of `pp2BonusSpinBox::valueChanged` (window.cc:739).  On success
the PP box of slot 2 is given the new maximum, then the value. -/
def pp2BonusSpinBox_valueChanged (lib : pklib) (w : MainWindow) : Outcome :=
  match w.sel_pkmn with
  | none => Outcome.returned w
  | some a =>
    match w.deref a with
    | none => Outcome.undefined
    | some p0 =>
      let bonus := w.ui.pp2BonusSpinBox.value
      let w := w.log (Event.set_move2_bonus a bonus)
      match lib.set_move2_bonus p0 bonus with
      | Except.error e => Outcome.returned (show_popup_error w e)
      | Except.ok p =>
        let w := w.store a p
        Outcome.returned { w with ui := { w.ui with
          pp2SpinBox := (w.ui.pp2SpinBox.setMaximum p.move2_max_pp).setValue p.pp2,
          m2MaxppLineEdit := w.ui.m2MaxppLineEdit.setText (toString p.move2_max_pp) } }

/-- The slot of `pp3BonusSpinBox::valueChanged` (window.cc:755).  On success
the PP box of slot 3 is given the new maximum, then the value. -/
def pp3BonusSpinBox_valueChanged (lib : pklib) (w : MainWindow) : Outcome :=
  match w.sel_pkmn with
  | none => Outcome.returned w
  | some a =>
    match w.deref a with
    | none => Outcome.undefined
    | some p0 =>
      let bonus := w.ui.pp3BonusSpinBox.value
      let w := w.log (Event.set_move3_bonus a bonus)
      match lib.set_move3_bonus p0 bonus with
      | Except.error e => Outcome.returned (show_popup_error w e)
      | Except.ok p =>
        let w := w.store a p
        Outcome.returned { w with ui := { w.ui with
          pp3SpinBox := (w.ui.pp3SpinBox.setMaximum p.move3_max_pp).setValue p.pp3,
          m3MaxppLineEdit := w.ui.m3MaxppLineEdit.setText (toString p.move3_max_pp) } }

/-- The slot of `pp4BonusSpinBox::valueChanged` (window.cc:771).  On success
the PP box of slot 4 is given the new maximum, then the value. -/
def pp4BonusSpinBox_valueChanged (lib : pklib) (w : MainWindow) : Outcome :=
  match w.sel_pkmn with
  | none => Outcome.returned w
  | some a =>
    match w.deref a with
    | none => Outcome.undefined
    | some p0 =>
      let bonus := w.ui.pp4BonusSpinBox.value
      let w := w.log (Event.set_move4_bonus a bonus)
      match lib.set_move4_bonus p0 bonus with
      | Except.error e => Outcome.returned (show_popup_error w e)
      | Except.ok p =>
        let w := w.store a p
        Outcome.returned { w with ui := { w.ui with
          pp4SpinBox := (w.ui.pp4SpinBox.setMaximum p.move4_max_pp).setValue p.pp4,
          m4MaxppLineEdit := w.ui.m4MaxppLineEdit.setText (toString p.move4_max_pp) } }

/-! ## The remaining slots (window.cc:111-117, 144-207, 248-277, 295-323, 335-368, 427-511, 548-596, 679-721, 821-864) -/

/-- The value an `int` has once it is stored in a `u8`. -/
def u8 (v : Int) : Nat := (v % 256).toNat

/-- The characters of a text without its leading and trailing white space. -/
def trimmed (text : String) : List Char :=
  ((text.toList.dropWhile isspace).reverse.dropWhile isspace).reverse

/-- The number a run of decimal digits denotes; `none` when the run is empty
or holds another character. -/
def decimal (cs : List Char) : Option Nat :=
  if cs.isEmpty || !cs.all Char.isDigit then none
  else some (cs.foldl (fun n c => 10 * n + (c.toNat - 48)) 0)

/-- Qt call `QString::toInt`: the `int` the text denotes in base 10, white
space around it ignored, and 0 when the conversion fails. -/
def toInt (text : String) : Int :=
  let v : Option Int :=
    match trimmed text with
    | '-' :: cs => (decimal cs).map (fun n => - (n : Int))
    | '+' :: cs => (decimal cs).map (fun n => (n : Int))
    | cs => (decimal cs).map (fun n => (n : Int))
  match v with
  | some v => if -2147483648 ≤ v ∧ v ≤ 2147483647 then v else 0
  | none => 0

/-- Qt call `QString::toUInt`: the `uint` the text denotes in base 10, white
space around it ignored, and 0 when the conversion fails. -/
def toUInt (text : String) : Int :=
  let v : Option Nat :=
    match trimmed text with
    | '+' :: cs => decimal cs
    | cs => decimal cs
  match v with
  | some v => if v ≤ 4294967295 then v else 0
  | none => 0

/-- The lambda `get_item_combobox_index` (window.cc:70): the first index of
the item name combo whose text is `name`; it throws when there is none. -/
def get_item_combobox_index (itemNameComboBox : QComboBox) (name : String) :
    Except String Nat :=
  match itemNameComboBox.items.indexOf? name with
  | some i => Except.ok i
  | none => Except.error "error: unable to find item index"

/-- The slot of `partyTableWidget`'s selection model, `selectionChanged`
(window.cc:111). -/
def partyTableWidget_selectionChanged (w : MainWindow) : Outcome :=
  if w.ui.partyTableWidget.selectedRow.isNone then
    Outcome.returned { w with ui := { w.ui with
      editPkmnPartyPushButton := w.ui.editPkmnPartyPushButton.setEnabled false,
      deletePkmnPartyPushButton := w.ui.deletePkmnPartyPushButton.setEnabled false } }
  else Outcome.returned w

/-- The switch of the tab slot (window.cc:146-174): the selected table and
category after tab `index` has been shown. -/
def select_item_tab (index : Int) (w : MainWindow) : MainWindow :=
  if index = 0 then
    { w with sel_item_table_widget := table_ref.itemsTableWidget,
             sel_item_category := item_category.Pocket }
  else if index = 1 then
    { w with sel_item_table_widget := table_ref.ballsTableWidget,
             sel_item_category := item_category.Pokeball }
  else if index = 2 then
    { w with sel_item_table_widget := table_ref.berriesTableWidget,
             sel_item_category := item_category.Berry }
  else if index = 3 then
    { w with sel_item_table_widget := table_ref.tmsTableWidget,
             sel_item_category := item_category.Tm }
  else if index = 4 then
    { w with sel_item_table_widget := table_ref.keyItemsTableWidget,
             sel_item_category := item_category.Key_Item }
  else if index = 5 then
    { w with sel_item_table_widget := table_ref.pcItemsTableWidget,
             sel_item_category := item_category.Pc }
  else w

/-- The slot of `itemsTabWidget::currentChanged` (window.cc:144).  With a
selection in the table now selected, the name index and the quantity are both
taken from the text of the table's current item.  There is no `try`: what
`get_item_combobox_index` throws leaves the slot. -/
def itemsTabWidget_currentChanged (index : Int) (w : MainWindow) : Outcome :=
  let w := select_item_tab index w
  match w.save.trainer with
  | none => Outcome.undefined
  | some t =>
    let table := w.ui.table w.sel_item_table_widget
    let selected := !table.selectedRow.isNone
    let w := { w with ui := { w.ui with
      itemNameComboBox :=
        add_item_names_to_combo_box t w.sel_item_category w.ui.itemNameComboBox,
      editItemPushButton := w.ui.editItemPushButton.setEnabled selected,
      deleteItemPushButton := w.ui.deleteItemPushButton.setEnabled selected } }
    if selected then
      match table.currentItem with
      | none => Outcome.undefined
      | some text =>
        match get_item_combobox_index w.ui.itemNameComboBox text with
        | Except.error e => Outcome.threw e w
        | Except.ok i =>
          Outcome.returned { w with ui := { w.ui with
            itemNameComboBox := w.ui.itemNameComboBox.setCurrentIndex i,
            quantitySpinBox := w.ui.quantitySpinBox.setValue (toInt text) } }
    else
      Outcome.returned { w with ui := { w.ui with
        itemNameComboBox := w.ui.itemNameComboBox.setCurrentIndex 0,
        quantitySpinBox := w.ui.quantitySpinBox.setValue 0 } }

/-- The lambda `on_item_select` (window.cc:191), the slot of `itemClicked` of
each of the six item tables.  The name is the text of column 0 of the current
row and the quantity the text of column 1, read into a `u16`.  There is no
`try`. -/
def on_item_select (w : MainWindow) : Outcome :=
  let table := w.ui.table w.sel_item_table_widget
  match table.item table.currentRow 0 with
  | none => Outcome.undefined
  | some name =>
    match table.item table.currentRow 1 with
    | none => Outcome.undefined
    | some text =>
      let quantity := u16 (toUInt text)
      match w.save.trainer with
      | none => Outcome.undefined
      | some t =>
        let w := { w with ui := { w.ui with
          itemNameComboBox :=
            add_item_names_to_combo_box t w.sel_item_category w.ui.itemNameComboBox.clear } }
        match get_item_combobox_index w.ui.itemNameComboBox name with
        | Except.error e => Outcome.threw e w
        | Except.ok i =>
          Outcome.returned { w with ui := { w.ui with
            itemNameComboBox := w.ui.itemNameComboBox.setCurrentIndex i,
            quantitySpinBox := w.ui.quantitySpinBox.setValue quantity,
            editItemPushButton := w.ui.editItemPushButton.setEnabled true,
            deleteItemPushButton := w.ui.deleteItemPushButton.setEnabled true } }

/-- Function `modify_iv(spin_box, stat)` (window.cc:999); the value of the box is read
into a `u8`. -/
def modify_iv (lib : pklib) (spin_box : QSpinBox) (stat : pkstat) (w : MainWindow) :
    Outcome :=
  match w.sel_pkmn with
  | none => Outcome.returned w
  | some a =>
    let iv := u8 spin_box.value
    match w.deref a with
    | none => Outcome.undefined
    | some p0 =>
      let w := w.log (Event.mutator (Mutator.set_iv a stat iv))
      match lib.set_iv p0 stat iv with
      | Except.error e => Outcome.returned (show_popup_error w e)
      | Except.ok p =>
        let w := w.store a p
        Outcome.returned { w with ui := update_stats_on_ui (some p) w.ui }

/-- Function `modify_ev(spin_box, stat)` (window.cc:1013); the value of the box is read
into a `u8`, and the stats are refreshed after the `try` block, whether
`set_ev` threw or not. -/
def modify_ev (lib : pklib) (spin_box : QSpinBox) (stat : pkstat) (w : MainWindow) :
    Outcome :=
  match w.sel_pkmn with
  | none => Outcome.returned w
  | some a =>
    let ev := u8 spin_box.value
    match w.deref a with
    | none => Outcome.undefined
    | some p0 =>
      let w := w.log (Event.mutator (Mutator.set_ev a stat ev))
      match lib.set_ev p0 stat ev with
      | Except.error e =>
        let w := show_popup_error w e
        Outcome.returned { w with ui := update_stats_on_ui (some p0) w.ui }
      | Except.ok p =>
        let w := w.store a p
        Outcome.returned { w with ui := update_stats_on_ui (some p) w.ui }

/-- The slot of `hpIvSpinBox::valueChanged` (window.cc:248). -/
def hpIvSpinBox_valueChanged (lib : pklib) (w : MainWindow) : Outcome :=
  modify_iv lib w.ui.hpIvSpinBox pkstat.Hp w

/-- The slot of `atkIvSpinBox::valueChanged` (window.cc:250). -/
def atkIvSpinBox_valueChanged (lib : pklib) (w : MainWindow) : Outcome :=
  modify_iv lib w.ui.atkIvSpinBox pkstat.Atk w

/-- The slot of `defIvSpinBox::valueChanged` (window.cc:252). -/
def defIvSpinBox_valueChanged (lib : pklib) (w : MainWindow) : Outcome :=
  modify_iv lib w.ui.defIvSpinBox pkstat.Def w

/-- The slot of `speIvSpinBox::valueChanged` (window.cc:254). -/
def speIvSpinBox_valueChanged (lib : pklib) (w : MainWindow) : Outcome :=
  modify_iv lib w.ui.speIvSpinBox pkstat.Spe w

/-- The slot of `spAtkIvSpinBox::valueChanged` (window.cc:256). -/
def spAtkIvSpinBox_valueChanged (lib : pklib) (w : MainWindow) : Outcome :=
  modify_iv lib w.ui.spAtkIvSpinBox pkstat.Spa w

/-- The slot of `spDefIvSpinBox::valueChanged` (window.cc:258). -/
def spDefIvSpinBox_valueChanged (lib : pklib) (w : MainWindow) : Outcome :=
  modify_iv lib w.ui.spDefIvSpinBox pkstat.Spd w

/-- The two slots of `spDvSpinBox::valueChanged` (window.cc:260 and 262), run
one after the other: the box is connected twice, both times with
`pkstat::Spe`. -/
def spDvSpinBox_valueChanged (lib : pklib) (w : MainWindow) : Outcome :=
  match modify_iv lib w.ui.spDvSpinBox pkstat.Spe w with
  | Outcome.returned w1 => modify_iv lib w1.ui.spDvSpinBox pkstat.Spe w1
  | o => o

/-- The slot of `hpevSpinBox::valueChanged` (window.cc:264). -/
def hpevSpinBox_valueChanged (lib : pklib) (w : MainWindow) : Outcome :=
  modify_ev lib w.ui.hpevSpinBox pkstat.Hp w

/-- The slot of `atkEvSpinBox::valueChanged` (window.cc:266). -/
def atkEvSpinBox_valueChanged (lib : pklib) (w : MainWindow) : Outcome :=
  modify_ev lib w.ui.atkEvSpinBox pkstat.Atk w

/-- The slot of `defEvSpinBox::valueChanged` (window.cc:268). -/
def defEvSpinBox_valueChanged (lib : pklib) (w : MainWindow) : Outcome :=
  modify_ev lib w.ui.defEvSpinBox pkstat.Def w

/-- The slot of `speEvSpinBox::valueChanged` (window.cc:270). -/
def speEvSpinBox_valueChanged (lib : pklib) (w : MainWindow) : Outcome :=
  modify_ev lib w.ui.speEvSpinBox pkstat.Spe w

/-- The slot of `spAtkEvSpinBox::valueChanged` (window.cc:272). -/
def spAtkEvSpinBox_valueChanged (lib : pklib) (w : MainWindow) : Outcome :=
  modify_ev lib w.ui.spAtkEvSpinBox pkstat.Spa w

/-- The slot of `spDefEvSpinBox::valueChanged` (window.cc:274). -/
def spDefEvSpinBox_valueChanged (lib : pklib) (w : MainWindow) : Outcome :=
  modify_ev lib w.ui.spDefEvSpinBox pkstat.Spd w

/-- The slot of `spcEvSpinBox::valueChanged` (window.cc:276). -/
def spcEvSpinBox_valueChanged (lib : pklib) (w : MainWindow) : Outcome :=
  modify_ev lib w.ui.spcEvSpinBox pkstat.Spe w

/-- The slot of `nameLineEdit::textChanged` (window.cc:295). -/
def nameLineEdit_textChanged (lib : pklib) (w : MainWindow) : Outcome :=
  match w.save.trainer with
  | none => Outcome.undefined
  | some t =>
    let name := w.ui.nameLineEdit.text
    let w := w.log (Event.mutator (Mutator.trainer_set_name name))
    match lib.trainer_set_name t name with
    | Except.error e => Outcome.returned (show_popup_error w e)
    | Except.ok t1 =>
      Outcome.returned
        { w with
          save := { w.save with trainer := some t1 },
          ui := { w.ui with nameLineEdit := w.ui.nameLineEdit.setText t1.name } }

/-- The slot of `genderComboBox::currentIndexChanged` (window.cc:303). -/
def genderComboBox_currentIndexChanged (lib : pklib) (w : MainWindow) : Outcome :=
  match w.save.trainer with
  | none => Outcome.undefined
  | some t =>
    let currentIndex := w.ui.genderComboBox.currentIndex
    let w := w.log (Event.mutator (Mutator.trainer_set_gender currentIndex))
    match lib.trainer_set_gender t currentIndex with
    | Except.error e => Outcome.returned (show_popup_error w e)
    | Except.ok t1 => Outcome.returned { w with save := { w.save with trainer := some t1 } }

/-- The slot of `moneySpinBox::valueChanged` (window.cc:310). -/
def moneySpinBox_valueChanged (lib : pklib) (w : MainWindow) : Outcome :=
  match w.save.trainer with
  | none => Outcome.undefined
  | some t =>
    let value := w.ui.moneySpinBox.value
    let w := w.log (Event.mutator (Mutator.trainer_set_money value))
    match lib.trainer_set_money t value with
    | Except.error e => Outcome.returned (show_popup_error w e)
    | Except.ok t1 => Outcome.returned { w with save := { w.save with trainer := some t1 } }

/-- The slot of `coinsSpinBox::valueChanged` (window.cc:317). -/
def coinsSpinBox_valueChanged (lib : pklib) (w : MainWindow) : Outcome :=
  match w.save.trainer with
  | none => Outcome.undefined
  | some t =>
    let value := w.ui.coinsSpinBox.value
    let w := w.log (Event.mutator (Mutator.trainer_set_coins value))
    match lib.trainer_set_coins t value with
    | Except.error e => Outcome.returned (show_popup_error w e)
    | Except.ok t1 => Outcome.returned { w with save := { w.save with trainer := some t1 } }

/-- The slot of `publicIdLineEdit::textChanged` (window.cc:845). -/
def publicIdLineEdit_textChanged (lib : pklib) (w : MainWindow) : Outcome :=
  if w.ui.publicIdLineEdit.text.isEmpty then Outcome.returned w
  else
    match stoi w.ui.publicIdLineEdit.text with
    | Except.error e => Outcome.returned (show_popup_error w e)
    | Except.ok id =>
      match w.save.trainer with
      | none => Outcome.undefined
      | some t =>
        let w := w.log (Event.mutator (Mutator.trainer_set_public_id id))
        match lib.trainer_set_public_id t id with
        | Except.error e => Outcome.returned (show_popup_error w e)
        | Except.ok t1 =>
          Outcome.returned { w with save := { w.save with trainer := some t1 } }

/-- The slot of `secretIdLineEdit::textChanged` (window.cc:855). -/
def secretIdLineEdit_textChanged (lib : pklib) (w : MainWindow) : Outcome :=
  if w.ui.secretIdLineEdit.text.isEmpty then Outcome.returned w
  else
    match stoi w.ui.secretIdLineEdit.text with
    | Except.error e => Outcome.returned (show_popup_error w e)
    | Except.ok id =>
      match w.save.trainer with
      | none => Outcome.undefined
      | some t =>
        let w := w.log (Event.mutator (Mutator.trainer_set_secret_id id))
        match lib.trainer_set_secret_id t id with
        | Except.error e => Outcome.returned (show_popup_error w e)
        | Except.ok t1 =>
          Outcome.returned { w with save := { w.save with trainer := some t1 } }

/-- The slot of `nicknameLineEdit::textChanged` (window.cc:335). -/
def nicknameLineEdit_textChanged (lib : pklib) (w : MainWindow) : Outcome :=
  match w.sel_pkmn with
  | none => Outcome.returned w
  | some a =>
    if w.ui.nicknameLineEdit.text.isEmpty then Outcome.returned w
    else
      match w.deref a with
      | none => Outcome.undefined
      | some p0 =>
        let nickname := w.ui.nicknameLineEdit.text
        let w := w.log (Event.mutator (Mutator.set_nickname a nickname))
        match lib.set_nickname p0 nickname with
        | Except.error e => Outcome.returned (show_popup_error w e)
        | Except.ok p => Outcome.returned (refresh_party_if_selected (w.store a p))

/-- The slot of `expSpinBox::valueChanged` (window.cc:349). -/
def expSpinBox_valueChanged (lib : pklib) (w : MainWindow) : Outcome :=
  match w.sel_pkmn with
  | none => Outcome.returned w
  | some a =>
    match w.deref a with
    | none => Outcome.undefined
    | some p0 =>
      let exp := w.ui.expSpinBox.value
      let w := w.log (Event.mutator (Mutator.set_exp a exp))
      match lib.set_exp p0 exp with
      | Except.error e => Outcome.returned (show_popup_error w e)
      | Except.ok p => Outcome.returned (w.store a p)

/-- The slot of `friendshipSpinBox::valueChanged` (window.cc:359). -/
def friendshipSpinBox_valueChanged (lib : pklib) (w : MainWindow) : Outcome :=
  match w.sel_pkmn with
  | none => Outcome.returned w
  | some a =>
    match w.deref a with
    | none => Outcome.undefined
    | some p0 =>
      let friendship := w.ui.friendshipSpinBox.value
      let w := w.log (Event.mutator (Mutator.set_friendship a friendship))
      match lib.set_friendship p0 friendship with
      | Except.error e => Outcome.returned (show_popup_error w e)
      | Except.ok p => Outcome.returned (w.store a p)

/-- The switch of the status slot (window.cc:433): the status of a combo
index.  The switch has no `default`: any other index leaves `status` as it was
initialised, the `status_condition` whose value is 0. -/
def status_of_index (zero : status_condition) (i : Int) : status_condition :=
  if i = 0 then status_condition.HEALTHY
  else if i = 5 then status_condition.BRN
  else if i = 4 then status_condition.FRZ
  else if i = 1 then status_condition.PAR
  else if i = 3 then status_condition.SLP
  else if i = 2 then status_condition.PSN
  else zero

/-- The slot of `statusComboBox::currentIndexChanged` (window.cc:427). -/
def statusComboBox_currentIndexChanged (lib : pklib) (w : MainWindow) : Outcome :=
  match w.sel_pkmn with
  | none => Outcome.returned w
  | some a =>
    match w.deref a with
    | none => Outcome.undefined
    | some p0 =>
      let status := status_of_index lib.status_zero w.ui.statusComboBox.currentIndex
      let w := w.log (Event.mutator (Mutator.set_status a status))
      match lib.set_status p0 status with
      | Except.error e => Outcome.returned (show_popup_error w e)
      | Except.ok p => Outcome.returned (w.store a p)

/-- The slot of `abilityComboBox::currentIndexChanged` (window.cc:460). -/
def abilityComboBox_currentIndexChanged (lib : pklib) (w : MainWindow) : Outcome :=
  match w.sel_pkmn with
  | none => Outcome.returned w
  | some a =>
    match w.deref a with
    | none => Outcome.undefined
    | some p0 =>
      let ability := w.ui.abilityComboBox.currentIndex
      let w := w.log (Event.mutator (Mutator.set_ability a ability))
      match lib.set_ability p0 ability with
      | Except.error e => Outcome.returned (show_popup_error w e)
      | Except.ok p =>
        let w := w.store a p
        Outcome.returned { w with ui := update_pid_on_ui p w.ui }

/-- The slot of `infectedCheckBox::stateChanged` (window.cc:472). -/
def infectedCheckBox_stateChanged (lib : pklib) (w : MainWindow) : Outcome :=
  match w.sel_pkmn with
  | none => Outcome.returned w
  | some a =>
    match w.deref a with
    | none => Outcome.undefined
    | some p0 =>
      let checked := w.ui.infectedCheckBox.checked
      let w := w.log (Event.mutator (Mutator.set_infected a checked))
      match lib.set_infected p0 checked with
      | Except.error e => Outcome.returned (show_popup_error w e)
      | Except.ok p =>
        let w := w.store a p
        Outcome.returned { w with ui := { w.ui with
          curedCheckBox := w.ui.curedCheckBox.setChecked p.is_cured } }

/-- The slot of `curedCheckBox::stateChanged` (window.cc:486). -/
def curedCheckBox_stateChanged (lib : pklib) (w : MainWindow) : Outcome :=
  match w.sel_pkmn with
  | none => Outcome.returned w
  | some a =>
    match w.deref a with
    | none => Outcome.undefined
    | some p0 =>
      let checked := w.ui.curedCheckBox.checked
      let w := w.log (Event.mutator (Mutator.set_cured a checked))
      match lib.set_cured p0 checked with
      | Except.error e => Outcome.returned (show_popup_error w e)
      | Except.ok p =>
        let w := w.store a p
        Outcome.returned { w with ui := { w.ui with
          infectedCheckBox := w.ui.infectedCheckBox.setChecked p.is_infected } }

/-- The slot of `heldItemComboBox::currentIndexChanged` (window.cc:500): the
index `item_idx_from_name` gives for the combo text is passed to
`set_held_item`. -/
def heldItemComboBox_currentIndexChanged (lib : pklib) (w : MainWindow) : Outcome :=
  match w.sel_pkmn with
  | none => Outcome.returned w
  | some a =>
    match w.save.trainer with
    | none => Outcome.undefined
    | some t =>
      let name := w.ui.heldItemComboBox.currentText
      let w := w.log (Event.mutator (Mutator.item_idx_from_name name))
      match lib.item_idx_from_name t name with
      | Except.error e => Outcome.returned (show_popup_error w e)
      | Except.ok idx =>
        match w.deref a with
        | none => Outcome.undefined
        | some p0 =>
          let w := w.log (Event.mutator (Mutator.set_held_item a idx))
          match lib.set_held_item p0 idx with
          | Except.error e => Outcome.returned (show_popup_error w e)
          | Except.ok p => Outcome.returned (w.store a p)

/-- The lambda connected to `originGameComboBox::currentIndexChanged`
(window.cc:548).  Its handler sets the combo to the creature's game of origin
with the signals of the combo not blocked: when that changes the index,
`currentIndexChanged` is raised again and `raised` runs before the error is
reported. -/
def originGameComboBox_lambda (raised : MainWindow → Outcome) (lib : pklib)
    (w : MainWindow) : Outcome :=
  match w.sel_pkmn with
  | none => Outcome.returned w
  | some a =>
    match w.deref a with
    | none => Outcome.undefined
    | some p0 =>
      let game := w.ui.originGameComboBox.currentIndex
      let w := w.log (Event.mutator (Mutator.set_origin_game a game))
      match lib.set_origin_game p0 game with
      | Except.error e =>
        let box := w.ui.originGameComboBox.setCurrentIndex p0.game_of_origin
        revert_then_report (decide (box.currentIndex ≠ game)) raised
          { w with ui := { w.ui with originGameComboBox := box } } e
      | Except.ok p => Outcome.returned (w.store a p)

/-- The slot of `originGameComboBox::currentIndexChanged`: the lambda, which
the signal raised by its own handler runs once more.  That second run finds
the combo at the creature's game of origin, so its handler changes nothing and
the signal is not raised a third time. -/
def originGameComboBox_currentIndexChanged (lib : pklib) (w : MainWindow) : Outcome :=
  originGameComboBox_lambda (originGameComboBox_lambda Outcome.returned lib) lib w

/-- The slot of `locationComboBox::currentIndexChanged` (window.cc:561). -/
def locationComboBox_currentIndexChanged (lib : pklib) (w : MainWindow) : Outcome :=
  match w.sel_pkmn with
  | none => Outcome.returned w
  | some a =>
    match w.deref a with
    | none => Outcome.undefined
    | some p0 =>
      let name := w.ui.locationComboBox.currentText
      let w := w.log (Event.mutator (Mutator.set_location_met a name))
      match lib.set_location_met p0 name with
      | Except.error e => Outcome.returned (show_popup_error w e)
      | Except.ok p => Outcome.returned (w.store a p)

/-- The slot of `pokeballComboBox::currentIndexChanged` (window.cc:574). -/
def pokeballComboBox_currentIndexChanged (lib : pklib) (w : MainWindow) : Outcome :=
  match w.sel_pkmn with
  | none => Outcome.returned w
  | some a =>
    match w.deref a with
    | none => Outcome.undefined
    | some p0 =>
      let ball := w.ui.pokeballComboBox.currentIndex
      let w := w.log (Event.mutator (Mutator.set_pokeball a ball))
      match lib.set_pokeball p0 ball with
      | Except.error e => Outcome.returned (show_popup_error w e)
      | Except.ok p => Outcome.returned (w.store a p)

/-- The lambda connected to `levelMetSpinBox::valueChanged` (window.cc:586).
Its handler sets the box to the creature's met level with the signals of the
box not blocked: when that changes the value, `valueChanged` is raised again
and `raised` runs before the error is reported. -/
def levelMetSpinBox_lambda (raised : MainWindow → Outcome) (lib : pklib) (w : MainWindow) :
    Outcome :=
  match w.sel_pkmn with
  | none => Outcome.returned w
  | some a =>
    match w.deref a with
    | none => Outcome.undefined
    | some p0 =>
      let level := w.ui.levelMetSpinBox.value
      let w := w.log (Event.mutator (Mutator.set_level_met a level))
      match lib.set_level_met p0 level with
      | Except.error e =>
        let box := w.ui.levelMetSpinBox.setValue p0.level_met
        revert_then_report (decide (box.value ≠ level)) raised
          { w with ui := { w.ui with levelMetSpinBox := box } } e
      | Except.ok p => Outcome.returned (w.store a p)

/-- The slot of `levelMetSpinBox::valueChanged`: the lambda, which the signal
raised by its own handler runs once more.  That second run finds the box at
the value its handler sets, so the handler changes nothing and the signal is
not raised a third time. -/
def levelMetSpinBox_valueChanged (lib : pklib) (w : MainWindow) : Outcome :=
  levelMetSpinBox_lambda (levelMetSpinBox_lambda Outcome.returned lib) lib w

/-- The slot of `pp1SpinBox::valueChanged` (window.cc:679). -/
def pp1SpinBox_valueChanged (lib : pklib) (w : MainWindow) : Outcome :=
  match w.sel_pkmn with
  | none => Outcome.returned w
  | some a =>
    match w.deref a with
    | none => Outcome.undefined
    | some p0 =>
      let pp := w.ui.pp1SpinBox.value
      let w := w.log (Event.mutator (Mutator.set_move1_pp a pp))
      match lib.set_move1_pp p0 pp with
      | Except.error e => Outcome.returned (show_popup_error w e)
      | Except.ok p => Outcome.returned (w.store a p)

/-- The slot of `pp2SpinBox::valueChanged` (window.cc:690). -/
def pp2SpinBox_valueChanged (lib : pklib) (w : MainWindow) : Outcome :=
  match w.sel_pkmn with
  | none => Outcome.returned w
  | some a =>
    match w.deref a with
    | none => Outcome.undefined
    | some p0 =>
      let pp := w.ui.pp2SpinBox.value
      let w := w.log (Event.mutator (Mutator.set_move2_pp a pp))
      match lib.set_move2_pp p0 pp with
      | Except.error e => Outcome.returned (show_popup_error w e)
      | Except.ok p => Outcome.returned (w.store a p)

/-- The slot of `pp3SpinBox::valueChanged` (window.cc:701). -/
def pp3SpinBox_valueChanged (lib : pklib) (w : MainWindow) : Outcome :=
  match w.sel_pkmn with
  | none => Outcome.returned w
  | some a =>
    match w.deref a with
    | none => Outcome.undefined
    | some p0 =>
      let pp := w.ui.pp3SpinBox.value
      let w := w.log (Event.mutator (Mutator.set_move3_pp a pp))
      match lib.set_move3_pp p0 pp with
      | Except.error e => Outcome.returned (show_popup_error w e)
      | Except.ok p => Outcome.returned (w.store a p)

/-- The slot of `pp4SpinBox::valueChanged` (window.cc:712). -/
def pp4SpinBox_valueChanged (lib : pklib) (w : MainWindow) : Outcome :=
  match w.sel_pkmn with
  | none => Outcome.returned w
  | some a =>
    match w.deref a with
    | none => Outcome.undefined
    | some p0 =>
      let pp := w.ui.pp4SpinBox.value
      let w := w.log (Event.mutator (Mutator.set_move4_pp a pp))
      match lib.set_move4_pp p0 pp with
      | Except.error e => Outcome.returned (show_popup_error w e)
      | Except.ok p => Outcome.returned (w.store a p)

/-- The slot of `otNameLineEdit::textChanged` (window.cc:821). -/
def otNameLineEdit_textChanged (lib : pklib) (w : MainWindow) : Outcome :=
  match w.sel_pkmn with
  | none => Outcome.returned w
  | some a =>
    if w.ui.otNameLineEdit.text.isEmpty then Outcome.returned w
    else
      match w.deref a with
      | none => Outcome.undefined
      | some p0 =>
        let name := w.ui.otNameLineEdit.text
        let w := w.log (Event.mutator (Mutator.set_ot_name a name))
        match lib.set_ot_name p0 name with
        | Except.error e => Outcome.returned (show_popup_error w e)
        | Except.ok p => Outcome.returned (w.store a p)

/-- The slot of `otGenderComboBox::currentIndexChanged` (window.cc:834). -/
def otGenderComboBox_currentIndexChanged (lib : pklib) (w : MainWindow) : Outcome :=
  match w.sel_pkmn with
  | none => Outcome.returned w
  | some a =>
    match w.deref a with
    | none => Outcome.undefined
    | some p0 =>
      let gender := w.ui.otGenderComboBox.currentIndex
      let w := w.log (Event.mutator (Mutator.set_ot_gender a gender))
      match lib.set_ot_gender p0 gender with
      | Except.error e => Outcome.returned (show_popup_error w e)
      | Except.ok p => Outcome.returned (w.store a p)

/-! ## The four move slots, by index -/

/-- The four move slots of a creature. -/
inductive move_slot where
  | m1 | m2 | m3 | m4
deriving DecidableEq, Repr

/-- The move combo of a slot. -/
def Ui.mComboBox (ui : Ui) (k : move_slot) : QComboBox :=
  match k with
  | move_slot.m1 => ui.m1ComboBox
  | move_slot.m2 => ui.m2ComboBox
  | move_slot.m3 => ui.m3ComboBox
  | move_slot.m4 => ui.m4ComboBox

/-- The PP field of a slot. -/
def Ui.ppSpinBox (ui : Ui) (k : move_slot) : QSpinBox :=
  match k with
  | move_slot.m1 => ui.pp1SpinBox
  | move_slot.m2 => ui.pp2SpinBox
  | move_slot.m3 => ui.pp3SpinBox
  | move_slot.m4 => ui.pp4SpinBox

/-- The PP bonus field of a slot. -/
def Ui.ppBonusSpinBox (ui : Ui) (k : move_slot) : QSpinBox :=
  match k with
  | move_slot.m1 => ui.pp1BonusSpinBox
  | move_slot.m2 => ui.pp2BonusSpinBox
  | move_slot.m3 => ui.pp3BonusSpinBox
  | move_slot.m4 => ui.pp4BonusSpinBox

/-- The max-PP text of a slot. -/
def Ui.mMaxppLineEdit (ui : Ui) (k : move_slot) : QLineEdit :=
  match k with
  | move_slot.m1 => ui.m1MaxppLineEdit
  | move_slot.m2 => ui.m2MaxppLineEdit
  | move_slot.m3 => ui.m3MaxppLineEdit
  | move_slot.m4 => ui.m4MaxppLineEdit

/-- The accessor `moveK_max_pp()` of a slot. -/
def pokemon.move_max_pp (p : pokemon) (k : move_slot) : Nat :=
  match k with
  | move_slot.m1 => p.move1_max_pp
  | move_slot.m2 => p.move2_max_pp
  | move_slot.m3 => p.move3_max_pp
  | move_slot.m4 => p.move4_max_pp

/-- The accessor `ppK()` of a slot. -/
def pokemon.pp (p : pokemon) (k : move_slot) : Nat :=
  match k with
  | move_slot.m1 => p.pp1
  | move_slot.m2 => p.pp2
  | move_slot.m3 => p.pp3
  | move_slot.m4 => p.pp4

/-- The mutator `set_moveK` of a slot. -/
def pklib.set_move (lib : pklib) (k : move_slot) : pokemon → Int → Except String pokemon :=
  match k with
  | move_slot.m1 => lib.set_move1
  | move_slot.m2 => lib.set_move2
  | move_slot.m3 => lib.set_move3
  | move_slot.m4 => lib.set_move4

/-- The mutator `set_moveK_bonus` of a slot. -/
def pklib.set_move_bonus (lib : pklib) (k : move_slot) :
    pokemon → Int → Except String pokemon :=
  match k with
  | move_slot.m1 => lib.set_move1_bonus
  | move_slot.m2 => lib.set_move2_bonus
  | move_slot.m3 => lib.set_move3_bonus
  | move_slot.m4 => lib.set_move4_bonus

/-- The journal entry of `set_moveK`. -/
def set_move_event (k : move_slot) (pkmn : Nat) (move : Int) : Event :=
  match k with
  | move_slot.m1 => Event.set_move1 pkmn move
  | move_slot.m2 => Event.set_move2 pkmn move
  | move_slot.m3 => Event.set_move3 pkmn move
  | move_slot.m4 => Event.set_move4 pkmn move

/-- The journal entry of `set_moveK_bonus`. -/
def set_move_bonus_event (k : move_slot) (pkmn : Nat) (bonus : Int) : Event :=
  match k with
  | move_slot.m1 => Event.set_move1_bonus pkmn bonus
  | move_slot.m2 => Event.set_move2_bonus pkmn bonus
  | move_slot.m3 => Event.set_move3_bonus pkmn bonus
  | move_slot.m4 => Event.set_move4_bonus pkmn bonus

/-- The slot connected to the move combo of a slot. -/
def mComboBox_currentIndexChanged (k : move_slot) : pklib → MainWindow → Outcome :=
  match k with
  | move_slot.m1 => m1ComboBox_currentIndexChanged
  | move_slot.m2 => m2ComboBox_currentIndexChanged
  | move_slot.m3 => m3ComboBox_currentIndexChanged
  | move_slot.m4 => m4ComboBox_currentIndexChanged

/-- The slot connected to the PP bonus field of a slot. -/
def ppBonusSpinBox_valueChanged (k : move_slot) : pklib → MainWindow → Outcome :=
  match k with
  | move_slot.m1 => pp1BonusSpinBox_valueChanged
  | move_slot.m2 => pp2BonusSpinBox_valueChanged
  | move_slot.m3 => pp3BonusSpinBox_valueChanged
  | move_slot.m4 => pp4BonusSpinBox_valueChanged

/-! ## The constructor and its connections (window.cc:63-894) -/

/-- The constructor `MainWindow::MainWindow` on the form `ui` that `setupUi`
built (window.cc:63-68): the members have the initial values of window.h, the
selected item table is the pocket table and the label is red. -/
def MainWindow.construct (ui : Ui) : MainWindow :=
  { sel_item_table_widget := table_ref.itemsTableWidget,
    ui := { ui with saveLoadedLabel :=
      { ui.saveLoadedLabel with styleSheet := "font: 16pt \"Sans Serif\"; color: red;" } } }

/-- A signal the constructor connects, named by its sender and the signal,
with what the slot is given: the name a file dialog returns, the row of the
clicked item, the index of the tab shown. -/
inductive Signal where
  | actionOpen_File_triggered (filename : String)
  | actionBackup_Save_triggered
  | actionSave_File_triggered (filename : String)
  | actionSave_As_triggered (filename : String)
  | actionAllow_Potentially_Illegal_Modifications_triggered
  | partyTableWidget_selectionChanged
  | partyTableWidget_itemClicked (row : Nat)
  | editPkmnPartyPushButton_clicked
  | deletePkmnPartyPushButton_clicked
  | itemsTabWidget_currentChanged (index : Int)
  | itemsTableWidget_itemClicked
  | ballsTableWidget_itemClicked
  | berriesTableWidget_itemClicked
  | tmsTableWidget_itemClicked
  | keyItemsTableWidget_itemClicked
  | pcItemsTableWidget_itemClicked
  | addItemPushButton_clicked
  | editItemPushButton_clicked
  | deleteItemPushButton_clicked
  | hpIvSpinBox_valueChanged
  | atkIvSpinBox_valueChanged
  | defIvSpinBox_valueChanged
  | speIvSpinBox_valueChanged
  | spAtkIvSpinBox_valueChanged
  | spDefIvSpinBox_valueChanged
  | spDvSpinBox_valueChanged
  | hpevSpinBox_valueChanged
  | atkEvSpinBox_valueChanged
  | defEvSpinBox_valueChanged
  | speEvSpinBox_valueChanged
  | spAtkEvSpinBox_valueChanged
  | spDefEvSpinBox_valueChanged
  | spcEvSpinBox_valueChanged
  | levelSpinBox_valueChanged
  | nameLineEdit_textChanged
  | genderComboBox_currentIndexChanged
  | moneySpinBox_valueChanged
  | coinsSpinBox_valueChanged
  | speciesComboBox_currentIndexChanged
  | nicknameLineEdit_textChanged
  | expSpinBox_valueChanged
  | friendshipSpinBox_valueChanged
  | pkmnGenderComboBox_currentIndexChanged
  | natureComboBox_currentIndexChanged
  | statusComboBox_currentIndexChanged
  | abilityComboBox_currentIndexChanged
  | infectedCheckBox_stateChanged
  | curedCheckBox_stateChanged
  | heldItemComboBox_currentIndexChanged
  | shinyCheckBox_stateChanged
  | eggCheckBox_stateChanged
  | originGameComboBox_currentIndexChanged
  | locationComboBox_currentIndexChanged
  | pokeballComboBox_currentIndexChanged
  | levelMetSpinBox_valueChanged
  | fatefulEncounterCheckBox_stateChanged
  | m1ComboBox_currentIndexChanged
  | m2ComboBox_currentIndexChanged
  | m3ComboBox_currentIndexChanged
  | m4ComboBox_currentIndexChanged
  | pp1SpinBox_valueChanged
  | pp2SpinBox_valueChanged
  | pp3SpinBox_valueChanged
  | pp4SpinBox_valueChanged
  | pp1BonusSpinBox_valueChanged
  | pp2BonusSpinBox_valueChanged
  | pp3BonusSpinBox_valueChanged
  | pp4BonusSpinBox_valueChanged
  | otPidLineEdit_textChanged
  | otSidLineEdit_textChanged
  | otNameLineEdit_textChanged
  | otGenderComboBox_currentIndexChanged
  | publicIdLineEdit_textChanged
  | secretIdLineEdit_textChanged
  | pkmnSimulateTradePushButton_clicked

/-- The slot, or the two slots of `spDvSpinBox`, that the constructor connects
to a signal. -/
def dispatch (lib : pklib) (s : Signal) (w : MainWindow) : Outcome :=
  match s with
  | Signal.actionOpen_File_triggered filename => open_file lib filename w
  | Signal.actionBackup_Save_triggered => actionBackup_Save_triggered w
  | Signal.actionSave_File_triggered filename => actionSave_File_triggered lib filename w
  | Signal.actionSave_As_triggered filename => actionSave_As_triggered lib filename w
  | Signal.actionAllow_Potentially_Illegal_Modifications_triggered => actionAllow_Potentially_Illegal_Modifications_triggered lib w
  | Signal.partyTableWidget_selectionChanged => partyTableWidget_selectionChanged w
  | Signal.partyTableWidget_itemClicked row => partyTableWidget_itemClicked row w
  | Signal.editPkmnPartyPushButton_clicked => editPkmnPartyPushButton_clicked lib w
  | Signal.deletePkmnPartyPushButton_clicked => deletePkmnPartyPushButton_clicked lib w
  | Signal.itemsTabWidget_currentChanged index => itemsTabWidget_currentChanged index w
  | Signal.itemsTableWidget_itemClicked => on_item_select w
  | Signal.ballsTableWidget_itemClicked => on_item_select w
  | Signal.berriesTableWidget_itemClicked => on_item_select w
  | Signal.tmsTableWidget_itemClicked => on_item_select w
  | Signal.keyItemsTableWidget_itemClicked => on_item_select w
  | Signal.pcItemsTableWidget_itemClicked => on_item_select w
  | Signal.addItemPushButton_clicked => addItemPushButton_clicked lib w
  | Signal.editItemPushButton_clicked => editItemPushButton_clicked lib w
  | Signal.deleteItemPushButton_clicked => deleteItemPushButton_clicked lib w
  | Signal.hpIvSpinBox_valueChanged => hpIvSpinBox_valueChanged lib w
  | Signal.atkIvSpinBox_valueChanged => atkIvSpinBox_valueChanged lib w
  | Signal.defIvSpinBox_valueChanged => defIvSpinBox_valueChanged lib w
  | Signal.speIvSpinBox_valueChanged => speIvSpinBox_valueChanged lib w
  | Signal.spAtkIvSpinBox_valueChanged => spAtkIvSpinBox_valueChanged lib w
  | Signal.spDefIvSpinBox_valueChanged => spDefIvSpinBox_valueChanged lib w
  | Signal.spDvSpinBox_valueChanged => spDvSpinBox_valueChanged lib w
  | Signal.hpevSpinBox_valueChanged => hpevSpinBox_valueChanged lib w
  | Signal.atkEvSpinBox_valueChanged => atkEvSpinBox_valueChanged lib w
  | Signal.defEvSpinBox_valueChanged => defEvSpinBox_valueChanged lib w
  | Signal.speEvSpinBox_valueChanged => speEvSpinBox_valueChanged lib w
  | Signal.spAtkEvSpinBox_valueChanged => spAtkEvSpinBox_valueChanged lib w
  | Signal.spDefEvSpinBox_valueChanged => spDefEvSpinBox_valueChanged lib w
  | Signal.spcEvSpinBox_valueChanged => spcEvSpinBox_valueChanged lib w
  | Signal.levelSpinBox_valueChanged => levelSpinBox_valueChanged lib w
  | Signal.nameLineEdit_textChanged => nameLineEdit_textChanged lib w
  | Signal.genderComboBox_currentIndexChanged => genderComboBox_currentIndexChanged lib w
  | Signal.moneySpinBox_valueChanged => moneySpinBox_valueChanged lib w
  | Signal.coinsSpinBox_valueChanged => coinsSpinBox_valueChanged lib w
  | Signal.speciesComboBox_currentIndexChanged => speciesComboBox_currentIndexChanged lib w
  | Signal.nicknameLineEdit_textChanged => nicknameLineEdit_textChanged lib w
  | Signal.expSpinBox_valueChanged => expSpinBox_valueChanged lib w
  | Signal.friendshipSpinBox_valueChanged => friendshipSpinBox_valueChanged lib w
  | Signal.pkmnGenderComboBox_currentIndexChanged => pkmnGenderComboBox_currentIndexChanged lib w
  | Signal.natureComboBox_currentIndexChanged => natureComboBox_currentIndexChanged lib w
  | Signal.statusComboBox_currentIndexChanged => statusComboBox_currentIndexChanged lib w
  | Signal.abilityComboBox_currentIndexChanged => abilityComboBox_currentIndexChanged lib w
  | Signal.infectedCheckBox_stateChanged => infectedCheckBox_stateChanged lib w
  | Signal.curedCheckBox_stateChanged => curedCheckBox_stateChanged lib w
  | Signal.heldItemComboBox_currentIndexChanged => heldItemComboBox_currentIndexChanged lib w
  | Signal.shinyCheckBox_stateChanged => shinyCheckBox_stateChanged lib w
  | Signal.eggCheckBox_stateChanged => eggCheckBox_stateChanged lib w
  | Signal.originGameComboBox_currentIndexChanged => originGameComboBox_currentIndexChanged lib w
  | Signal.locationComboBox_currentIndexChanged => locationComboBox_currentIndexChanged lib w
  | Signal.pokeballComboBox_currentIndexChanged => pokeballComboBox_currentIndexChanged lib w
  | Signal.levelMetSpinBox_valueChanged => levelMetSpinBox_valueChanged lib w
  | Signal.fatefulEncounterCheckBox_stateChanged => fatefulEncounterCheckBox_stateChanged lib w
  | Signal.m1ComboBox_currentIndexChanged => m1ComboBox_currentIndexChanged lib w
  | Signal.m2ComboBox_currentIndexChanged => m2ComboBox_currentIndexChanged lib w
  | Signal.m3ComboBox_currentIndexChanged => m3ComboBox_currentIndexChanged lib w
  | Signal.m4ComboBox_currentIndexChanged => m4ComboBox_currentIndexChanged lib w
  | Signal.pp1SpinBox_valueChanged => pp1SpinBox_valueChanged lib w
  | Signal.pp2SpinBox_valueChanged => pp2SpinBox_valueChanged lib w
  | Signal.pp3SpinBox_valueChanged => pp3SpinBox_valueChanged lib w
  | Signal.pp4SpinBox_valueChanged => pp4SpinBox_valueChanged lib w
  | Signal.pp1BonusSpinBox_valueChanged => pp1BonusSpinBox_valueChanged lib w
  | Signal.pp2BonusSpinBox_valueChanged => pp2BonusSpinBox_valueChanged lib w
  | Signal.pp3BonusSpinBox_valueChanged => pp3BonusSpinBox_valueChanged lib w
  | Signal.pp4BonusSpinBox_valueChanged => pp4BonusSpinBox_valueChanged lib w
  | Signal.otPidLineEdit_textChanged => otPidLineEdit_textChanged lib w
  | Signal.otSidLineEdit_textChanged => otSidLineEdit_textChanged lib w
  | Signal.otNameLineEdit_textChanged => otNameLineEdit_textChanged lib w
  | Signal.otGenderComboBox_currentIndexChanged => otGenderComboBox_currentIndexChanged lib w
  | Signal.publicIdLineEdit_textChanged => publicIdLineEdit_textChanged lib w
  | Signal.secretIdLineEdit_textChanged => secretIdLineEdit_textChanged lib w
  | Signal.pkmnSimulateTradePushButton_clicked => pkmnSimulateTradePushButton_clicked lib w

/-- What happens to the window between two slots: the user changes the form,
or a signal is delivered. -/
inductive Input where
  | user (ui : Ui)
  | signal (s : Signal)

/-- The window after a run of inputs.  A user input replaces the form and
leaves the members; the run ends at the first slot that does not return. -/
def run (lib : pklib) (inputs : List Input) (w : MainWindow) : Outcome :=
  match inputs with
  | [] => Outcome.returned w
  | Input.user ui :: rest => run lib rest { w with ui := ui }
  | Input.signal s :: rest =>
    match dispatch lib s w with
    | Outcome.returned w1 => run lib rest w1
    | o => o

/-- The table `open_file` fills from the pocket of a category (the six
`add_items` calls, window.cc:958-963). -/
def table_of_category (category : item_category) : table_ref :=
  match category with
  | item_category.Pocket => table_ref.itemsTableWidget
  | item_category.Pokeball => table_ref.ballsTableWidget
  | item_category.Berry => table_ref.berriesTableWidget
  | item_category.Tm => table_ref.tmsTableWidget
  | item_category.Key_Item => table_ref.keyItemsTableWidget
  | item_category.Pc => table_ref.pcItemsTableWidget

/-- The window a call leaves has the selected item table and the selected
item category of the window `w` it started from. -/
def Outcome.keeps_item_selection (w : MainWindow) (o : Outcome) : Prop :=
  match o with
  | Outcome.returned w1 =>
    w1.sel_item_table_widget = w.sel_item_table_widget ∧
    w1.sel_item_category = w.sel_item_category
  | Outcome.threw _ w1 =>
    w1.sel_item_table_widget = w.sel_item_table_widget ∧
    w1.sel_item_category = w.sel_item_category
  | Outcome.undefined => True

/-- The accessor `moveK()` of a slot. -/
def pokemon.move (p : pokemon) (k : move_slot) : Nat :=
  match k with
  | move_slot.m1 => p.move1
  | move_slot.m2 => p.move2
  | move_slot.m3 => p.move3
  | move_slot.m4 => p.move4

/-! ## A small save used to run the slots on concrete input -/

/-- A creature of a generation with gender, nature and shininess: a male,
every legality flag off. -/
def fixture_pkmn : pokemon :=
  { nickname := "TORCHIC", gender_name := "Male", level := 5, species := 255,
    compat_has_gender := true, gender := pokemon_gender.MALE,
    compat_has_nature := true, nature := 3, compat_has_shiny := true,
    compat_has_ability := true, abilities := ["Blaze", "_", "_"],
    personality_value := 48879, ot_public_id := 1234, ot_secret_id := 4321 }

/-- A second creature. -/
def fixture_pkmn2 : pokemon :=
  { nickname := "ZIGZAGOON", gender_name := "Female", level := 3, species := 263,
    compat_has_gender := true, gender := pokemon_gender.FEMALE,
    compat_has_nature := true, nature := 7, compat_has_shiny := true }

/-- A trainer whose party holds the two creatures, at addresses 1 and 2. -/
def fixture_trainer : trainer :=
  { name := "MAY", pkmn_team := [(1, fixture_pkmn), (2, fixture_pkmn2)],
    get_pocket_items := [{ name := "Potion", count := 5 }] }

/-- A trainer whose party holds one creature. -/
def fixture_trainer1 : trainer :=
  { name := "MAY", pkmn_team := [(1, fixture_pkmn)] }

/-- A library: the only readable file is `ruby.sav`; removing a member erases
the entry of that row; the personality mutators write the field they are
named after. -/
def fixture_lib : pklib :=
  { read_pkmn_save_file := fun f =>
      if f = "ruby.sav" then
        Except.ok { file_name := f, game_name := "Ruby", trainer := some fixture_trainer }
      else Except.error "cannot open file",
    remove_pkmn_from_party := fun t row =>
      if row < t.pkmn_team.length then
        Except.ok { t with pkmn_team := t.pkmn_team.eraseIdx row }
      else Except.error "no such party member",
    set_nature := fun p n => Except.ok { p with nature := n.toNat },
    set_gender := fun p g => Except.ok { p with gender := g },
    set_shiny := fun p b => Except.ok { p with is_shiny := b },
    set_ot_pid := fun p n => Except.ok { p with ot_public_id := n.toNat },
    set_ot_sid := fun p n => Except.ok { p with ot_secret_id := n.toNat } }

/-- The window as constructed: nothing loaded, nothing selected. -/
def fixture_empty : MainWindow := {}

/-- A window with the two-member save loaded and row 0 of the party table
selected. -/
def fixture_loaded : MainWindow :=
  { save := { file_name := "ruby.sav", game_name := "Ruby", trainer := some fixture_trainer },
    save_loaded := true,
    ui := { partyTableWidget :=
              { rows := fixture_trainer.pkmn_team.map (fun e => add_pkmn_to_table_widget e.2),
                selectedRow := some 0, enabled := true } } }

/-- The loaded window with the creature at address 1 in the editor. -/
def fixture_editing : MainWindow :=
  { fixture_loaded with
    sel_pkmn := some 1,
    sel_pkmn_table_widget := some table_ref.partyTableWidget }

/-- The editing window after the user has chosen entry 0 of the nature
combo. -/
def fixture_nature_unset : MainWindow :=
  { fixture_editing with
    ui := { fixture_editing.ui with natureComboBox := { currentIndex := 0, enabled := true } } }

/-- A creature whose generation has abilities but whose three ability names
are all the placeholder. -/
def fixture_pkmn_unnamed_ability : pokemon :=
  { fixture_pkmn with abilities := ["_", "_", "_"] }

/-- A window with that creature in the editor and the allow-illegal action
just checked. -/
def fixture_toggle_unnamed_ability : MainWindow :=
  { save := { file_name := "ruby.sav", game_name := "Ruby",
              trainer := some { name := "MAY", pkmn_team := [(1, fixture_pkmn_unnamed_ability)] } },
    save_loaded := true,
    sel_pkmn := some 1,
    sel_pkmn_table_widget := some table_ref.partyTableWidget,
    ui := { actionAllow_Potentially_Illegal_Modifications := { checked := true } } }

/-- The editing window with the allow-illegal action just checked. -/
def fixture_toggle : MainWindow :=
  { fixture_editing with
    ui := { fixture_editing.ui with
      actionAllow_Potentially_Illegal_Modifications := { checked := true } } }

/-- The editing window after the user has chosen Female in the gender combo,
ticked the shiny box, chosen entry 5 of the nature combo and typed `777` in
both OT id fields. -/
def fixture_edited : MainWindow :=
  { fixture_editing with
    ui := { fixture_editing.ui with
      pkmnGenderComboBox := { currentIndex := 2, enabled := true },
      natureComboBox := { currentIndex := 5, enabled := true },
      shinyCheckBox := { checked := true, enabled := true },
      otPidLineEdit := { text := "777", enabled := true },
      otSidLineEdit := { text := "777", enabled := true } } }

/-- Run `next` on the window a returned call leaves; any other outcome
stands. -/
def Outcome.andThen (o : Outcome) (next : MainWindow → Outcome) : Outcome :=
  match o with
  | Outcome.returned w => next w
  | o => o

/-- A click on an item of row `row` of the party table: the table selects the
row, then the `itemClicked` slot runs. -/
def click_party_row (row : Nat) (w : MainWindow) : Outcome :=
  partyTableWidget_itemClicked row
    { w with ui := { w.ui with
        partyTableWidget := { w.ui.partyTableWidget with selectedRow := some row } } }

/-- A session from the constructed window: open `ruby.sav`, click row 0 of the
party table, press Edit.  The creature at address 1 is then in the editor. -/
def fixture_session : Outcome :=
  ((open_file fixture_lib "ruby.sav" fixture_empty).andThen (click_party_row 0)).andThen
    (editPkmnPartyPushButton_clicked fixture_lib)

/-- The session continued by a click on row 0 and Delete: the creature in the
editor is removed from the party. -/
def fixture_session_delete : Outcome :=
  (fixture_session.andThen (click_party_row 0)).andThen
    (deletePkmnPartyPushButton_clicked fixture_lib)

/-- The session continued by opening a file that cannot be read. -/
def fixture_session_reopen : Outcome :=
  fixture_session.andThen (open_file fixture_lib "missing.sav")

/-- A library that refuses every edit of a flag and of the ledger. -/
def fixture_lib_refusing : pklib :=
  { fixture_lib with
    set_shiny := fun _ _ => Except.error "not allowed",
    set_egg := fun _ _ => Except.error "not allowed",
    set_fateful_encounter := fun _ _ => Except.error "not allowed",
    add_item := fun _ _ _ _ => Except.error "duplicate item",
    edit_item := fun _ _ _ _ _ => Except.error "no such item",
    del_item := fun _ _ _ => Except.error "no such item" }

/-- The editing window after the user has ticked the shiny, egg and fateful
encounter boxes of a creature that has none of the three flags. -/
def fixture_ticked : MainWindow :=
  { fixture_editing with
    ui := { fixture_editing.ui with
      shinyCheckBox := { checked := true, enabled := true },
      eggCheckBox := { checked := true, enabled := true },
      fatefulEncounterCheckBox := { checked := true, enabled := true } } }

/-- The loaded window with the pocket table showing its one entry, that row
current, `Ether` chosen in the name combo and 3 in the quantity field. -/
def fixture_items : MainWindow :=
  { fixture_loaded with
    ui := { fixture_loaded.ui with
      itemsTableWidget :=
        { rows := [["Potion", "5"]], selectedRow := some 0, currentRow := 0,
          currentColumn := 0, enabled := true },
      itemNameComboBox := { items := ["Potion", "Ether"], currentIndex := 1, enabled := true },
      quantitySpinBox := { maximum := 99999, value := 3, enabled := true } } }

/-- The pocket of a category. -/
def trainer.pocket (t : trainer) (category : item_category) : List item :=
  match category with
  | item_category.Pocket => t.get_pocket_items
  | item_category.Pokeball => t.get_ball_items
  | item_category.Berry => t.get_berry_case
  | item_category.Tm => t.get_tm_case
  | item_category.Key_Item => t.get_key_items
  | item_category.Pc => t.get_pc_items

/-- The trainer after the pocket of a category has become `items`. -/
def trainer.set_pocket (t : trainer) (category : item_category) (items : List item) :
    trainer :=
  match category with
  | item_category.Pocket => { t with get_pocket_items := items }
  | item_category.Pokeball => { t with get_ball_items := items }
  | item_category.Berry => { t with get_berry_case := items }
  | item_category.Tm => { t with get_tm_case := items }
  | item_category.Key_Item => { t with get_key_items := items }
  | item_category.Pc => { t with get_pc_items := items }

/-- A library with a ledger: `add_item` appends an entry to the pocket,
`edit_item` replaces the entry at a position and `del_item` erases it; a
position past the pocket is refused. -/
def fixture_lib_ledger : pklib :=
  { fixture_lib with
    add_item := fun t c name quantity =>
      Except.ok (t.set_pocket c (t.pocket c ++ [{ name := name, count := quantity }])),
    edit_item := fun t c row name quantity =>
      if row < (t.pocket c).length then
        Except.ok (t.set_pocket c ((t.pocket c).set row { name := name, count := quantity }))
      else Except.error "no such item",
    del_item := fun t c row =>
      if row < (t.pocket c).length then
        Except.ok (t.set_pocket c ((t.pocket c).eraseIdx row))
      else Except.error "no such item" }

/-- The loaded window with a pocket of three entries, the table that shows
it, and row 1 current. -/
def fixture_three_items : MainWindow :=
  { fixture_loaded with
    save := { file_name := "ruby.sav", game_name := "Ruby",
              trainer := some { fixture_trainer with
                get_pocket_items :=
                  [{ name := "Potion", count := 5 }, { name := "Ether", count := 1 },
                   { name := "Elixir", count := 2 }] } },
    ui := { fixture_loaded.ui with
      itemsTableWidget :=
        { rows := [["Potion", "5"], ["Ether", "1"], ["Elixir", "2"]],
          selectedRow := some 1, currentRow := 1, currentColumn := 0, enabled := true } } }

/-- The loaded window with a pocket of one entry that is not a `Potion`, the
table that shows it, and `Potion`, 5 in the name combo and the quantity
field. -/
def fixture_add_potion : MainWindow :=
  { fixture_loaded with
    save := { file_name := "ruby.sav", game_name := "Ruby",
              trainer := some { fixture_trainer with
                get_pocket_items := [{ name := "Ether", count := 1 }] } },
    ui := { fixture_loaded.ui with
      itemsTableWidget := { rows := [["Ether", "1"]], enabled := true },
      itemNameComboBox := { items := ["Potion", "Ether"], currentIndex := 0, enabled := true },
      quantitySpinBox := { maximum := 99999, value := 5, enabled := true } } }

/-- The user makes row `row` of the selected item table current and puts
`quantity` in the quantity field. -/
def select_item_row (row : Nat) (quantity : Int) (w : MainWindow) : MainWindow :=
  { w with ui :=
      { w.ui.set_table w.sel_item_table_widget
          { w.ui.table w.sel_item_table_widget with
            selectedRow := some row, currentRow := row } with
        quantitySpinBox := { w.ui.quantitySpinBox with value := quantity } } }

/-- A creature whose status is a value the window's switch does not name. -/
def fixture_pkmn_unnamed_status : pokemon :=
  { fixture_pkmn with status := status_condition.other 7 }

/-- The loaded window with that creature first in the party, row 0 of the
party table selected, the allow-illegal action just checked and the creature
in the editor. -/
def fixture_unnamed_status : MainWindow :=
  { fixture_toggle with
    save := { file_name := "ruby.sav", game_name := "Ruby",
              trainer := some { fixture_trainer with
                pkmn_team := [(1, fixture_pkmn_unnamed_status), (2, fixture_pkmn2)] } } }

/-- A creature at level 5 of a species whose level `n` starts at `n ^ 3`
experience points. -/
def fixture_pkmn_level5 : pokemon :=
  { fixture_pkmn with level := 5, exp := 150, min_exp := 125, max_exp := 215 }

/-- A library whose `set_level` moves the creature to the new level's bracket
and keeps the points it had gathered within its level. -/
def fixture_lib_level : pklib :=
  { fixture_lib with
    set_level := fun p l =>
      if 1 ≤ l ∧ l ≤ 100 then
        Except.ok { p with level := l.toNat, min_exp := l.toNat ^ 3,
                           max_exp := (l.toNat + 1) ^ 3 - 1,
                           exp := l.toNat ^ 3 + (p.exp - p.min_exp) }
      else Except.error "invalid level" }

/-- The window with the level 5 creature in the editor, the experience field
showing its bracket, and 10 just entered in the level field. -/
def fixture_level_up : MainWindow :=
  { fixture_editing with
    save := { file_name := "ruby.sav", game_name := "Ruby",
              trainer := some { fixture_trainer with
                pkmn_team := [(1, fixture_pkmn_level5), (2, fixture_pkmn2)] } },
    ui := { fixture_editing.ui with
      levelSpinBox := { minimum := 1, maximum := 100, value := 10, enabled := true },
      expSpinBox := { minimum := 125, maximum := 215, value := 150, enabled := true } } }

/-- A creature that evolves when traded. -/
def fixture_seadra : pokemon :=
  { fixture_pkmn with
    nickname := "SEADRA", species := 117, abilities := ["Poison Point", "_", "_"],
    has_trade_evolution := true }

/-- What the creature evolves into: another species with another ability and
no further trade evolution. -/
def fixture_kingdra : pokemon :=
  { fixture_seadra with
    nickname := "KINGDRA", species := 230, abilities := ["Swift Swim", "_", "_"],
    has_trade_evolution := false }

/-- A library whose trade evolution and whose `set_species(230)` turn the
creature into `fixture_kingdra`. -/
def fixture_lib_trade : pklib :=
  { fixture_lib with
    simulate_trade_evolution := fun p =>
      if p.has_trade_evolution then Except.ok fixture_kingdra
      else Except.error "no trade evolution",
    set_species := fun p s =>
      if s = 230 then Except.ok fixture_kingdra else Except.ok { p with species := s.toNat } }

/-- The loaded window whose party holds `fixture_seadra` at address 1. -/
def fixture_trade_loaded : MainWindow :=
  { fixture_loaded with
    save := { file_name := "ruby.sav", game_name := "Ruby",
              trainer := some { fixture_trainer with
                pkmn_team := [(1, fixture_seadra), (2, fixture_pkmn2)] } } }

/-- The creature at address 1 is put in the editor, then the trade button is
pressed. -/
def fixture_session_trade : Outcome :=
  (editPkmnPartyPushButton_clicked fixture_lib_trade fixture_trade_loaded).andThen
    (pkmnSimulateTradePushButton_clicked fixture_lib_trade)

/-- The creature at address 1 is put in the editor, then entry 230 is chosen
in the species combo. -/
def fixture_session_species : Outcome :=
  (editPkmnPartyPushButton_clicked fixture_lib_trade fixture_trade_loaded).andThen
    (fun w => speciesComboBox_currentIndexChanged fixture_lib_trade
      { w with ui := { w.ui with
          speciesComboBox := w.ui.speciesComboBox.setCurrentIndex 230 } })

/-- A creature with four moves. -/
def fixture_pkmn_moves : pokemon :=
  { fixture_pkmn with
    move_list := ["-", "Scratch", "Growl", "Ember", "Peck"],
    move1 := 1, move2 := 2, move3 := 3, move4 := 4,
    pp1 := 35, pp2 := 40, pp3 := 25, pp4 := 35,
    move1_max_pp := 35, move2_max_pp := 40, move3_max_pp := 25, move4_max_pp := 35 }

/-- A library in which every move has 20 base PP and each PP bonus adds 4:
setting a move fills its PP, setting a bonus moves the ceiling and keeps the
PP under it. -/
def fixture_lib_moves : pklib :=
  { fixture_lib with
    set_move1 := fun p m => Except.ok { p with
      move1 := m.toNat, move1_max_pp := 20 + 4 * p.move1_pp_bonus,
      pp1 := 20 + 4 * p.move1_pp_bonus },
    set_move2 := fun p m => Except.ok { p with
      move2 := m.toNat, move2_max_pp := 20 + 4 * p.move2_pp_bonus,
      pp2 := 20 + 4 * p.move2_pp_bonus },
    set_move3 := fun p m => Except.ok { p with
      move3 := m.toNat, move3_max_pp := 20 + 4 * p.move3_pp_bonus,
      pp3 := 20 + 4 * p.move3_pp_bonus },
    set_move4 := fun p m => Except.ok { p with
      move4 := m.toNat, move4_max_pp := 20 + 4 * p.move4_pp_bonus,
      pp4 := 20 + 4 * p.move4_pp_bonus },
    set_move1_bonus := fun p b => Except.ok { p with
      move1_pp_bonus := b.toNat, move1_max_pp := 20 + 4 * b.toNat,
      pp1 := min p.pp1 (20 + 4 * b.toNat) },
    set_move2_bonus := fun p b => Except.ok { p with
      move2_pp_bonus := b.toNat, move2_max_pp := 20 + 4 * b.toNat,
      pp2 := min p.pp2 (20 + 4 * b.toNat) },
    set_move3_bonus := fun p b => Except.ok { p with
      move3_pp_bonus := b.toNat, move3_max_pp := 20 + 4 * b.toNat,
      pp3 := min p.pp3 (20 + 4 * b.toNat) },
    set_move4_bonus := fun p b => Except.ok { p with
      move4_pp_bonus := b.toNat, move4_max_pp := 20 + 4 * b.toNat,
      pp4 := min p.pp4 (20 + 4 * b.toNat) } }

/-- The window with that creature in the editor, the four PP fields showing
its PP, and a new entry chosen in each move combo and bonus field. -/
def fixture_moves : MainWindow :=
  { fixture_editing with
    save := { file_name := "ruby.sav", game_name := "Ruby",
              trainer := some { fixture_trainer with
                pkmn_team := [(1, fixture_pkmn_moves), (2, fixture_pkmn2)] } },
    ui := { fixture_editing.ui with
      m1ComboBox := { items := fixture_pkmn_moves.move_list, currentIndex := 2, enabled := true },
      m2ComboBox := { items := fixture_pkmn_moves.move_list, currentIndex := 3, enabled := true },
      m3ComboBox := { items := fixture_pkmn_moves.move_list, currentIndex := 4, enabled := true },
      m4ComboBox := { items := fixture_pkmn_moves.move_list, currentIndex := 1, enabled := true },
      pp1SpinBox := { maximum := 35, value := 35, enabled := true },
      pp2SpinBox := { maximum := 40, value := 40, enabled := true },
      pp3SpinBox := { maximum := 25, value := 25, enabled := true },
      pp4SpinBox := { maximum := 35, value := 35, enabled := true },
      pp1BonusSpinBox := { maximum := 3, value := 1, enabled := true },
      pp2BonusSpinBox := { maximum := 3, value := 2, enabled := true },
      pp3BonusSpinBox := { maximum := 3, value := 3, enabled := true },
      pp4BonusSpinBox := { maximum := 3, value := 0, enabled := true },
      m1MaxppLineEdit := { text := "35" }, m2MaxppLineEdit := { text := "40" },
      m3MaxppLineEdit := { text := "25" }, m4MaxppLineEdit := { text := "35" } } }

/-- A creature of the third generation with stats, a trade evolution and one
move of 5 PP, at level 5. -/
def fixture_pkmn_party : pokemon :=
  { fixture_pkmn with
    nickname := "SEADRA", species := 117, level := 5,
    exp := 150, min_exp := 125, max_exp := 215,
    total_hp := 20, attack := 11, defense := 12, speed := 13,
    special_atk := 14, special_def := 10,
    move_list := ["-", "Bubble", "Surf"], move1 := 1, pp1 := 5, move1_max_pp := 5,
    has_trade_evolution := true }

/-- A second creature, at level 10, with one move of 35 PP. -/
def fixture_pkmn_party2 : pokemon :=
  { fixture_pkmn2 with
    level := 10, exp := 1025, min_exp := 1000, max_exp := 1330,
    total_hp := 30, attack := 15, defense := 14, speed := 16,
    move_list := ["-", "Bubble", "Surf"], move1 := 2, pp1 := 35, move1_max_pp := 35 }

/-- A trainer whose party holds these two creatures, at addresses 1 and 2,
and whose pocket holds one `Potion`. -/
def fixture_trainer_party : trainer :=
  { name := "MAY",
    pkmn_team := [(1, fixture_pkmn_party), (2, fixture_pkmn_party2)],
    get_pocket_items := [{ name := "Potion", count := 5 }],
    get_item_names := fun c =>
      match c with
      | item_category.Pocket => ["Potion", "Ether"]
      | item_category.Pokeball => ["Poke Ball"]
      | _ => [] }

/-- A creature of the first generation: one special stat, one special DV and
one special EV. -/
def fixture_pkmn_gen1 : pokemon :=
  { nickname := "PIKACHU", gender_name := "-", level := 5, species := 25, generation := 1,
    iv_maximum_value := 15, ev_maximum_value := 65535,
    compat_has_spc_eviv := true, compat_has_spc := true,
    total_hp := 19, attack := 10, defense := 9, speed := 14, special := 11,
    hp_iv := 8, attack_iv := 4, defense_iv := 6, speed_iv := 3, special_dv := 5,
    speed_ev := 2, special_ev := 7 }

/-- A trainer of a first-generation save. -/
def fixture_trainer_gen1 : trainer :=
  { name := "RED", pkmn_team := [(1, fixture_pkmn_gen1)] }

/-- The stat `set_iv` writes in `fixture_lib_party`. -/
def fixture_set_iv (p : pokemon) (stat : pkstat) (iv : Nat) : pokemon :=
  match stat with
  | pkstat.Hp => { p with hp_iv := iv }
  | pkstat.Atk => { p with attack_iv := iv }
  | pkstat.Def => { p with defense_iv := iv }
  | pkstat.Spe => { p with speed_iv := iv }
  | pkstat.Spa => { p with special_atk_iv := iv }
  | pkstat.Spd => { p with special_def_iv := iv }

/-- The stat `set_ev` writes in `fixture_lib_party`. -/
def fixture_set_ev (p : pokemon) (stat : pkstat) (ev : Nat) : pokemon :=
  match stat with
  | pkstat.Hp => { p with hp_ev := ev }
  | pkstat.Atk => { p with attack_ev := ev }
  | pkstat.Def => { p with defense_ev := ev }
  | pkstat.Spe => { p with speed_ev := ev }
  | pkstat.Spa => { p with special_atk_ev := ev }
  | pkstat.Spd => { p with special_def_ev := ev }

/-- A library with two readable files, `ruby.sav` and `red.sav`, whose
personality mutators have side effects: `set_gender` and `set_shiny` change
the nature and with it the attack, `set_nature` changes the gender,
`set_ot_pid` makes the creature shiny, and the trade evolution and
`set_species` rename it.  `set_iv` and `set_ev` write the IV and EV of the stat
they are given. -/
def fixture_lib_party : pklib :=
  { fixture_lib with
    read_pkmn_save_file := fun f =>
      if f = "ruby.sav" then
        Except.ok { file_name := f, game_name := "Ruby", trainer := some fixture_trainer_party }
      else if f = "red.sav" then
        Except.ok { file_name := f, game_name := "Red", trainer := some fixture_trainer_gen1 }
      else Except.error "cannot open file",
    set_gender := fun p g =>
      Except.ok { p with gender := g, gender_name := "Female", nature := 1,
                         attack := p.attack + 1 },
    set_shiny := fun p b =>
      Except.ok { p with is_shiny := b, nature := 2, attack := p.attack + 2 },
    set_nature := fun p n =>
      Except.ok { p with nature := n.toNat, gender := pokemon_gender.FEMALE,
                         gender_name := "Female", attack := p.attack + 3 },
    set_ot_pid := fun p n => Except.ok { p with ot_public_id := n.toNat, is_shiny := true },
    simulate_trade_evolution := fun p =>
      if p.has_trade_evolution then
        Except.ok { p with species := 230, nickname := "KINGDRA", has_trade_evolution := false }
      else Except.error "no trade evolution",
    set_species := fun p sp => Except.ok { p with species := sp.toNat, nickname := "KINGDRA" },
    set_iv := fun p stat iv => Except.ok (fixture_set_iv p stat iv),
    set_ev := fun p stat ev => Except.ok (fixture_set_ev p stat ev) }

/-- A session from the constructed window: open `ruby.sav`, click row 0 of the
party table, press Edit.  The creature at address 1 is then in the editor. -/
def fixture_party_session : Outcome :=
  ((open_file fixture_lib_party "ruby.sav" (MainWindow.construct {})).andThen
    (click_party_row 0)).andThen (editPkmnPartyPushButton_clicked fixture_lib_party)

/-- The session continued: the user chooses Female in the gender combo. -/
def fixture_party_gender : Outcome :=
  fixture_party_session.andThen (fun w =>
    pkmnGenderComboBox_currentIndexChanged fixture_lib_party
      { w with ui := { w.ui with
          pkmnGenderComboBox := w.ui.pkmnGenderComboBox.setCurrentIndex 2 } })

/-- The session continued: the user ticks the shiny box. -/
def fixture_party_shiny : Outcome :=
  fixture_party_session.andThen (fun w =>
    shinyCheckBox_stateChanged fixture_lib_party
      { w with ui := { w.ui with shinyCheckBox := w.ui.shinyCheckBox.setChecked true } })

/-- The session continued: the user chooses entry 5 of the nature combo. -/
def fixture_party_nature : Outcome :=
  fixture_party_session.andThen (fun w =>
    natureComboBox_currentIndexChanged fixture_lib_party
      { w with ui := { w.ui with natureComboBox := w.ui.natureComboBox.setCurrentIndex 5 } })

/-- The session continued: the user types `777` as OT public id. -/
def fixture_party_ot_pid : Outcome :=
  fixture_party_session.andThen (fun w =>
    otPidLineEdit_textChanged fixture_lib_party
      { w with ui := { w.ui with otPidLineEdit := w.ui.otPidLineEdit.setText "777" } })

/-- The session continued: the user presses the trade button. -/
def fixture_party_trade : Outcome :=
  fixture_party_session.andThen (pkmnSimulateTradePushButton_clicked fixture_lib_party)

/-- The session continued: the user clicks row 1 of the party table and
presses Edit.  The creature at address 2 is then in the editor. -/
def fixture_party_second : Outcome :=
  (fixture_party_session.andThen (click_party_row 1)).andThen
    (editPkmnPartyPushButton_clicked fixture_lib_party)

/-- A session from the constructed window: open `red.sav`, click row 0 of the
party table, press Edit.  The first-generation creature is then in the
editor. -/
def fixture_gen1_session : Outcome :=
  ((open_file fixture_lib_party "red.sav" (MainWindow.construct {})).andThen
    (click_party_row 0)).andThen (editPkmnPartyPushButton_clicked fixture_lib_party)

/-- The first-generation session continued: the user enters 9 in the special
DV field. -/
def fixture_gen1_special_dv : Outcome :=
  fixture_gen1_session.andThen (fun w =>
    spDvSpinBox_valueChanged fixture_lib_party
      { w with ui := { w.ui with spDvSpinBox := { w.ui.spDvSpinBox with value := 9 } } })

/-- The first-generation session continued: the user enters 9 in the speed DV
field. -/
def fixture_gen1_speed_dv : Outcome :=
  fixture_gen1_session.andThen (fun w =>
    speIvSpinBox_valueChanged fixture_lib_party
      { w with ui := { w.ui with speIvSpinBox := { w.ui.speIvSpinBox with value := 9 } } })

/-- The first-generation session continued: the user enters 9 in the special
EV field. -/
def fixture_gen1_special_ev : Outcome :=
  fixture_gen1_session.andThen (fun w =>
    spcEvSpinBox_valueChanged fixture_lib_party
      { w with ui := { w.ui with spcEvSpinBox := { w.ui.spcEvSpinBox with value := 9 } } })

/-- The first-generation session continued: the user opens `ruby.sav`, clicks
row 0 of the party table and presses Edit.  A third-generation creature is
then in the editor. -/
def fixture_gen1_then_gen3 : Outcome :=
  ((fixture_gen1_session.andThen (open_file fixture_lib_party "ruby.sav")).andThen
    (click_party_row 0)).andThen (editPkmnPartyPushButton_clicked fixture_lib_party)

/-- A click on the cell of row `row` and column `col` of the selected item
table: the table makes the cell its current and selected item, then
`on_item_select` runs. -/
def click_item_cell (row col : Nat) (w : MainWindow) : Outcome :=
  on_item_select
    { w with ui := (w.ui.set_table w.sel_item_table_widget
        { w.ui.table w.sel_item_table_widget with
          selectedRow := some row, currentRow := row, currentColumn := col }) }

/-- A session from the constructed window: open `ruby.sav`, click the cell of
row 0 and column `col` of the pocket table, show the balls tab, show the
pocket tab again. -/
def fixture_tab_session (col : Nat) : Outcome :=
  (((open_file fixture_lib_party "ruby.sav" (MainWindow.construct {})).andThen
    (click_item_cell 0 col)).andThen (itemsTabWidget_currentChanged 1)).andThen
    (itemsTabWidget_currentChanged 0)

/-- A creature whose game of origin, met level, fateful encounter flag and
moves may be edited.  Its move 1 is entry 1 of its move list, with 3 PP left
of 35. -/
def fixture_pkmn_gate : pokemon :=
  { fixture_pkmn with
    allowed_modifications :=
      { set_origin_game := true, set_level_met := true, set_fateful_encounter := true,
        set_moveset := true },
    compat_has_origin := true,
    origin_games := ["-", "Sapphire", "Ruby", "Emerald", "FireRed", "LeafGreen"],
    game_of_origin := 2,
    compat_has_level_met := true, level_met := 5,
    compat_has_fateful_encounter := true, fateful_encounter := false,
    move_list := ["-", "Scratch", "Growl", "Ember", "Peck", "Surf", "Fly", "Sketch"],
    move1 := 1, pp1 := 3, move1_max_pp := 35 }

/-- A library with a legality gate.  It refuses origin game 4, a met level
above the creature's level, a set fateful encounter flag and move 7 in slot 1.
Any other value is set; setting move 1 fills its PP to the ceiling of 35. -/
def fixture_lib_gate : pklib :=
  { fixture_lib with
    read_pkmn_save_file := fun f =>
      if f = "ruby.sav" then
        Except.ok { file_name := f, game_name := "Ruby",
                    trainer := some { name := "MAY", pkmn_team := [(1, fixture_pkmn_gate)] } }
      else Except.error "cannot open file",
    set_origin_game := fun p game =>
      if game = 4 then Except.error "illegal origin game"
      else Except.ok { p with game_of_origin := game.toNat },
    set_level_met := fun p level =>
      if (p.level : Int) < level then Except.error "met above its level"
      else Except.ok { p with level_met := level.toNat },
    set_fateful_encounter := fun p fateful =>
      if fateful then Except.error "not an event creature"
      else Except.ok { p with fateful_encounter := fateful },
    set_move1 := fun p move =>
      if move = 7 then Except.error "illegal move"
      else Except.ok { p with move1 := move.toNat, move1_max_pp := 35, pp1 := 35 } }

/-- A session from the constructed window: open `ruby.sav`, click row 0 of the
party table, press Edit.  The creature is then in the editor. -/
def fixture_gate_session : Outcome :=
  ((open_file fixture_lib_gate "ruby.sav" (MainWindow.construct {})).andThen
    (click_party_row 0)).andThen (editPkmnPartyPushButton_clicked fixture_lib_gate)

/-- The session continued: the user chooses entry 7 of the combo of move
slot 1. -/
def fixture_gate_move : Outcome :=
  fixture_gate_session.andThen (fun w =>
    m1ComboBox_currentIndexChanged fixture_lib_gate
      { w with ui := { w.ui with m1ComboBox := w.ui.m1ComboBox.setCurrentIndex 7 } })

/-- The session continued: the user chooses entry 4 of the origin game
combo. -/
def fixture_gate_origin : Outcome :=
  fixture_gate_session.andThen (fun w =>
    originGameComboBox_currentIndexChanged fixture_lib_gate
      { w with ui := { w.ui with
          originGameComboBox := w.ui.originGameComboBox.setCurrentIndex 4 } })

/-- The session continued: the user enters 50 as met level. -/
def fixture_gate_level_met : Outcome :=
  fixture_gate_session.andThen (fun w =>
    levelMetSpinBox_valueChanged fixture_lib_gate
      { w with ui := { w.ui with levelMetSpinBox := w.ui.levelMetSpinBox.setValue 50 } })

/-- The session continued: the user ticks the fateful encounter box. -/
def fixture_gate_fateful : Outcome :=
  fixture_gate_session.andThen (fun w =>
    fatefulEncounterCheckBox_stateChanged fixture_lib_gate
      { w with ui := { w.ui with
          fatefulEncounterCheckBox := w.ui.fatefulEncounterCheckBox.setChecked true } })

/-- The editing window after the user has chosen entry 7 of the gender
combo. -/
def fixture_gender_out_of_range : MainWindow :=
  { fixture_editing with
    ui := { fixture_editing.ui with
      pkmnGenderComboBox := { currentIndex := 7, enabled := true } } }

/-- A run from the constructed window: open `ruby.sav`, show the berries tab,
press the add button. -/
def fixture_inputs : List Input :=
  [Input.signal (Signal.actionOpen_File_triggered "ruby.sav"),
   Input.signal (Signal.itemsTabWidget_currentChanged 2),
   Input.signal Signal.addItemPushButton_clicked]

/-- The session continued: the user chooses entry 230 of the species
combo. -/
def fixture_party_species : Outcome :=
  fixture_party_session.andThen (fun w =>
    speciesComboBox_currentIndexChanged fixture_lib_party
      { w with ui := { w.ui with speciesComboBox := w.ui.speciesComboBox.setCurrentIndex 230 } })

/-- A creature that is asleep. -/
def fixture_pkmn_asleep : pokemon :=
  { fixture_pkmn with status := status_condition.SLP }

/-- A window with the save of that one creature loaded. -/
def fixture_asleep : MainWindow :=
  { save := { file_name := "ruby.sav", game_name := "Ruby",
              trainer := some { name := "MAY", pkmn_team := [(1, fixture_pkmn_asleep)] } },
    save_loaded := true }

/-! ## Theorems -/

/-! ### Shared lemmas -/

/-- Looking up an address after storing an object there finds that object,
provided the address held an object. -/
theorem team_lookup_store (team : List (Nat × pokemon)) (a : Nat) (p0 p : pokemon)
    (h : team_lookup team a = some p0) : team_lookup (team_store team a p) a = some p := by
  induction team with
  | nil => simp [team_lookup] at h
  | cons e rest ih =>
    obtain ⟨k, v⟩ := e
    have hs : team_store ((k, v) :: rest) a p =
        (if k = a then (a, p) else (k, v)) :: team_store rest a p := rfl
    unfold team_lookup at h ih ⊢
    rw [hs]
    by_cases he : k = a
    · rw [if_pos he]
      simp [List.lookup]
    · have hne : (a == k) = false := by simpa using (Ne.symm he)
      rw [if_neg he]
      simp only [List.lookup, hne] at h ⊢
      exact ih h

/-- A live pointer dereferences to the object just stored through it. -/
theorem deref_store (w : MainWindow) (a : Nat) (p0 p : pokemon)
    (h : w.deref a = some p0) : (w.store a p).deref a = some p := by
  unfold MainWindow.deref at h ⊢
  unfold MainWindow.store
  cases ht : w.save.trainer with
  | none => simp [ht] at h
  | some t =>
    simp only [ht, Option.some_bind, Option.map_some'] at h ⊢
    exact team_lookup_store _ _ _ _ h

/-- The fixture library removes exactly one member when it succeeds. -/
theorem fixture_lib_removes_one (t0 : trainer) (row : Nat) (t1 : trainer)
    (h : fixture_lib.remove_pkmn_from_party t0 row = Except.ok t1) :
    t1.pkmn_team.length + 1 = t0.pkmn_team.length := by
  simp only [fixture_lib] at h
  split at h
  · rename_i hlt
    injection h with h
    subst h
    simp only [List.length_eraseIdx, hlt, if_true]
    omega
  · cases h

/-- When `set_pkmn_in_editor` returns on a non-null pointer, the creature has
been passed through `allow_illegal_changes`, its status is a named one, and the
window is the old one with that creature stored, the call journalled, the form
rebuilt and `sel_pkmn` assigned. -/
theorem set_pkmn_in_editor_returned (lib : pklib) (w w' : MainWindow) (a : Nat)
    (h : set_pkmn_in_editor lib (some a) w = Outcome.returned w') :
    ∃ p0 p index box,
      w.deref a = some p0 ∧
      lib.allow_illegal_changes p0 w.opt.allow_illegal_modifications = Except.ok p ∧
      status_index p.status = some index ∧
      w' = { w.store a p with
        sel_pkmn := some a,
        journal := Event.allow_illegal_changes a w.opt.allow_illegal_modifications :: w.journal,
        ui := editor_form w.opt.allow_illegal_modifications p index box w.ui } := by
  unfold set_pkmn_in_editor at h
  simp only at h
  split at h
  · cases h
  · rename_i p0 hp0
    split at h
    · cases h
    · rename_i p hp
      split at h
      · cases h
      · rename_i index hidx
        split at h
        · cases h
        · split at h
          · cases h
          · rename_i box hbox
            injection h with h
            subst h
            exact ⟨p0, p, index, box, hp0, hp, hidx, rfl⟩

/-- Function `set_pkmn_in_editor` returns on a live creature that `allow_illegal_changes`
accepts, whose status is a named one and whose held item, if it has one, the
item lookup finds. -/
theorem set_pkmn_in_editor_returns (lib : pklib) (w : MainWindow) (a : Nat) (p0 p : pokemon)
    (hp0 : w.deref a = some p0)
    (hp : lib.allow_illegal_changes p0 w.opt.allow_illegal_modifications = Except.ok p)
    (hstatus : ∀ raw, p.status ≠ status_condition.other raw)
    (hitem : p.has_item = true → ∀ t name, ∃ idx, lib.item_idx_from_name t name = Except.ok idx) :
    ∃ w', set_pkmn_in_editor lib (some a) w = Outcome.returned w' := by
  have hd : MainWindow.deref { w with ui := editor_reset_combos w.ui } a = some p0 := hp0
  obtain ⟨index, hidx⟩ : ∃ index, status_index p.status = some index := by
    cases hs : p.status <;> first | exact ⟨_, rfl⟩ | exact absurd hs (hstatus _)
  obtain ⟨t, ht⟩ : ∃ t, w.save.trainer = some t := by
    cases ht : w.save.trainer with
    | none => simp [MainWindow.deref, ht] at hp0
    | some t => exact ⟨t, rfl⟩
  unfold set_pkmn_in_editor
  simp only [hd, MainWindow.log, hp, hidx, MainWindow.store, ht, Option.map_some']
  unfold editor_held_item
  split_ifs with h1 h2
  · cases hh : p.held_item with
    | none => exact ⟨_, rfl⟩
    | some name =>
      obtain ⟨idx, hi⟩ := hitem h2 { t with pkmn_team := team_store t.pkmn_team a p } name
      simp only [hi]
      exact ⟨_, rfl⟩
  · cases hh : p.held_item with
    | none => exact ⟨_, rfl⟩
    | some name => exact ⟨_, rfl⟩
  · exact ⟨_, rfl⟩

/-- Listing entries does not change whether a combo is enabled. -/
theorem QComboBox.addItems_enabled (c : QComboBox) (texts : List String) :
    (c.addItems texts).enabled = c.enabled := by
  unfold QComboBox.addItems
  induction texts generalizing c with
  | nil => rfl
  | cons x xs ih => exact (ih (c.addItem x)).trans rfl

/-- Refreshing the party table leaves the live objects as they were. -/
theorem refresh_party_deref (w : MainWindow) (a : Nat) :
    (refresh_party_if_selected w).deref a = w.deref a := by
  unfold refresh_party_if_selected
  split
  · split <;> rfl
  · rfl

/-- Refreshing the party table leaves the shiny box as it was. -/
theorem refresh_party_shinyCheckBox (w : MainWindow) :
    (refresh_party_if_selected w).ui.shinyCheckBox = w.ui.shinyCheckBox := by
  unfold refresh_party_if_selected
  split
  · split <;> rfl
  · rfl

/-- Refreshing the party table leaves the nature combo as it was. -/
theorem refresh_party_natureComboBox (w : MainWindow) :
    (refresh_party_if_selected w).ui.natureComboBox = w.ui.natureComboBox := by
  unfold refresh_party_if_selected
  split
  · split <;> rfl
  · rfl

/-- Refreshing the party table leaves the gender combo as it was. -/
theorem refresh_party_pkmnGenderComboBox (w : MainWindow) :
    (refresh_party_if_selected w).ui.pkmnGenderComboBox = w.ui.pkmnGenderComboBox := by
  unfold refresh_party_if_selected
  split
  · split <;> rfl
  · rfl

/-- Refreshing the party table leaves the PID text as it was. -/
theorem refresh_party_pIDLineEdit (w : MainWindow) :
    (refresh_party_if_selected w).ui.pIDLineEdit = w.ui.pIDLineEdit := by
  unfold refresh_party_if_selected
  split
  · split <;> rfl
  · rfl

/-! ### Shared lemmas: the item tables and the spin boxes -/

/-- Reading back the table just written. -/
theorem Ui.table_set_table (ui : Ui) (r : table_ref) (t : QTableWidget) :
    (ui.set_table r t).table r = t := by
  cases r <;> rfl

/-- Writing one table leaves the others as they were. -/
theorem Ui.table_set_table_of_ne (ui : Ui) (r r' : table_ref) (t : QTableWidget)
    (h : r' ≠ r) : (ui.set_table r t).table r' = ui.table r' := by
  cases r <;> cases r' <;> first | rfl | exact absurd rfl h

/-- Function `u16` keeps a value that fits. -/
theorem u16_of_le (n : Nat) (h : n ≤ 65535) : u16 (n : Int) = n := by
  unfold u16
  have h1 : ((n : Int) % 65536) = (n : Int) := Int.emod_eq_of_lt (by omega) (by omega)
  rw [h1]; simp

/-- The rows after `removeRow`. -/
theorem QTableWidget.removeRow_rows (t : QTableWidget) (row : Nat) :
    (t.removeRow row).rows = t.rows.eraseIdx row := by
  unfold QTableWidget.removeRow
  split
  · rfl
  · rename_i h
    exact (List.eraseIdx_of_length_le (not_lt.mp h)).symm

/-- The rows after `insertRow` at a row of the table or at its end. -/
theorem QTableWidget.insertRow_rows (t : QTableWidget) (row : Nat)
    (h : row ≤ t.rows.length) :
    (t.insertRow row).rows = t.rows.take row ++ [] :: t.rows.drop row := by
  unfold QTableWidget.insertRow
  rw [if_pos h]
  simp

/-- The rows after `setItem` on the row that follows `before`. -/
theorem QTableWidget.setItem_rows (t : QTableWidget) (before after : List (List String))
    (cells : List String) (col : Nat) (text : String)
    (h : t.rows = before ++ cells :: after) :
    (t.setItem before.length col text).rows = before ++ set_cell cells col text :: after := by
  unfold QTableWidget.setItem
  have hg : t.rows.get? before.length = some cells := by
    rw [h, List.get?_eq_getElem?, List.getElem?_append_right (le_refl _)]; simp
  rw [hg]
  show t.rows.set before.length (set_cell cells col text) = _
  rw [h]; simp

/-- The rows after `setCurrentItem`. -/
theorem QTableWidget.setCurrentItem_rows (t : QTableWidget) (row col : Nat) :
    (t.setCurrentItem row col).rows = t.rows := by
  unfold QTableWidget.setCurrentItem
  split <;> rfl

/-- The two cells the item slots write into an empty row. -/
theorem set_cell_name_quantity (name quantity : String) :
    set_cell (set_cell [] 0 name) 1 quantity = [name, quantity] := by
  rfl

/-- The rows after the add slot's table calls: the new row is the last. -/
theorem append_item_row_rows (name : String) (quantity : Nat) (table : QTableWidget) :
    (append_item_row name quantity table).rows =
      table.rows ++ [[name, toString quantity]] := by
  unfold append_item_row
  simp only [QTableWidget.rowCount]
  have h1 : (table.insertRow table.rows.length).rows = table.rows ++ [] :: [] := by
    rw [QTableWidget.insertRow_rows _ _ (le_refl _)]
    simp
  have h2 := QTableWidget.setItem_rows _ _ _ _ 0 name h1
  have hc1 : (table.insertRow table.rows.length).rows.length - 1 = table.rows.length := by
    rw [h1]; simp
  rw [hc1]
  have hc2 : ((table.insertRow table.rows.length).setItem table.rows.length 0 name).rows.length
      - 1 = table.rows.length := by
    rw [h2]; simp
  rw [hc2]
  have h3 := QTableWidget.setItem_rows _ _ _ _ 1 (toString quantity) h2
  rw [h3, set_cell_name_quantity]

/-- The rows after the edit slot's table calls on a row of the table: that
row is replaced. -/
theorem replace_item_row_rows (row : Nat) (name : String) (quantity : Nat)
    (table : QTableWidget) (h : row < table.rows.length) :
    (replace_item_row row name quantity table).rows =
      table.rows.take row ++ [name, toString quantity] :: table.rows.drop (row + 1) := by
  unfold replace_item_row
  rw [QTableWidget.setCurrentItem_rows]
  have h0 : (table.removeRow row).rows = table.rows.take row ++ table.rows.drop (row + 1) := by
    rw [QTableWidget.removeRow_rows, List.eraseIdx_eq_take_drop_succ]
  have hlen : (table.rows.take row).length = row := by
    rw [List.length_take]; omega
  have h1 : ((table.removeRow row).insertRow row).rows =
      table.rows.take row ++ [] :: table.rows.drop (row + 1) := by
    rw [QTableWidget.insertRow_rows]
    · rw [h0, List.take_append_of_le_length (by omega), List.drop_append_of_le_length (by omega)]
      rw [List.take_of_length_le (by omega), List.drop_of_length_le (by omega)]
      simp
    · rw [h0, List.length_append, hlen]; omega
  have h2 := QTableWidget.setItem_rows _ _ _ _ 0 name h1
  rw [hlen] at h2
  have h3 := QTableWidget.setItem_rows _ _ _ _ 1 (toString quantity) h2
  rw [hlen] at h3
  rw [h3, set_cell_name_quantity]

/-- The add slot when `add_item` returns: the trainer is the one the library
left and the selected table has the new row. -/
theorem addItemPushButton_clicked_ok (lib : pklib) (w : MainWindow) (t t1 : trainer)
    (ht : w.save.trainer = some t)
    (hok : lib.add_item t w.sel_item_category w.ui.itemNameComboBox.currentText
      (u16 w.ui.quantitySpinBox.value) = Except.ok t1) :
    addItemPushButton_clicked lib w = Outcome.returned
      { w.log (Event.add_item w.sel_item_category w.ui.itemNameComboBox.currentText
          (u16 w.ui.quantitySpinBox.value)) with
        save := { w.save with trainer := some t1 },
        ui := w.ui.set_table w.sel_item_table_widget
          (append_item_row w.ui.itemNameComboBox.currentText (u16 w.ui.quantitySpinBox.value)
            (w.ui.table w.sel_item_table_widget)) } := by
  unfold addItemPushButton_clicked
  simp only [ht]
  show (match lib.add_item t w.sel_item_category w.ui.itemNameComboBox.currentText
      (u16 w.ui.quantitySpinBox.value) with
    | Except.error e => _
    | Except.ok t1 => _) = _
  rw [hok]
  rfl

/-- The add slot when `add_item` throws: the call and the pop-up are
journalled and nothing else changes. -/
theorem addItemPushButton_clicked_error (lib : pklib) (w : MainWindow) (t : trainer)
    (e : String) (ht : w.save.trainer = some t)
    (herr : lib.add_item t w.sel_item_category w.ui.itemNameComboBox.currentText
      (u16 w.ui.quantitySpinBox.value) = Except.error e) :
    addItemPushButton_clicked lib w = Outcome.returned
      (show_popup_error (w.log (Event.add_item w.sel_item_category
        w.ui.itemNameComboBox.currentText (u16 w.ui.quantitySpinBox.value))) e) := by
  unfold addItemPushButton_clicked
  simp only [ht]
  show (match lib.add_item t w.sel_item_category w.ui.itemNameComboBox.currentText
      (u16 w.ui.quantitySpinBox.value) with
    | Except.error e => _
    | Except.ok t1 => _) = _
  rw [herr]

/-- The edit slot when `edit_item` returns. -/
theorem editItemPushButton_clicked_ok (lib : pklib) (w : MainWindow) (t t1 : trainer)
    (ht : w.save.trainer = some t)
    (hok : lib.edit_item t w.sel_item_category
      (u16 (w.ui.table w.sel_item_table_widget).currentRow)
      w.ui.itemNameComboBox.currentText (u16 w.ui.quantitySpinBox.value) = Except.ok t1) :
    editItemPushButton_clicked lib w = Outcome.returned
      { w.log (Event.edit_item w.sel_item_category
          (u16 (w.ui.table w.sel_item_table_widget).currentRow)
          w.ui.itemNameComboBox.currentText (u16 w.ui.quantitySpinBox.value)) with
        save := { w.save with trainer := some t1 },
        ui := w.ui.set_table w.sel_item_table_widget
          (replace_item_row (u16 (w.ui.table w.sel_item_table_widget).currentRow)
            w.ui.itemNameComboBox.currentText (u16 w.ui.quantitySpinBox.value)
            (w.ui.table w.sel_item_table_widget)) } := by
  unfold editItemPushButton_clicked
  simp only [ht]
  show (match lib.edit_item t w.sel_item_category
      (u16 (w.ui.table w.sel_item_table_widget).currentRow)
      w.ui.itemNameComboBox.currentText (u16 w.ui.quantitySpinBox.value) with
    | Except.error e => _
    | Except.ok t1 => _) = _
  rw [hok]
  rfl

/-- The delete slot when `del_item` returns. -/
theorem deleteItemPushButton_clicked_ok (lib : pklib) (w : MainWindow) (t t1 : trainer)
    (ht : w.save.trainer = some t)
    (hok : lib.del_item t w.sel_item_category
      (u16 (w.ui.table w.sel_item_table_widget).currentRow) = Except.ok t1) :
    deleteItemPushButton_clicked lib w = Outcome.returned
      { w.log (Event.del_item w.sel_item_category
          (u16 (w.ui.table w.sel_item_table_widget).currentRow)) with
        save := { w.save with trainer := some t1 },
        ui := w.ui.set_table w.sel_item_table_widget
          ((w.ui.table w.sel_item_table_widget).removeRow
            (u16 (w.ui.table w.sel_item_table_widget).currentRow)) } := by
  unfold deleteItemPushButton_clicked
  simp only [ht]
  show (match lib.del_item t w.sel_item_category
      (u16 (w.ui.table w.sel_item_table_widget).currentRow) with
    | Except.error e => _
    | Except.ok t1 => _) = _
  rw [hok]
  rfl

/-- The delete slot when `del_item` throws: the exception leaves the slot. -/
theorem deleteItemPushButton_clicked_error (lib : pklib) (w : MainWindow) (t : trainer)
    (e : String) (ht : w.save.trainer = some t)
    (herr : lib.del_item t w.sel_item_category
      (u16 (w.ui.table w.sel_item_table_widget).currentRow) = Except.error e) :
    deleteItemPushButton_clicked lib w = Outcome.threw e
      (w.log (Event.del_item w.sel_item_category
        (u16 (w.ui.table w.sel_item_table_widget).currentRow))) := by
  unfold deleteItemPushButton_clicked
  simp only [ht]
  show (match lib.del_item t w.sel_item_category
      (u16 (w.ui.table w.sel_item_table_widget).currentRow) with
    | Except.error e => _
    | Except.ok t1 => _) = _
  rw [herr]

/-- The rows after the edit slot's table calls, as a `set`. -/
theorem replace_item_row_rows_set (row : Nat) (name : String) (quantity : Nat)
    (table : QTableWidget) (h : row < table.rows.length) :
    (replace_item_row row name quantity table).rows =
      table.rows.set row [name, toString quantity] := by
  rw [replace_item_row_rows row name quantity table h, List.set_eq_take_append_cons_drop,
    if_pos h]

/-- Writing a table leaves the item name combo as it was. -/
theorem Ui.set_table_itemNameComboBox (ui : Ui) (r : table_ref) (t : QTableWidget) :
    (ui.set_table r t).itemNameComboBox = ui.itemNameComboBox := by
  cases r <;> rfl

/-- Writing a table leaves the quantity field as it was. -/
theorem Ui.set_table_quantitySpinBox (ui : Ui) (r : table_ref) (t : QTableWidget) :
    (ui.set_table r t).quantitySpinBox = ui.quantitySpinBox := by
  cases r <;> rfl

/-- What the add slot leaves when `add_item` returns.  The slot reads the
category `c`, the table `r`, the name `name` and the quantity `quantity`: the
call is journalled, the trainer is the one the library left, table `r` has
the new row as its last, and the selection, the name combo, the quantity
field and the other tables are as they were. -/
theorem addItemPushButton_clicked_rows (lib : pklib) (w : MainWindow) (t t1 : trainer)
    (c : item_category) (r : table_ref) (name : String) (quantity : Nat)
    (ht : w.save.trainer = some t)
    (hc : w.sel_item_category = c) (hr : w.sel_item_table_widget = r)
    (hname : w.ui.itemNameComboBox.currentText = name)
    (hq : u16 w.ui.quantitySpinBox.value = quantity)
    (hok : lib.add_item t c name quantity = Except.ok t1) :
    ∃ w', addItemPushButton_clicked lib w = Outcome.returned w' ∧
      w'.journal = Event.add_item c name quantity :: w.journal ∧
      w'.save.trainer = some t1 ∧
      (w'.ui.table r).rows = (w.ui.table r).rows ++ [[name, toString quantity]] ∧
      (∀ r', r' ≠ r → w'.ui.table r' = w.ui.table r') ∧
      w'.sel_item_category = c ∧
      w'.sel_item_table_widget = r ∧
      w'.ui.itemNameComboBox = w.ui.itemNameComboBox ∧
      w'.ui.quantitySpinBox = w.ui.quantitySpinBox := by
  subst hc hr hname hq
  refine ⟨_, addItemPushButton_clicked_ok lib w t t1 ht hok, rfl, rfl, ?_, ?_, rfl, rfl, ?_, ?_⟩
  · exact (congrArg QTableWidget.rows (Ui.table_set_table _ _ _)).trans
      (append_item_row_rows _ _ _)
  · intro r hr
    exact Ui.table_set_table_of_ne _ _ _ _ hr
  · exact Ui.set_table_itemNameComboBox _ _ _
  · exact Ui.set_table_quantitySpinBox _ _ _

/-- What the edit slot leaves when `edit_item` returns and the row it read is
a row of the table.  The slot reads the category `c`, the table `r`, the row
`row`, the name `name` and the quantity `quantity`: the call is journalled,
the trainer is the one the library left, and that row of table `r` holds the
name and the quantity. -/
theorem editItemPushButton_clicked_rows (lib : pklib) (w : MainWindow) (t t1 : trainer)
    (c : item_category) (r : table_ref) (row : Nat) (name : String) (quantity : Nat)
    (ht : w.save.trainer = some t)
    (hc : w.sel_item_category = c) (hr : w.sel_item_table_widget = r)
    (hrow : u16 (w.ui.table r).currentRow = row)
    (hname : w.ui.itemNameComboBox.currentText = name)
    (hq : u16 w.ui.quantitySpinBox.value = quantity)
    (hlt : row < (w.ui.table r).rows.length)
    (hok : lib.edit_item t c row name quantity = Except.ok t1) :
    ∃ w', editItemPushButton_clicked lib w = Outcome.returned w' ∧
      w'.journal = Event.edit_item c row name quantity :: w.journal ∧
      w'.save.trainer = some t1 ∧
      (w'.ui.table r).rows = (w.ui.table r).rows.set row [name, toString quantity] ∧
      (∀ r', r' ≠ r → w'.ui.table r' = w.ui.table r') := by
  subst hc hr hrow hname hq
  refine ⟨_, editItemPushButton_clicked_ok lib w t t1 ht hok, rfl, rfl, ?_, ?_⟩
  · exact (congrArg QTableWidget.rows (Ui.table_set_table _ _ _)).trans
      (replace_item_row_rows_set _ _ _ _ hlt)
  · intro r hr
    exact Ui.table_set_table_of_ne _ _ _ _ hr

/-- What the delete slot leaves when `del_item` returns.  The slot reads the
category `c`, the table `r` and the row `row`: the call is journalled, the
trainer is the one the library left, and row `row` is erased from table
`r`. -/
theorem deleteItemPushButton_clicked_rows (lib : pklib) (w : MainWindow) (t t1 : trainer)
    (c : item_category) (r : table_ref) (row : Nat)
    (ht : w.save.trainer = some t)
    (hc : w.sel_item_category = c) (hr : w.sel_item_table_widget = r)
    (hrow : u16 (w.ui.table r).currentRow = row)
    (hok : lib.del_item t c row = Except.ok t1) :
    ∃ w', deleteItemPushButton_clicked lib w = Outcome.returned w' ∧
      w'.journal = Event.del_item c row :: w.journal ∧
      w'.save.trainer = some t1 ∧
      (w'.ui.table r).rows = (w.ui.table r).rows.eraseIdx row ∧
      (∀ r', r' ≠ r → w'.ui.table r' = w.ui.table r') := by
  subst hc hr hrow
  refine ⟨_, deleteItemPushButton_clicked_ok lib w t t1 ht hok, rfl, rfl, ?_, ?_⟩
  · exact (congrArg QTableWidget.rows (Ui.table_set_table _ _ _)).trans
      (QTableWidget.removeRow_rows _ _)
  · intro r hr
    exact Ui.table_set_table_of_ne _ _ _ _ hr

/-- The selected table after `select_item_row`. -/
theorem select_item_row_table (row : Nat) (quantity : Int) (w : MainWindow) :
    (select_item_row row quantity w).ui.table w.sel_item_table_widget =
      { w.ui.table w.sel_item_table_widget with
        selectedRow := some row, currentRow := row } := by
  unfold select_item_row
  cases w.sel_item_table_widget <;> rfl

/-- The name combo after `select_item_row`. -/
theorem select_item_row_itemNameComboBox (row : Nat) (quantity : Int) (w : MainWindow) :
    (select_item_row row quantity w).ui.itemNameComboBox = w.ui.itemNameComboBox := by
  unfold select_item_row
  cases w.sel_item_table_widget <;> rfl

/-- The ledger of `fixture_lib_ledger` erases the entry at a position of the
pocket. -/
theorem fixture_lib_ledger_del_item (t : trainer) (c : item_category) (row : Nat)
    (h : row < (t.pocket c).length) :
    fixture_lib_ledger.del_item t c row =
      Except.ok (t.set_pocket c ((t.pocket c).eraseIdx row)) :=
  if_pos h

/-- The ledger of `fixture_lib_ledger` replaces the entry at a position of
the pocket. -/
theorem fixture_lib_ledger_edit_item (t : trainer) (c : item_category) (row : Nat)
    (name : String) (quantity : Nat) (h : row < (t.pocket c).length) :
    fixture_lib_ledger.edit_item t c row name quantity =
      Except.ok (t.set_pocket c ((t.pocket c).set row { name := name, count := quantity })) :=
  if_pos h

/-- The edit slot run on a window in which the user has just made row `row`
current and put `quantity` in the quantity field. -/
theorem editItemPushButton_clicked_select (lib : pklib) (w : MainWindow) (t t1 : trainer)
    (row : Nat) (quantity : Int)
    (c : item_category) (r : table_ref) (row0 : Nat) (name : String) (quantity0 : Nat)
    (ht : w.save.trainer = some t)
    (hc : w.sel_item_category = c) (hr : w.sel_item_table_widget = r)
    (hrow : u16 (row : Int) = row0)
    (hname : w.ui.itemNameComboBox.currentText = name)
    (hq : u16 quantity = quantity0)
    (hlt : row0 < (w.ui.table r).rows.length)
    (hok : lib.edit_item t c row0 name quantity0 = Except.ok t1) :
    ∃ w', editItemPushButton_clicked lib (select_item_row row quantity w) =
        Outcome.returned w' ∧
      w'.journal = Event.edit_item c row0 name quantity0 :: w.journal ∧
      w'.save.trainer = some t1 ∧
      (w'.ui.table r).rows = (w.ui.table r).rows.set row0 [name, toString quantity0] := by
  subst hr
  have hT := select_item_row_table row quantity w
  have hN := select_item_row_itemNameComboBox row quantity w
  have hrow2 : u16 ((select_item_row row quantity w).ui.table
      w.sel_item_table_widget).currentRow = row0 := by
    rw [hT]
    exact hrow
  have hname2 : (select_item_row row quantity w).ui.itemNameComboBox.currentText = name := by
    rw [hN]
    exact hname
  have hlt2 : row0 < ((select_item_row row quantity w).ui.table
      w.sel_item_table_widget).rows.length := by
    rw [hT]
    exact hlt
  obtain ⟨w', h, hj, ht', hrows, _⟩ :=
    editItemPushButton_clicked_rows lib (select_item_row row quantity w) t t1 c
      w.sel_item_table_widget row0 name quantity0 ht hc rfl hrow2 hname2 hq hlt2 hok
  refine ⟨w', h, hj, ht', ?_⟩
  rw [hrows, hT]

/-- A spin box given a maximum and then a value inside the new range shows
that maximum and that value, and keeps its minimum. -/
theorem QSpinBox.setMaximum_setValue (b : QSpinBox) (m v : Int)
    (hmin : b.minimum ≤ v) (hv : v ≤ m) :
    ((b.setMaximum m).setValue v).maximum = m ∧
    ((b.setMaximum m).setValue v).value = v ∧
    ((b.setMaximum m).setValue v).minimum = b.minimum := by
  refine ⟨rfl, ?_, ?_⟩
  · show max (min b.minimum m) (min m v) = v
    omega
  · show min b.minimum m = b.minimum
    omega

/-- A spin box keeps a value of its range. -/
theorem bound_of_mem (lo hi v : Int) (h1 : lo ≤ v) (h2 : v ≤ hi) : bound lo hi v = v := by
  unfold bound
  omega

/-- An outcome that keeps the item selection of a window keeps that of any
window with the same item selection. -/
theorem Outcome.keeps_item_selection_of_eq (w w0 : MainWindow) (o : Outcome)
    (h1 : w.sel_item_table_widget = w0.sel_item_table_widget)
    (h2 : w.sel_item_category = w0.sel_item_category)
    (h : o.keeps_item_selection w) : o.keeps_item_selection w0 := by
  cases o with
  | returned w1 => exact ⟨h.1.trans h1, h.2.trans h2⟩
  | threw e w1 => exact ⟨h.1.trans h1, h.2.trans h2⟩
  | undefined => trivial

/-- A reverting handler keeps the item selection when the slot it raises
does. -/
theorem revert_then_report_keeps (changed : Bool) (raised : MainWindow → Outcome)
    (w w0 : MainWindow) (err : String)
    (h1 : w.sel_item_table_widget = w0.sel_item_table_widget)
    (h2 : w.sel_item_category = w0.sel_item_category)
    (hr : ∀ w1, (raised w1).keeps_item_selection w1) :
    (revert_then_report changed raised w err).keeps_item_selection w0 := by
  unfold revert_then_report
  cases changed
  · exact ⟨h1, h2⟩
  · have hk := Outcome.keeps_item_selection_of_eq _ _ _ h1 h2 (hr w)
    simp only [if_true]
    cases hraised : raised w with
    | returned w1 =>
      rw [hraised] at hk
      exact hk
    | threw e w1 =>
      rw [hraised] at hk
      exact hk
    | undefined => trivial

/-- A reverting handler depends on the slot it raises only when its write
changed the widget, and then only on what that slot does on this window. -/
theorem revert_then_report_congr (changed : Bool) (r1 r2 : MainWindow → Outcome)
    (w : MainWindow) (err : String) (h : changed = true → r1 w = r2 w) :
    revert_then_report changed r1 w err = revert_then_report changed r2 w err := by
  cases changed
  · rfl
  · unfold revert_then_report
    rw [h rfl]

/-- The fateful encounter lambda keeps the item selection when the slot it raises
does. -/
theorem fatefulEncounterCheckBox_lambda_keeps (raised : MainWindow → Outcome)
    (hr : ∀ w1, (raised w1).keeps_item_selection w1) (lib : pklib) (w : MainWindow) :
    (fatefulEncounterCheckBox_lambda raised lib w).keeps_item_selection w := by
  unfold fatefulEncounterCheckBox_lambda
  dsimp only
  repeat' split
  all_goals first
    | exact ⟨rfl, rfl⟩
    | trivial
    | exact revert_then_report_keeps _ _ _ _ _ rfl rfl hr

/-- On a window whose widget already shows the creature's value, the
fateful encounter lambda raises no signal: it does not depend on `raised`. -/
theorem fatefulEncounterCheckBox_lambda_at_rest (r1 r2 : MainWindow → Outcome) (lib : pklib)
    (w : MainWindow) (a : Nat) (p0 : pokemon)
    (hsel : w.sel_pkmn = some a) (hp0 : w.deref a = some p0)
    (hrest : (w.ui.fatefulEncounterCheckBox.setChecked p0.fateful_encounter).checked = w.ui.fatefulEncounterCheckBox.checked) :
    fatefulEncounterCheckBox_lambda r1 lib w = fatefulEncounterCheckBox_lambda r2 lib w := by
  unfold fatefulEncounterCheckBox_lambda
  simp only [hsel, hp0]
  show (match lib.set_fateful_encounter p0 w.ui.fatefulEncounterCheckBox.checked with
    | Except.error e => _ | Except.ok p => _) =
    (match lib.set_fateful_encounter p0 w.ui.fatefulEncounterCheckBox.checked with
    | Except.error e => _ | Except.ok p => _)
  cases lib.set_fateful_encounter p0 w.ui.fatefulEncounterCheckBox.checked with
  | ok p => rfl
  | error e =>
    have hd : decide ((w.ui.fatefulEncounterCheckBox.setChecked p0.fateful_encounter).checked ≠ w.ui.fatefulEncounterCheckBox.checked) = false := by
      rw [hrest]
      simp
    exact revert_then_report_congr _ _ _ _ _ (fun hc => absurd (hd.symm.trans hc) (by decide))

/-- The second run of the fateful encounter slot raises no third: whatever would
run then, the slot is the same. -/
theorem fatefulEncounterCheckBox_lambda_settled (r : MainWindow → Outcome) (lib : pklib) (w : MainWindow) :
    fatefulEncounterCheckBox_lambda (fatefulEncounterCheckBox_lambda r lib) lib w = fatefulEncounterCheckBox_stateChanged lib w := by
  unfold fatefulEncounterCheckBox_stateChanged
  cases hsel : w.sel_pkmn with
  | none =>
    unfold fatefulEncounterCheckBox_lambda
    simp only [hsel]
  | some a =>
    cases hp0 : w.deref a with
    | none =>
      unfold fatefulEncounterCheckBox_lambda
      simp only [hsel, hp0]
    | some p0 =>
      rw [fatefulEncounterCheckBox_lambda, fatefulEncounterCheckBox_lambda]
      simp only [hsel, hp0]
      show (match lib.set_fateful_encounter p0 w.ui.fatefulEncounterCheckBox.checked with
        | Except.error e => _ | Except.ok p => _) =
        (match lib.set_fateful_encounter p0 w.ui.fatefulEncounterCheckBox.checked with
        | Except.error e => _ | Except.ok p => _)
      cases lib.set_fateful_encounter p0 w.ui.fatefulEncounterCheckBox.checked with
      | ok p => rfl
      | error e =>
        refine revert_then_report_congr _ _ _ _ _ (fun _ => ?_)
        refine fatefulEncounterCheckBox_lambda_at_rest r Outcome.returned lib _ a p0 ?_ ?_ ?_
        · exact hsel
        · exact hp0
        · rfl

/-- The origin game lambda keeps the item selection when the slot it raises
does. -/
theorem originGameComboBox_lambda_keeps (raised : MainWindow → Outcome)
    (hr : ∀ w1, (raised w1).keeps_item_selection w1) (lib : pklib) (w : MainWindow) :
    (originGameComboBox_lambda raised lib w).keeps_item_selection w := by
  unfold originGameComboBox_lambda
  dsimp only
  repeat' split
  all_goals first
    | exact ⟨rfl, rfl⟩
    | trivial
    | exact revert_then_report_keeps _ _ _ _ _ rfl rfl hr

/-- On a window whose widget already shows the creature's value, the
origin game lambda raises no signal: it does not depend on `raised`. -/
theorem originGameComboBox_lambda_at_rest (r1 r2 : MainWindow → Outcome) (lib : pklib)
    (w : MainWindow) (a : Nat) (p0 : pokemon)
    (hsel : w.sel_pkmn = some a) (hp0 : w.deref a = some p0)
    (hrest : (w.ui.originGameComboBox.setCurrentIndex p0.game_of_origin).currentIndex = w.ui.originGameComboBox.currentIndex) :
    originGameComboBox_lambda r1 lib w = originGameComboBox_lambda r2 lib w := by
  unfold originGameComboBox_lambda
  simp only [hsel, hp0]
  show (match lib.set_origin_game p0 w.ui.originGameComboBox.currentIndex with
    | Except.error e => _ | Except.ok p => _) =
    (match lib.set_origin_game p0 w.ui.originGameComboBox.currentIndex with
    | Except.error e => _ | Except.ok p => _)
  cases lib.set_origin_game p0 w.ui.originGameComboBox.currentIndex with
  | ok p => rfl
  | error e =>
    have hd : decide ((w.ui.originGameComboBox.setCurrentIndex p0.game_of_origin).currentIndex ≠ w.ui.originGameComboBox.currentIndex) = false := by
      rw [hrest]
      simp
    exact revert_then_report_congr _ _ _ _ _ (fun hc => absurd (hd.symm.trans hc) (by decide))

/-- The second run of the origin game slot raises no third: whatever would
run then, the slot is the same. -/
theorem originGameComboBox_lambda_settled (r : MainWindow → Outcome) (lib : pklib) (w : MainWindow) :
    originGameComboBox_lambda (originGameComboBox_lambda r lib) lib w = originGameComboBox_currentIndexChanged lib w := by
  unfold originGameComboBox_currentIndexChanged
  cases hsel : w.sel_pkmn with
  | none =>
    unfold originGameComboBox_lambda
    simp only [hsel]
  | some a =>
    cases hp0 : w.deref a with
    | none =>
      unfold originGameComboBox_lambda
      simp only [hsel, hp0]
    | some p0 =>
      rw [originGameComboBox_lambda, originGameComboBox_lambda]
      simp only [hsel, hp0]
      show (match lib.set_origin_game p0 w.ui.originGameComboBox.currentIndex with
        | Except.error e => _ | Except.ok p => _) =
        (match lib.set_origin_game p0 w.ui.originGameComboBox.currentIndex with
        | Except.error e => _ | Except.ok p => _)
      cases lib.set_origin_game p0 w.ui.originGameComboBox.currentIndex with
      | ok p => rfl
      | error e =>
        refine revert_then_report_congr _ _ _ _ _ (fun _ => ?_)
        refine originGameComboBox_lambda_at_rest r Outcome.returned lib _ a p0 ?_ ?_ ?_
        · exact hsel
        · exact hp0
        · rfl

/-- The met level lambda keeps the item selection when the slot it raises
does. -/
theorem levelMetSpinBox_lambda_keeps (raised : MainWindow → Outcome)
    (hr : ∀ w1, (raised w1).keeps_item_selection w1) (lib : pklib) (w : MainWindow) :
    (levelMetSpinBox_lambda raised lib w).keeps_item_selection w := by
  unfold levelMetSpinBox_lambda
  dsimp only
  repeat' split
  all_goals first
    | exact ⟨rfl, rfl⟩
    | trivial
    | exact revert_then_report_keeps _ _ _ _ _ rfl rfl hr

/-- On a window whose widget already shows the creature's value, the
met level lambda raises no signal: it does not depend on `raised`. -/
theorem levelMetSpinBox_lambda_at_rest (r1 r2 : MainWindow → Outcome) (lib : pklib)
    (w : MainWindow) (a : Nat) (p0 : pokemon)
    (hsel : w.sel_pkmn = some a) (hp0 : w.deref a = some p0)
    (hrest : (w.ui.levelMetSpinBox.setValue p0.level_met).value = w.ui.levelMetSpinBox.value) :
    levelMetSpinBox_lambda r1 lib w = levelMetSpinBox_lambda r2 lib w := by
  unfold levelMetSpinBox_lambda
  simp only [hsel, hp0]
  show (match lib.set_level_met p0 w.ui.levelMetSpinBox.value with
    | Except.error e => _ | Except.ok p => _) =
    (match lib.set_level_met p0 w.ui.levelMetSpinBox.value with
    | Except.error e => _ | Except.ok p => _)
  cases lib.set_level_met p0 w.ui.levelMetSpinBox.value with
  | ok p => rfl
  | error e =>
    have hd : decide ((w.ui.levelMetSpinBox.setValue p0.level_met).value ≠ w.ui.levelMetSpinBox.value) = false := by
      rw [hrest]
      simp
    exact revert_then_report_congr _ _ _ _ _ (fun hc => absurd (hd.symm.trans hc) (by decide))

/-- The second run of the met level slot raises no third: whatever would
run then, the slot is the same. -/
theorem levelMetSpinBox_lambda_settled (r : MainWindow → Outcome) (lib : pklib) (w : MainWindow) :
    levelMetSpinBox_lambda (levelMetSpinBox_lambda r lib) lib w = levelMetSpinBox_valueChanged lib w := by
  unfold levelMetSpinBox_valueChanged
  cases hsel : w.sel_pkmn with
  | none =>
    unfold levelMetSpinBox_lambda
    simp only [hsel]
  | some a =>
    cases hp0 : w.deref a with
    | none =>
      unfold levelMetSpinBox_lambda
      simp only [hsel, hp0]
    | some p0 =>
      rw [levelMetSpinBox_lambda, levelMetSpinBox_lambda]
      simp only [hsel, hp0]
      show (match lib.set_level_met p0 w.ui.levelMetSpinBox.value with
        | Except.error e => _ | Except.ok p => _) =
        (match lib.set_level_met p0 w.ui.levelMetSpinBox.value with
        | Except.error e => _ | Except.ok p => _)
      cases lib.set_level_met p0 w.ui.levelMetSpinBox.value with
      | ok p => rfl
      | error e =>
        refine revert_then_report_congr _ _ _ _ _ (fun _ => ?_)
        refine levelMetSpinBox_lambda_at_rest r Outcome.returned lib _ a p0 ?_ ?_ ?_
        · exact hsel
        · exact hp0
        · rfl

/-- The move 1 lambda keeps the item selection when the slot it raises
does. -/
theorem m1ComboBox_lambda_keeps (raised : MainWindow → Outcome)
    (hr : ∀ w1, (raised w1).keeps_item_selection w1) (lib : pklib) (w : MainWindow) :
    (m1ComboBox_lambda raised lib w).keeps_item_selection w := by
  unfold m1ComboBox_lambda
  dsimp only
  repeat' split
  all_goals first
    | exact ⟨rfl, rfl⟩
    | trivial
    | exact revert_then_report_keeps _ _ _ _ _ rfl rfl hr

/-- On a window whose widget already shows the creature's value, the
move 1 lambda raises no signal: it does not depend on `raised`. -/
theorem m1ComboBox_lambda_at_rest (r1 r2 : MainWindow → Outcome) (lib : pklib)
    (w : MainWindow) (a : Nat) (p0 : pokemon)
    (hsel : w.sel_pkmn = some a) (hp0 : w.deref a = some p0)
    (hrest : (w.ui.m1ComboBox.setCurrentIndex p0.move1).currentIndex = w.ui.m1ComboBox.currentIndex) :
    m1ComboBox_lambda r1 lib w = m1ComboBox_lambda r2 lib w := by
  unfold m1ComboBox_lambda
  simp only [hsel, hp0]
  show (match lib.set_move1 p0 w.ui.m1ComboBox.currentIndex with
    | Except.error e => _ | Except.ok p => _) =
    (match lib.set_move1 p0 w.ui.m1ComboBox.currentIndex with
    | Except.error e => _ | Except.ok p => _)
  cases lib.set_move1 p0 w.ui.m1ComboBox.currentIndex with
  | ok p => rfl
  | error e =>
    have hd : decide ((w.ui.m1ComboBox.setCurrentIndex p0.move1).currentIndex ≠ w.ui.m1ComboBox.currentIndex) = false := by
      rw [hrest]
      simp
    exact revert_then_report_congr _ _ _ _ _ (fun hc => absurd (hd.symm.trans hc) (by decide))

/-- The second run of the move 1 slot raises no third: whatever would
run then, the slot is the same. -/
theorem m1ComboBox_lambda_settled (r : MainWindow → Outcome) (lib : pklib) (w : MainWindow) :
    m1ComboBox_lambda (m1ComboBox_lambda r lib) lib w = m1ComboBox_currentIndexChanged lib w := by
  unfold m1ComboBox_currentIndexChanged
  cases hsel : w.sel_pkmn with
  | none =>
    unfold m1ComboBox_lambda
    simp only [hsel]
  | some a =>
    cases hp0 : w.deref a with
    | none =>
      unfold m1ComboBox_lambda
      simp only [hsel, hp0]
    | some p0 =>
      rw [m1ComboBox_lambda, m1ComboBox_lambda]
      simp only [hsel, hp0]
      show (match lib.set_move1 p0 w.ui.m1ComboBox.currentIndex with
        | Except.error e => _ | Except.ok p => _) =
        (match lib.set_move1 p0 w.ui.m1ComboBox.currentIndex with
        | Except.error e => _ | Except.ok p => _)
      cases lib.set_move1 p0 w.ui.m1ComboBox.currentIndex with
      | ok p => rfl
      | error e =>
        refine revert_then_report_congr _ _ _ _ _ (fun _ => ?_)
        refine m1ComboBox_lambda_at_rest r Outcome.returned lib _ a p0 ?_ ?_ ?_
        · exact hsel
        · exact hp0
        · rfl

/-- The move 2 lambda keeps the item selection when the slot it raises
does. -/
theorem m2ComboBox_lambda_keeps (raised : MainWindow → Outcome)
    (hr : ∀ w1, (raised w1).keeps_item_selection w1) (lib : pklib) (w : MainWindow) :
    (m2ComboBox_lambda raised lib w).keeps_item_selection w := by
  unfold m2ComboBox_lambda
  dsimp only
  repeat' split
  all_goals first
    | exact ⟨rfl, rfl⟩
    | trivial
    | exact revert_then_report_keeps _ _ _ _ _ rfl rfl hr

/-- On a window whose widget already shows the creature's value, the
move 2 lambda raises no signal: it does not depend on `raised`. -/
theorem m2ComboBox_lambda_at_rest (r1 r2 : MainWindow → Outcome) (lib : pklib)
    (w : MainWindow) (a : Nat) (p0 : pokemon)
    (hsel : w.sel_pkmn = some a) (hp0 : w.deref a = some p0)
    (hrest : (w.ui.m2ComboBox.setCurrentIndex p0.move2).currentIndex = w.ui.m2ComboBox.currentIndex) :
    m2ComboBox_lambda r1 lib w = m2ComboBox_lambda r2 lib w := by
  unfold m2ComboBox_lambda
  simp only [hsel, hp0]
  show (match lib.set_move2 p0 w.ui.m2ComboBox.currentIndex with
    | Except.error e => _ | Except.ok p => _) =
    (match lib.set_move2 p0 w.ui.m2ComboBox.currentIndex with
    | Except.error e => _ | Except.ok p => _)
  cases lib.set_move2 p0 w.ui.m2ComboBox.currentIndex with
  | ok p => rfl
  | error e =>
    have hd : decide ((w.ui.m2ComboBox.setCurrentIndex p0.move2).currentIndex ≠ w.ui.m2ComboBox.currentIndex) = false := by
      rw [hrest]
      simp
    exact revert_then_report_congr _ _ _ _ _ (fun hc => absurd (hd.symm.trans hc) (by decide))

/-- The second run of the move 2 slot raises no third: whatever would
run then, the slot is the same. -/
theorem m2ComboBox_lambda_settled (r : MainWindow → Outcome) (lib : pklib) (w : MainWindow) :
    m2ComboBox_lambda (m2ComboBox_lambda r lib) lib w = m2ComboBox_currentIndexChanged lib w := by
  unfold m2ComboBox_currentIndexChanged
  cases hsel : w.sel_pkmn with
  | none =>
    unfold m2ComboBox_lambda
    simp only [hsel]
  | some a =>
    cases hp0 : w.deref a with
    | none =>
      unfold m2ComboBox_lambda
      simp only [hsel, hp0]
    | some p0 =>
      rw [m2ComboBox_lambda, m2ComboBox_lambda]
      simp only [hsel, hp0]
      show (match lib.set_move2 p0 w.ui.m2ComboBox.currentIndex with
        | Except.error e => _ | Except.ok p => _) =
        (match lib.set_move2 p0 w.ui.m2ComboBox.currentIndex with
        | Except.error e => _ | Except.ok p => _)
      cases lib.set_move2 p0 w.ui.m2ComboBox.currentIndex with
      | ok p => rfl
      | error e =>
        refine revert_then_report_congr _ _ _ _ _ (fun _ => ?_)
        refine m2ComboBox_lambda_at_rest r Outcome.returned lib _ a p0 ?_ ?_ ?_
        · exact hsel
        · exact hp0
        · rfl

/-- The move 3 lambda keeps the item selection when the slot it raises
does. -/
theorem m3ComboBox_lambda_keeps (raised : MainWindow → Outcome)
    (hr : ∀ w1, (raised w1).keeps_item_selection w1) (lib : pklib) (w : MainWindow) :
    (m3ComboBox_lambda raised lib w).keeps_item_selection w := by
  unfold m3ComboBox_lambda
  dsimp only
  repeat' split
  all_goals first
    | exact ⟨rfl, rfl⟩
    | trivial
    | exact revert_then_report_keeps _ _ _ _ _ rfl rfl hr

/-- On a window whose widget already shows the creature's value, the
move 3 lambda raises no signal: it does not depend on `raised`. -/
theorem m3ComboBox_lambda_at_rest (r1 r2 : MainWindow → Outcome) (lib : pklib)
    (w : MainWindow) (a : Nat) (p0 : pokemon)
    (hsel : w.sel_pkmn = some a) (hp0 : w.deref a = some p0)
    (hrest : (w.ui.m3ComboBox.setCurrentIndex p0.move3).currentIndex = w.ui.m3ComboBox.currentIndex) :
    m3ComboBox_lambda r1 lib w = m3ComboBox_lambda r2 lib w := by
  unfold m3ComboBox_lambda
  simp only [hsel, hp0]
  show (match lib.set_move3 p0 w.ui.m3ComboBox.currentIndex with
    | Except.error e => _ | Except.ok p => _) =
    (match lib.set_move3 p0 w.ui.m3ComboBox.currentIndex with
    | Except.error e => _ | Except.ok p => _)
  cases lib.set_move3 p0 w.ui.m3ComboBox.currentIndex with
  | ok p => rfl
  | error e =>
    have hd : decide ((w.ui.m3ComboBox.setCurrentIndex p0.move3).currentIndex ≠ w.ui.m3ComboBox.currentIndex) = false := by
      rw [hrest]
      simp
    exact revert_then_report_congr _ _ _ _ _ (fun hc => absurd (hd.symm.trans hc) (by decide))

/-- The second run of the move 3 slot raises no third: whatever would
run then, the slot is the same. -/
theorem m3ComboBox_lambda_settled (r : MainWindow → Outcome) (lib : pklib) (w : MainWindow) :
    m3ComboBox_lambda (m3ComboBox_lambda r lib) lib w = m3ComboBox_currentIndexChanged lib w := by
  unfold m3ComboBox_currentIndexChanged
  cases hsel : w.sel_pkmn with
  | none =>
    unfold m3ComboBox_lambda
    simp only [hsel]
  | some a =>
    cases hp0 : w.deref a with
    | none =>
      unfold m3ComboBox_lambda
      simp only [hsel, hp0]
    | some p0 =>
      rw [m3ComboBox_lambda, m3ComboBox_lambda]
      simp only [hsel, hp0]
      show (match lib.set_move3 p0 w.ui.m3ComboBox.currentIndex with
        | Except.error e => _ | Except.ok p => _) =
        (match lib.set_move3 p0 w.ui.m3ComboBox.currentIndex with
        | Except.error e => _ | Except.ok p => _)
      cases lib.set_move3 p0 w.ui.m3ComboBox.currentIndex with
      | ok p => rfl
      | error e =>
        refine revert_then_report_congr _ _ _ _ _ (fun _ => ?_)
        refine m3ComboBox_lambda_at_rest r Outcome.returned lib _ a p0 ?_ ?_ ?_
        · exact hsel
        · exact hp0
        · rfl

/-- The move 4 lambda keeps the item selection when the slot it raises
does. -/
theorem m4ComboBox_lambda_keeps (raised : MainWindow → Outcome)
    (hr : ∀ w1, (raised w1).keeps_item_selection w1) (lib : pklib) (w : MainWindow) :
    (m4ComboBox_lambda raised lib w).keeps_item_selection w := by
  unfold m4ComboBox_lambda
  dsimp only
  repeat' split
  all_goals first
    | exact ⟨rfl, rfl⟩
    | trivial
    | exact revert_then_report_keeps _ _ _ _ _ rfl rfl hr

/-- On a window whose widget already shows the creature's value, the
move 4 lambda raises no signal: it does not depend on `raised`. -/
theorem m4ComboBox_lambda_at_rest (r1 r2 : MainWindow → Outcome) (lib : pklib)
    (w : MainWindow) (a : Nat) (p0 : pokemon)
    (hsel : w.sel_pkmn = some a) (hp0 : w.deref a = some p0)
    (hrest : (w.ui.m4ComboBox.setCurrentIndex p0.move4).currentIndex = w.ui.m4ComboBox.currentIndex) :
    m4ComboBox_lambda r1 lib w = m4ComboBox_lambda r2 lib w := by
  unfold m4ComboBox_lambda
  simp only [hsel, hp0]
  show (match lib.set_move4 p0 w.ui.m4ComboBox.currentIndex with
    | Except.error e => _ | Except.ok p => _) =
    (match lib.set_move4 p0 w.ui.m4ComboBox.currentIndex with
    | Except.error e => _ | Except.ok p => _)
  cases lib.set_move4 p0 w.ui.m4ComboBox.currentIndex with
  | ok p => rfl
  | error e =>
    have hd : decide ((w.ui.m4ComboBox.setCurrentIndex p0.move4).currentIndex ≠ w.ui.m4ComboBox.currentIndex) = false := by
      rw [hrest]
      simp
    exact revert_then_report_congr _ _ _ _ _ (fun hc => absurd (hd.symm.trans hc) (by decide))

/-- The second run of the move 4 slot raises no third: whatever would
run then, the slot is the same. -/
theorem m4ComboBox_lambda_settled (r : MainWindow → Outcome) (lib : pklib) (w : MainWindow) :
    m4ComboBox_lambda (m4ComboBox_lambda r lib) lib w = m4ComboBox_currentIndexChanged lib w := by
  unfold m4ComboBox_currentIndexChanged
  cases hsel : w.sel_pkmn with
  | none =>
    unfold m4ComboBox_lambda
    simp only [hsel]
  | some a =>
    cases hp0 : w.deref a with
    | none =>
      unfold m4ComboBox_lambda
      simp only [hsel, hp0]
    | some p0 =>
      rw [m4ComboBox_lambda, m4ComboBox_lambda]
      simp only [hsel, hp0]
      show (match lib.set_move4 p0 w.ui.m4ComboBox.currentIndex with
        | Except.error e => _ | Except.ok p => _) =
        (match lib.set_move4 p0 w.ui.m4ComboBox.currentIndex with
        | Except.error e => _ | Except.ok p => _)
      cases lib.set_move4 p0 w.ui.m4ComboBox.currentIndex with
      | ok p => rfl
      | error e =>
        refine revert_then_report_congr _ _ _ _ _ (fun _ => ?_)
        refine m4ComboBox_lambda_at_rest r Outcome.returned lib _ a p0 ?_ ?_ ?_
        · exact hsel
        · exact hp0
        · rfl

/-- A pop-up handler keeps the item selection its body kept. -/
theorem catch_popup_keeps (w : MainWindow) (o : Outcome)
    (h : o.keeps_item_selection w) : (catch_popup o).keeps_item_selection w := by
  cases o with
  | returned w1 => exact h
  | threw e w1 => exact h
  | undefined => trivial

/-- Refreshing the party table keeps the item selection. -/
theorem refresh_party_if_selected_keeps (w w0 : MainWindow)
    (h1 : w.sel_item_table_widget = w0.sel_item_table_widget)
    (h2 : w.sel_item_category = w0.sel_item_category) :
    (Outcome.returned (refresh_party_if_selected w)).keeps_item_selection w0 := by
  unfold refresh_party_if_selected
  split
  · split <;> exact ⟨h1, h2⟩
  · exact ⟨h1, h2⟩

/-- Function `set_pkmn_in_editor` keeps the item selection. -/
theorem set_pkmn_in_editor_keeps (lib : pklib) (pkmn : Option Nat) (w : MainWindow) :
    (set_pkmn_in_editor lib pkmn w).keeps_item_selection w := by
  unfold set_pkmn_in_editor
  dsimp only
  repeat' split
  all_goals first | exact ⟨rfl, rfl⟩ | trivial

/-- Function `modify_iv` keeps the item selection. -/
theorem modify_iv_keeps (lib : pklib) (spin_box : QSpinBox) (stat : pkstat) (w : MainWindow) :
    (modify_iv lib spin_box stat w).keeps_item_selection w := by
  unfold modify_iv
  dsimp only
  repeat' split
  all_goals first | exact ⟨rfl, rfl⟩ | trivial

/-- Function `modify_ev` keeps the item selection. -/
theorem modify_ev_keeps (lib : pklib) (spin_box : QSpinBox) (stat : pkstat) (w : MainWindow) :
    (modify_ev lib spin_box stat w).keeps_item_selection w := by
  unfold modify_ev
  dsimp only
  repeat' split
  all_goals first | exact ⟨rfl, rfl⟩ | trivial

/-- Function `save_file` keeps the item selection. -/
theorem save_file_keeps (lib : pklib) (file_name : String) (w : MainWindow) :
    (save_file lib file_name w).keeps_item_selection w := by
  unfold save_file
  dsimp only
  repeat' split
  all_goals first | exact ⟨rfl, rfl⟩ | trivial

/-- The two slots of the special DV field keep the item selection. -/
theorem spDvSpinBox_valueChanged_keeps (lib : pklib) (w : MainWindow) :
    (spDvSpinBox_valueChanged lib w).keeps_item_selection w := by
  unfold spDvSpinBox_valueChanged
  have h1 := modify_iv_keeps lib w.ui.spDvSpinBox pkstat.Spe w
  split
  · rename_i w1 heq
    rw [heq] at h1
    exact Outcome.keeps_item_selection_of_eq _ _ _ h1.1 h1.2 (modify_iv_keeps _ _ _ _)
  · exact h1

/-- Function `reset_ui` keeps the item selection. -/
theorem reset_ui_keeps (lib : pklib) (w : MainWindow) :
    (reset_ui lib w).keeps_item_selection w := by
  unfold reset_ui
  have h1 := set_pkmn_in_editor_keeps lib none w
  split
  · rename_i w1 heq
    rw [heq] at h1
    exact h1
  · exact h1

/-- The `try` block of `open_file` keeps the item selection. -/
theorem open_file_body_keeps (lib : pklib) (filename : String) (w : MainWindow) :
    (open_file_body lib filename w).keeps_item_selection w := by
  unfold open_file_body
  have h1 := reset_ui_keeps lib w
  dsimp only
  split
  · rename_i w1 heq
    have hw1 : w1.sel_item_table_widget = w.sel_item_table_widget ∧
        w1.sel_item_category = w.sel_item_category := by
      split at heq
      · split at heq
        · rename_i w2 h2
          rw [h2] at h1
          injection heq with heq
          subst heq
          exact h1
        · rename_i h2
          rw [heq] at h1
          exact h1
      · injection heq with heq
        subst heq
        exact ⟨rfl, rfl⟩
    repeat' split
    all_goals first | exact hw1 | trivial
  · rename_i h2
    split
    · split
      · rename_i h3
        exact absurd h3 (by intro h3; exact h2 _ (by rw [if_pos (by assumption), h3]))
      · exact h1
    · exact ⟨rfl, rfl⟩

/-- Every slot but the tab slot leaves the selected item table and the selected
item category as they were. -/
theorem dispatch_keeps (lib : pklib) (s : Signal) (w : MainWindow)
    (hs : ∀ index, s ≠ Signal.itemsTabWidget_currentChanged index) :
    (dispatch lib s w).keeps_item_selection w := by
  cases s <;> simp only [dispatch]
  case actionOpen_File_triggered filename =>
    unfold open_file
    split
    · exact ⟨rfl, rfl⟩
    · exact catch_popup_keeps _ _ (open_file_body_keeps _ _ _)
  case actionBackup_Save_triggered  =>
    unfold actionBackup_Save_triggered
    dsimp only
    all_goals first
      | exact ⟨rfl, rfl⟩
  case actionSave_File_triggered filename =>
    unfold actionSave_File_triggered
    apply catch_popup_keeps
    split
    · exact ⟨rfl, rfl⟩
    · exact save_file_keeps _ _ _
  case actionSave_As_triggered filename =>
    unfold actionSave_As_triggered
    apply catch_popup_keeps
    split
    · exact ⟨rfl, rfl⟩
    · exact save_file_keeps _ _ _
  case actionAllow_Potentially_Illegal_Modifications_triggered  =>
    unfold actionAllow_Potentially_Illegal_Modifications_triggered
    dsimp only
    repeat' split
    all_goals first
      | exact ⟨rfl, rfl⟩
      | trivial
      | exact refresh_party_if_selected_keeps _ _ rfl rfl
      | exact Outcome.keeps_item_selection_of_eq _ _ _ rfl rfl (set_pkmn_in_editor_keeps _ _ _)
  case partyTableWidget_selectionChanged  =>
    unfold partyTableWidget_selectionChanged
    dsimp only
    repeat' split
    all_goals first
      | exact ⟨rfl, rfl⟩
  case partyTableWidget_itemClicked row =>
    unfold partyTableWidget_itemClicked
    dsimp only
    repeat' split
    all_goals first
      | exact ⟨rfl, rfl⟩
      | trivial
  case editPkmnPartyPushButton_clicked  =>
    unfold editPkmnPartyPushButton_clicked
    dsimp only
    repeat' split
    all_goals first
      | exact ⟨rfl, rfl⟩
      | trivial
      | exact refresh_party_if_selected_keeps _ _ rfl rfl
      | exact Outcome.keeps_item_selection_of_eq _ _ _ rfl rfl (set_pkmn_in_editor_keeps _ _ _)
  case deletePkmnPartyPushButton_clicked  =>
    unfold deletePkmnPartyPushButton_clicked
    dsimp only
    repeat' split
    all_goals first
      | exact ⟨rfl, rfl⟩
      | trivial
  case itemsTabWidget_currentChanged index =>
    exact absurd rfl (hs index)
  case itemsTableWidget_itemClicked  =>
    unfold on_item_select
    dsimp only
    repeat' split
    all_goals first
      | exact ⟨rfl, rfl⟩
      | trivial
  case ballsTableWidget_itemClicked  =>
    unfold on_item_select
    dsimp only
    repeat' split
    all_goals first
      | exact ⟨rfl, rfl⟩
      | trivial
  case berriesTableWidget_itemClicked  =>
    unfold on_item_select
    dsimp only
    repeat' split
    all_goals first
      | exact ⟨rfl, rfl⟩
      | trivial
  case tmsTableWidget_itemClicked  =>
    unfold on_item_select
    dsimp only
    repeat' split
    all_goals first
      | exact ⟨rfl, rfl⟩
      | trivial
  case keyItemsTableWidget_itemClicked  =>
    unfold on_item_select
    dsimp only
    repeat' split
    all_goals first
      | exact ⟨rfl, rfl⟩
      | trivial
  case pcItemsTableWidget_itemClicked  =>
    unfold on_item_select
    dsimp only
    repeat' split
    all_goals first
      | exact ⟨rfl, rfl⟩
      | trivial
  case addItemPushButton_clicked  =>
    unfold addItemPushButton_clicked
    dsimp only
    repeat' split
    all_goals first
      | exact ⟨rfl, rfl⟩
      | trivial
  case editItemPushButton_clicked  =>
    unfold editItemPushButton_clicked
    dsimp only
    repeat' split
    all_goals first
      | exact ⟨rfl, rfl⟩
      | trivial
  case deleteItemPushButton_clicked  =>
    unfold deleteItemPushButton_clicked
    dsimp only
    repeat' split
    all_goals first
      | exact ⟨rfl, rfl⟩
      | trivial
  case hpIvSpinBox_valueChanged  =>
    exact modify_iv_keeps _ _ _ _
  case atkIvSpinBox_valueChanged  =>
    exact modify_iv_keeps _ _ _ _
  case defIvSpinBox_valueChanged  =>
    exact modify_iv_keeps _ _ _ _
  case speIvSpinBox_valueChanged  =>
    exact modify_iv_keeps _ _ _ _
  case spAtkIvSpinBox_valueChanged  =>
    exact modify_iv_keeps _ _ _ _
  case spDefIvSpinBox_valueChanged  =>
    exact modify_iv_keeps _ _ _ _
  case spDvSpinBox_valueChanged  =>
    exact spDvSpinBox_valueChanged_keeps _ _
  case hpevSpinBox_valueChanged  =>
    exact modify_ev_keeps _ _ _ _
  case atkEvSpinBox_valueChanged  =>
    exact modify_ev_keeps _ _ _ _
  case defEvSpinBox_valueChanged  =>
    exact modify_ev_keeps _ _ _ _
  case speEvSpinBox_valueChanged  =>
    exact modify_ev_keeps _ _ _ _
  case spAtkEvSpinBox_valueChanged  =>
    exact modify_ev_keeps _ _ _ _
  case spDefEvSpinBox_valueChanged  =>
    exact modify_ev_keeps _ _ _ _
  case spcEvSpinBox_valueChanged  =>
    exact modify_ev_keeps _ _ _ _
  case levelSpinBox_valueChanged  =>
    unfold levelSpinBox_valueChanged
    dsimp only
    repeat' split
    all_goals first
      | exact ⟨rfl, rfl⟩
      | trivial
      | exact refresh_party_if_selected_keeps _ _ rfl rfl
  case nameLineEdit_textChanged  =>
    unfold nameLineEdit_textChanged
    dsimp only
    repeat' split
    all_goals first
      | exact ⟨rfl, rfl⟩
      | trivial
  case genderComboBox_currentIndexChanged  =>
    unfold genderComboBox_currentIndexChanged
    dsimp only
    repeat' split
    all_goals first
      | exact ⟨rfl, rfl⟩
      | trivial
  case moneySpinBox_valueChanged  =>
    unfold moneySpinBox_valueChanged
    dsimp only
    repeat' split
    all_goals first
      | exact ⟨rfl, rfl⟩
      | trivial
  case coinsSpinBox_valueChanged  =>
    unfold coinsSpinBox_valueChanged
    dsimp only
    repeat' split
    all_goals first
      | exact ⟨rfl, rfl⟩
      | trivial
  case speciesComboBox_currentIndexChanged  =>
    unfold speciesComboBox_currentIndexChanged
    split
    · exact ⟨rfl, rfl⟩
    · apply catch_popup_keeps
      dsimp only
      repeat' split
      all_goals first
        | trivial
        | exact ⟨rfl, rfl⟩
        | exact Outcome.keeps_item_selection_of_eq _ _ _ rfl rfl (set_pkmn_in_editor_keeps _ _ _)
  case nicknameLineEdit_textChanged  =>
    unfold nicknameLineEdit_textChanged
    dsimp only
    repeat' split
    all_goals first
      | exact ⟨rfl, rfl⟩
      | trivial
      | exact refresh_party_if_selected_keeps _ _ rfl rfl
  case expSpinBox_valueChanged  =>
    unfold expSpinBox_valueChanged
    dsimp only
    repeat' split
    all_goals first
      | exact ⟨rfl, rfl⟩
      | trivial
  case friendshipSpinBox_valueChanged  =>
    unfold friendshipSpinBox_valueChanged
    dsimp only
    repeat' split
    all_goals first
      | exact ⟨rfl, rfl⟩
      | trivial
  case pkmnGenderComboBox_currentIndexChanged  =>
    unfold pkmnGenderComboBox_currentIndexChanged
    dsimp only
    repeat' split
    all_goals first
      | exact ⟨rfl, rfl⟩
      | trivial
      | exact refresh_party_if_selected_keeps _ _ rfl rfl
  case natureComboBox_currentIndexChanged  =>
    unfold natureComboBox_currentIndexChanged
    dsimp only
    repeat' split
    all_goals first
      | exact ⟨rfl, rfl⟩
      | trivial
  case statusComboBox_currentIndexChanged  =>
    unfold statusComboBox_currentIndexChanged
    dsimp only
    repeat' split
    all_goals first
      | exact ⟨rfl, rfl⟩
      | trivial
  case abilityComboBox_currentIndexChanged  =>
    unfold abilityComboBox_currentIndexChanged
    dsimp only
    repeat' split
    all_goals first
      | exact ⟨rfl, rfl⟩
      | trivial
  case infectedCheckBox_stateChanged  =>
    unfold infectedCheckBox_stateChanged
    dsimp only
    repeat' split
    all_goals first
      | exact ⟨rfl, rfl⟩
      | trivial
  case curedCheckBox_stateChanged  =>
    unfold curedCheckBox_stateChanged
    dsimp only
    repeat' split
    all_goals first
      | exact ⟨rfl, rfl⟩
      | trivial
  case heldItemComboBox_currentIndexChanged  =>
    unfold heldItemComboBox_currentIndexChanged
    dsimp only
    repeat' split
    all_goals first
      | exact ⟨rfl, rfl⟩
      | trivial
  case shinyCheckBox_stateChanged  =>
    unfold shinyCheckBox_stateChanged
    dsimp only
    repeat' split
    all_goals first
      | exact ⟨rfl, rfl⟩
      | trivial
      | exact refresh_party_if_selected_keeps _ _ rfl rfl
  case eggCheckBox_stateChanged  =>
    unfold eggCheckBox_stateChanged
    dsimp only
    repeat' split
    all_goals first
      | exact ⟨rfl, rfl⟩
      | trivial
      | exact refresh_party_if_selected_keeps _ _ rfl rfl
  case originGameComboBox_currentIndexChanged =>
    exact originGameComboBox_lambda_keeps (originGameComboBox_lambda Outcome.returned lib)
      (fun w1 => originGameComboBox_lambda_keeps Outcome.returned (fun _ => ⟨rfl, rfl⟩) lib w1) lib w
  case locationComboBox_currentIndexChanged  =>
    unfold locationComboBox_currentIndexChanged
    dsimp only
    repeat' split
    all_goals first
      | exact ⟨rfl, rfl⟩
      | trivial
  case pokeballComboBox_currentIndexChanged  =>
    unfold pokeballComboBox_currentIndexChanged
    dsimp only
    repeat' split
    all_goals first
      | exact ⟨rfl, rfl⟩
      | trivial
  case levelMetSpinBox_valueChanged =>
    exact levelMetSpinBox_lambda_keeps (levelMetSpinBox_lambda Outcome.returned lib)
      (fun w1 => levelMetSpinBox_lambda_keeps Outcome.returned (fun _ => ⟨rfl, rfl⟩) lib w1) lib w
  case fatefulEncounterCheckBox_stateChanged =>
    exact fatefulEncounterCheckBox_lambda_keeps (fatefulEncounterCheckBox_lambda Outcome.returned lib)
      (fun w1 => fatefulEncounterCheckBox_lambda_keeps Outcome.returned (fun _ => ⟨rfl, rfl⟩) lib w1) lib w
  case m1ComboBox_currentIndexChanged =>
    exact m1ComboBox_lambda_keeps (m1ComboBox_lambda Outcome.returned lib)
      (fun w1 => m1ComboBox_lambda_keeps Outcome.returned (fun _ => ⟨rfl, rfl⟩) lib w1) lib w
  case m2ComboBox_currentIndexChanged =>
    exact m2ComboBox_lambda_keeps (m2ComboBox_lambda Outcome.returned lib)
      (fun w1 => m2ComboBox_lambda_keeps Outcome.returned (fun _ => ⟨rfl, rfl⟩) lib w1) lib w
  case m3ComboBox_currentIndexChanged =>
    exact m3ComboBox_lambda_keeps (m3ComboBox_lambda Outcome.returned lib)
      (fun w1 => m3ComboBox_lambda_keeps Outcome.returned (fun _ => ⟨rfl, rfl⟩) lib w1) lib w
  case m4ComboBox_currentIndexChanged =>
    exact m4ComboBox_lambda_keeps (m4ComboBox_lambda Outcome.returned lib)
      (fun w1 => m4ComboBox_lambda_keeps Outcome.returned (fun _ => ⟨rfl, rfl⟩) lib w1) lib w
  case pp1SpinBox_valueChanged  =>
    unfold pp1SpinBox_valueChanged
    dsimp only
    repeat' split
    all_goals first
      | exact ⟨rfl, rfl⟩
      | trivial
  case pp2SpinBox_valueChanged  =>
    unfold pp2SpinBox_valueChanged
    dsimp only
    repeat' split
    all_goals first
      | exact ⟨rfl, rfl⟩
      | trivial
  case pp3SpinBox_valueChanged  =>
    unfold pp3SpinBox_valueChanged
    dsimp only
    repeat' split
    all_goals first
      | exact ⟨rfl, rfl⟩
      | trivial
  case pp4SpinBox_valueChanged  =>
    unfold pp4SpinBox_valueChanged
    dsimp only
    repeat' split
    all_goals first
      | exact ⟨rfl, rfl⟩
      | trivial
  case pp1BonusSpinBox_valueChanged  =>
    unfold pp1BonusSpinBox_valueChanged
    dsimp only
    repeat' split
    all_goals first
      | exact ⟨rfl, rfl⟩
      | trivial
  case pp2BonusSpinBox_valueChanged  =>
    unfold pp2BonusSpinBox_valueChanged
    dsimp only
    repeat' split
    all_goals first
      | exact ⟨rfl, rfl⟩
      | trivial
  case pp3BonusSpinBox_valueChanged  =>
    unfold pp3BonusSpinBox_valueChanged
    dsimp only
    repeat' split
    all_goals first
      | exact ⟨rfl, rfl⟩
      | trivial
  case pp4BonusSpinBox_valueChanged  =>
    unfold pp4BonusSpinBox_valueChanged
    dsimp only
    repeat' split
    all_goals first
      | exact ⟨rfl, rfl⟩
      | trivial
  case otPidLineEdit_textChanged  =>
    unfold otPidLineEdit_textChanged
    dsimp only
    repeat' split
    all_goals first
      | exact ⟨rfl, rfl⟩
      | trivial
  case otSidLineEdit_textChanged  =>
    unfold otSidLineEdit_textChanged
    dsimp only
    repeat' split
    all_goals first
      | exact ⟨rfl, rfl⟩
      | trivial
  case otNameLineEdit_textChanged  =>
    unfold otNameLineEdit_textChanged
    dsimp only
    repeat' split
    all_goals first
      | exact ⟨rfl, rfl⟩
      | trivial
  case otGenderComboBox_currentIndexChanged  =>
    unfold otGenderComboBox_currentIndexChanged
    dsimp only
    repeat' split
    all_goals first
      | exact ⟨rfl, rfl⟩
      | trivial
  case publicIdLineEdit_textChanged  =>
    unfold publicIdLineEdit_textChanged
    dsimp only
    repeat' split
    all_goals first
      | exact ⟨rfl, rfl⟩
      | trivial
  case secretIdLineEdit_textChanged  =>
    unfold secretIdLineEdit_textChanged
    dsimp only
    repeat' split
    all_goals first
      | exact ⟨rfl, rfl⟩
      | trivial
  case pkmnSimulateTradePushButton_clicked  =>
    unfold pkmnSimulateTradePushButton_clicked
    dsimp only
    repeat' split
    all_goals first
      | exact ⟨rfl, rfl⟩
      | trivial

/-- The tab switch keeps the selected table the table of the selected
category. -/
theorem select_item_tab_corresponds (index : Int) (w : MainWindow)
    (h : w.sel_item_table_widget = table_of_category w.sel_item_category) :
    (select_item_tab index w).sel_item_table_widget =
      table_of_category (select_item_tab index w).sel_item_category := by
  unfold select_item_tab
  split_ifs <;> first | rfl | exact h

/-- The tab slot leaves the selection its switch made. -/
theorem itemsTabWidget_currentChanged_keeps (index : Int) (w : MainWindow) :
    (itemsTabWidget_currentChanged index w).keeps_item_selection (select_item_tab index w) := by
  unfold itemsTabWidget_currentChanged
  dsimp only
  repeat' split
  all_goals first
    | exact ⟨rfl, rfl⟩
    | trivial

/-- Every slot keeps the selected table the table of the selected category. -/
theorem dispatch_corresponds (lib : pklib) (s : Signal) (w w1 : MainWindow)
    (h : w.sel_item_table_widget = table_of_category w.sel_item_category)
    (hs : dispatch lib s w = Outcome.returned w1) :
    w1.sel_item_table_widget = table_of_category w1.sel_item_category := by
  by_cases htab : ∃ index, s = Signal.itemsTabWidget_currentChanged index
  · obtain ⟨index, rfl⟩ := htab
    have hk := itemsTabWidget_currentChanged_keeps index w
    have hs1 : itemsTabWidget_currentChanged index w = Outcome.returned w1 := hs
    rw [hs1] at hk
    rw [hk.1, hk.2]
    exact select_item_tab_corresponds index w h
  · have hk := dispatch_keeps lib s w (fun index hi => htab ⟨index, hi⟩)
    rw [hs] at hk
    rw [hk.1, hk.2]
    exact h

/-- A run keeps the selected table the table of the selected category. -/
theorem run_corresponds (lib : pklib) (inputs : List Input) (w w1 : MainWindow)
    (h : w.sel_item_table_widget = table_of_category w.sel_item_category)
    (hrun : run lib inputs w = Outcome.returned w1) :
    w1.sel_item_table_widget = table_of_category w1.sel_item_category := by
  induction inputs generalizing w with
  | nil =>
    injection hrun with hrun
    subst hrun
    exact h
  | cons i rest ih =>
    cases i with
    | user ui => exact ih { w with ui := ui } h hrun
    | signal s =>
      unfold run at hrun
      split at hrun
      · rename_i w2 hd
        exact ih w2 (dispatch_corresponds lib s w w2 h hd) hrun
      · rename_i hne
        exact absurd hrun (hne w1)

/-- The rows `open_file_show` leaves in the table of a category: the pocket of
that category, then the rows the table had. -/
theorem open_file_show_table (game_name : String) (c0 : item_category) (t : trainer) (ui : Ui)
    (c : item_category) :
    ((open_file_show game_name c0 t ui).table (table_of_category c)).rows =
      (t.pocket c).map (fun it => [it.name, toString it.count]) ++
        (ui.table (table_of_category c)).rows := by
  cases c <;> rfl

/-! ### The claims -/

/-- C1: in a loaded session whose party is not empty, the delete-party slot
reports an error and leaves the window as it was (but for the pop-up) when the
party has exactly one member; it never throws; whenever it returns, the party
still has at least one member and differs from the old party only if that had
more than one member; and with more than one member and a selected row it
installs the party the library's `remove_pkmn_from_party` returns.  The library
is assumed to remove exactly one member when it succeeds. -/
theorem C1_delete_party_keeps_a_member (lib : pklib) (w : MainWindow) (t : trainer)
    (hrm : ∀ t0 row t1, lib.remove_pkmn_from_party t0 row = Except.ok t1 →
      t1.pkmn_team.length + 1 = t0.pkmn_team.length)
    (ht : w.save.trainer = some t) (hne : 1 ≤ t.pkmn_team.length) :
    (t.pkmn_team.length = 1 →
      deletePkmnPartyPushButton_clicked lib w =
        Outcome.returned (show_popup_error w "Cannot delete last pokemon in party")) ∧
    (∀ what w', deletePkmnPartyPushButton_clicked lib w ≠ Outcome.threw what w') ∧
    (∀ w', deletePkmnPartyPushButton_clicked lib w = Outcome.returned w' →
      ∃ t', w'.save.trainer = some t' ∧ 1 ≤ t'.pkmn_team.length ∧
        (t'.pkmn_team ≠ t.pkmn_team → 1 < t.pkmn_team.length)) ∧
    (∀ row t1, 1 < t.pkmn_team.length → w.ui.partyTableWidget.selectedRow = some row →
      lib.remove_pkmn_from_party t row = Except.ok t1 →
      ∃ w', deletePkmnPartyPushButton_clicked lib w = Outcome.returned w' ∧
        w'.save.trainer = some t1 ∧ t1.pkmn_team.length + 1 = t.pkmn_team.length) := by
  refine ⟨?_, ?_, ?_, ?_⟩
  · intro h1
    simp [deletePkmnPartyPushButton_clicked, ht, h1]
  · intro what w'
    unfold deletePkmnPartyPushButton_clicked
    simp only [ht]
    split
    · simp
    · split
      · simp
      · split <;> simp
  · intro w' hw'
    unfold deletePkmnPartyPushButton_clicked at hw'
    simp only [ht] at hw'
    split at hw'
    · simp only [Outcome.returned.injEq] at hw'
      subst hw'
      exact ⟨t, by simp [show_popup_error, MainWindow.log, ht], hne, fun h => absurd rfl h⟩
    · rename_i hlen
      split at hw'
      · simp at hw'
      · split at hw'
        · simp only [Outcome.returned.injEq] at hw'
          subst hw'
          exact ⟨t, by simp [show_popup_error, MainWindow.log, ht], hne, fun _ => by omega⟩
        · rename_i t1 h1
          simp only [Outcome.returned.injEq] at hw'
          subst hw'
          have := hrm _ _ _ h1
          exact ⟨t1, rfl, by omega, fun _ => by omega⟩
  · intro row t1 hlen hsel h1
    have hlen' : ¬ t.pkmn_team.length ≤ 1 := by omega
    simp only [deletePkmnPartyPushButton_clicked, ht, hlen', hsel, h1, if_false]
    exact ⟨_, rfl, rfl, hrm _ _ _ h1⟩

/-- C1 on the two-member fixture with row 0 selected: the member at address 1
is removed and one member is left. -/
theorem C1_delete_party_witness :
    (fixture_loaded.save.trainer = some fixture_trainer ∧ 1 ≤ fixture_trainer.pkmn_team.length) ∧
    ∃ w', deletePkmnPartyPushButton_clicked fixture_lib fixture_loaded = Outcome.returned w' ∧
      w'.save.trainer = some { fixture_trainer with pkmn_team := [(2, fixture_pkmn2)] } ∧
      [(2, fixture_pkmn2)].length + 1 = fixture_trainer.pkmn_team.length :=
  ⟨⟨rfl, by decide⟩,
    (C1_delete_party_keeps_a_member fixture_lib fixture_loaded fixture_trainer
      fixture_lib_removes_one rfl (by decide)).2.2.2 0
      { fixture_trainer with pkmn_team := [(2, fixture_pkmn2)] } (by decide) rfl rfl⟩

/-- C2: with no save loaded, the Save slot and the Save As slot each return
with the window as it was but for one pop-up, "Unable to save: no save
loaded", added to the journal; the journal gains no `trainer_save` and no
`write_pkmn_save_file` call, whatever the library and the file name. -/
theorem C2_save_refused_when_nothing_loaded (lib : pklib) (filename : String)
    (w : MainWindow) (h : w.save_loaded = false) :
    actionSave_File_triggered lib filename w =
      Outcome.returned
        { w with journal := Event.show_popup_error "Unable to save: no save loaded" :: w.journal } ∧
    actionSave_As_triggered lib filename w =
      Outcome.returned
        { w with journal := Event.show_popup_error "Unable to save: no save loaded" :: w.journal } := by
  constructor <;>
    simp [actionSave_File_triggered, actionSave_As_triggered, h, catch_popup, show_popup_error,
      MainWindow.log]

/-- C2 on the constructed window: Save is refused with the pop-up. -/
theorem C2_save_refused_witness :
    fixture_empty.save_loaded = false ∧
    actionSave_File_triggered fixture_lib "out.sav" fixture_empty =
      Outcome.returned
        { fixture_empty with
          journal := Event.show_popup_error "Unable to save: no save loaded" ::
            fixture_empty.journal } :=
  ⟨rfl, (C2_save_refused_when_nothing_loaded fixture_lib "out.sav" fixture_empty rfl).1⟩

/-- C3, as stated, fails: with the two-member save loaded, opening
`missing.sav` (which the library cannot read) returns a window whose loaded
flag is cleared, whose trainer is gone and whose party table is empty. -/
theorem C3_counterexample_failed_open_discards_loaded_save :
    fixture_lib.read_pkmn_save_file "missing.sav" = Except.error "cannot open file" ∧
    fixture_loaded.save_loaded = true ∧
    fixture_loaded.save.trainer.isSome = true ∧
    fixture_loaded.ui.partyTableWidget.rows.length = 2 ∧
    ∃ w', open_file fixture_lib "missing.sav" fixture_loaded = Outcome.returned w' ∧
      w'.save_loaded = false ∧ w'.save.trainer.isSome = false ∧
      w'.ui.partyTableWidget.rows.length = 0 :=
  ⟨rfl, rfl, rfl, rfl, _, rfl, rfl, rfl, rfl⟩

/-- C3, amended: when the file name is not empty and the read fails with `e`,
`open_file` returns after reporting `e`.  With no save loaded the window is as
it was but for the journal (the read, then the pop-up).  With a save loaded the
prior save has been discarded before the read: the loaded flag is cleared, the
trainer is released, the form is the one `reset_ui` leaves, so the party table
and the six pocket tables are empty and disabled; the options are kept. -/
theorem C3_failed_open (lib : pklib) (filename : String) (w : MainWindow) (e : String)
    (hname : filename.isEmpty = false)
    (hfail : lib.read_pkmn_save_file filename = Except.error e) :
    (w.save_loaded = false →
      open_file lib filename w =
        Outcome.returned
          { w with journal :=
              Event.show_popup_error e :: Event.read_pkmn_save_file filename :: w.journal }) ∧
    (w.save_loaded = true →
      ∃ w', open_file lib filename w = Outcome.returned w' ∧
        w'.save_loaded = false ∧ w'.save.trainer = none ∧ w'.opt = w.opt ∧
        w'.journal =
          Event.show_popup_error e :: Event.read_pkmn_save_file filename :: w.journal ∧
        w'.ui = reset_ui_fields (editor_reset_combos w.ui) ∧
        w'.ui.partyTableWidget = { rows := [], enabled := false } ∧
        w'.ui.itemsTableWidget = { rows := [], enabled := false } ∧
        w'.ui.ballsTableWidget = { rows := [], enabled := false } ∧
        w'.ui.berriesTableWidget = { rows := [], enabled := false } ∧
        w'.ui.tmsTableWidget = { rows := [], enabled := false } ∧
        w'.ui.keyItemsTableWidget = { rows := [], enabled := false } ∧
        w'.ui.pcItemsTableWidget = { rows := [], enabled := false }) := by
  constructor
  · intro h
    simp [open_file, hname, open_file_body, h, hfail, catch_popup, show_popup_error,
      MainWindow.log]
  · intro h
    simp only [open_file, hname, open_file_body, h, reset_ui, set_pkmn_in_editor, hfail,
      catch_popup, show_popup_error, MainWindow.log, if_true, Bool.false_eq_true, if_false]
    exact ⟨_, rfl, rfl, rfl, rfl, rfl, rfl, rfl, rfl, rfl, rfl, rfl, rfl, rfl⟩

/-- C3, amended, on the constructed window: an unreadable file leaves it as it
was but for the journal. -/
theorem C3_failed_open_witness :
    ("missing.sav".isEmpty = false ∧
      fixture_lib.read_pkmn_save_file "missing.sav" = Except.error "cannot open file" ∧
      fixture_empty.save_loaded = false) ∧
    open_file fixture_lib "missing.sav" fixture_empty =
      Outcome.returned
        { fixture_empty with journal :=
            [Event.show_popup_error "cannot open file",
             Event.read_pkmn_save_file "missing.sav"] } :=
  ⟨⟨rfl, rfl, rfl⟩,
    (C3_failed_open fixture_lib "missing.sav" fixture_empty "cannot open file" rfl rfl).1 rfl⟩

/-- C4 fails on the code.  From the constructed window, opening `ruby.sav`,
clicking row 0 of the party table and pressing Edit puts the creature at
address 1 in the editor.  Deleting row 0 then leaves a loaded session whose
party holds only the creature at address 2 while `sel_pkmn` still holds
address 1, which no live object has; and a failed open leaves `sel_pkmn` at
address 1 with no save loaded and no trainer.  In both windows the nature slot
dereferences the dangling pointer. -/
theorem C4_selection_outlives_its_creature :
    (∃ w2, fixture_session = Outcome.returned w2 ∧ w2.save_loaded = true ∧
      w2.sel_pkmn = some 1 ∧ w2.deref 1 = some fixture_pkmn) ∧
    (∃ w3, fixture_session_delete = Outcome.returned w3 ∧ w3.save_loaded = true ∧
      w3.save.trainer.map (fun t => t.pkmn_team.map Prod.fst) = some [2] ∧
      w3.sel_pkmn = some 1 ∧ w3.deref 1 = none ∧
      natureComboBox_currentIndexChanged fixture_lib w3 = Outcome.undefined) ∧
    (∃ w4, fixture_session_reopen = Outcome.returned w4 ∧ w4.save_loaded = false ∧
      w4.save.trainer.isSome = false ∧
      w4.sel_pkmn = some 1 ∧ w4.deref 1 = none ∧
      natureComboBox_currentIndexChanged fixture_lib w4 = Outcome.undefined) :=
  ⟨⟨_, rfl, rfl, rfl, rfl⟩, ⟨_, rfl, rfl, rfl, rfl, rfl, rfl⟩, ⟨_, rfl, rfl, rfl, rfl, rfl, rfl⟩⟩

/-- C5: with a live creature `p` selected at address `a`, the nature slot at
combo index 0 returns with the window as it was but for the pop-up "Invalid
nature": no `set_nature` call is journalled and the save, hence the creature,
is untouched.  At every index `i >= 1` the one library call it journals is
`set_nature` with nature `i - 1`: if that call returns `p'` the creature at `a`
is `p'`, and if it throws `e` the window is as it was but for the call and the
pop-up `e`. -/
theorem C5_nature_sentinel_rejected (lib : pklib) (w : MainWindow) (a : Nat) (p : pokemon)
    (hsel : w.sel_pkmn = some a) (hp : w.deref a = some p) :
    (w.ui.natureComboBox.currentIndex = 0 →
      natureComboBox_currentIndexChanged lib w =
        Outcome.returned
          { w with journal := Event.show_popup_error "Invalid nature" :: w.journal }) ∧
    (∀ i : Int, 1 ≤ i → w.ui.natureComboBox.currentIndex = i →
      (∀ p', lib.set_nature p (i - 1) = Except.ok p' →
        ∃ w', natureComboBox_currentIndexChanged lib w = Outcome.returned w' ∧
          w'.journal = Event.set_nature a (i - 1) :: w.journal ∧ w'.deref a = some p') ∧
      (∀ e, lib.set_nature p (i - 1) = Except.error e →
        natureComboBox_currentIndexChanged lib w =
          Outcome.returned
            { w with journal :=
                Event.show_popup_error e :: Event.set_nature a (i - 1) :: w.journal })) := by
  refine ⟨?_, ?_⟩
  · intro h0
    have key : natureComboBox_currentIndexChanged lib w =
        Outcome.returned (show_popup_error w "Invalid nature") := by
      simp only [natureComboBox_currentIndexChanged, hsel, h0, if_true]
    rw [key]; rfl
  · intro i hi hidx
    have hne : ¬ i = 0 := by omega
    refine ⟨?_, ?_⟩
    · intro p' hok
      simp only [natureComboBox_currentIndexChanged, hsel, hidx, hne, if_false, hp, hok]
      refine ⟨_, rfl, rfl, ?_⟩
      exact deref_store (w.log (Event.set_nature a (i - 1))) a p p' hp
    · intro e herr
      have key : natureComboBox_currentIndexChanged lib w =
          Outcome.returned (show_popup_error (w.log (Event.set_nature a (i - 1))) e) := by
        simp only [natureComboBox_currentIndexChanged, hsel, hidx, hne, if_false, hp, herr]
      rw [key]; rfl

/-- C5 on the fixture with entry 0 of the nature combo chosen. -/
theorem C5_nature_sentinel_witness :
    (fixture_nature_unset.sel_pkmn = some 1 ∧
      fixture_nature_unset.deref 1 = some fixture_pkmn ∧
      fixture_nature_unset.ui.natureComboBox.currentIndex = 0) ∧
    natureComboBox_currentIndexChanged fixture_lib fixture_nature_unset =
      Outcome.returned
        { fixture_nature_unset with journal := [Event.show_popup_error "Invalid nature"] } :=
  ⟨⟨rfl, rfl, rfl⟩,
    (C5_nature_sentinel_rejected fixture_lib fixture_nature_unset 1 fixture_pkmn rfl rfl).1 rfl⟩

/-- C6: whenever `set_pkmn_in_editor` returns on a non-null creature, each of
the gender, nature, shininess, egg, origin game, met location, met level and
fateful encounter fields is enabled exactly when the creature's capability
flag for it is set and its `allowed_modifications()` flag or
`opt.allow_illegal_modifications` is set.  The creature `p` is the one the
pointer then holds, after `allow_illegal_changes`.  The function does return
on a live creature with a named status whose library calls do not throw. -/
theorem C6_fields_enabled_iff_writable (lib : pklib) (w : MainWindow) (a : Nat) :
    (∀ p0 p, w.deref a = some p0 →
      lib.allow_illegal_changes p0 w.opt.allow_illegal_modifications = Except.ok p →
      (∀ raw, p.status ≠ status_condition.other raw) →
      (p.has_item = true → ∀ t name, ∃ idx, lib.item_idx_from_name t name = Except.ok idx) →
      ∃ w', set_pkmn_in_editor lib (some a) w = Outcome.returned w') ∧
    (∀ w', set_pkmn_in_editor lib (some a) w = Outcome.returned w' →
      ∃ p, w'.deref a = some p ∧
        w'.ui.pkmnGenderComboBox.enabled =
          (p.compat_has_gender &&
            (p.allowed_modifications.set_gender || w.opt.allow_illegal_modifications)) ∧
        w'.ui.natureComboBox.enabled =
          (p.compat_has_nature &&
            (p.allowed_modifications.set_nature || w.opt.allow_illegal_modifications)) ∧
        w'.ui.shinyCheckBox.enabled =
          (p.compat_has_shiny &&
            (p.allowed_modifications.set_shiny || w.opt.allow_illegal_modifications)) ∧
        w'.ui.eggCheckBox.enabled =
          (p.compat_has_egg &&
            (p.allowed_modifications.set_egg || w.opt.allow_illegal_modifications)) ∧
        w'.ui.originGameComboBox.enabled =
          (p.compat_has_origin &&
            (p.allowed_modifications.set_origin_game || w.opt.allow_illegal_modifications)) ∧
        w'.ui.locationComboBox.enabled =
          (p.compat_has_location_met &&
            (p.allowed_modifications.set_met_location || w.opt.allow_illegal_modifications)) ∧
        w'.ui.levelMetSpinBox.enabled =
          (p.compat_has_level_met &&
            (p.allowed_modifications.set_level_met || w.opt.allow_illegal_modifications)) ∧
        w'.ui.fatefulEncounterCheckBox.enabled =
          (p.compat_has_fateful_encounter &&
            (p.allowed_modifications.set_fateful_encounter ||
              w.opt.allow_illegal_modifications))) := by
  refine ⟨fun p0 p hp0 hp hst hit => set_pkmn_in_editor_returns lib w a p0 p hp0 hp hst hit, ?_⟩
  intro w' h
  obtain ⟨p0, p, index, box, hp0, hp, hidx, hw'⟩ := set_pkmn_in_editor_returned lib w w' a h
  subst hw'
  refine ⟨p, deref_store w a p0 p hp0, ?_, ?_, ?_, ?_, ?_, ?_, ?_, ?_⟩
  · show (if p.compat_has_gender then _ else _ : QComboBox).enabled = _
    cases p.compat_has_gender <;> rfl
  · show (if p.compat_has_nature then _ else _ : QComboBox).enabled = _
    cases p.compat_has_nature <;> rfl
  · show (if p.compat_has_shiny then _ else _ : QCheckBox).enabled = _
    cases p.compat_has_shiny <;> rfl
  · show (if p.compat_has_egg then _ else _ : QCheckBox).enabled = _
    cases p.compat_has_egg <;> rfl
  · show (if p.compat_has_origin then _ else _ : QComboBox).enabled = _
    cases p.compat_has_origin <;> rfl
  · show (if p.compat_has_location_met then _ else _ : QComboBox).enabled = _
    cases p.compat_has_location_met <;> rfl
  · show (if p.compat_has_level_met then _ else _ : QSpinBox).enabled = _
    cases p.compat_has_level_met <;> rfl
  · show (if p.compat_has_fateful_encounter then _ else _ : QCheckBox).enabled = _
    cases p.compat_has_fateful_encounter <;> rfl

/-- C6 on the fixture: the editor is filled and the gender field follows the
rule. -/
theorem C6_fields_enabled_witness :
    ∃ w', set_pkmn_in_editor fixture_lib (some 1) fixture_editing = Outcome.returned w' ∧
      ∃ p, w'.deref 1 = some p ∧
        w'.ui.pkmnGenderComboBox.enabled =
          (p.compat_has_gender &&
            (p.allowed_modifications.set_gender ||
              fixture_editing.opt.allow_illegal_modifications)) :=
  ⟨_, rfl,
    let ⟨p, hp, hg, _⟩ :=
      (C6_fields_enabled_iff_writable fixture_lib fixture_editing 1).2 _ rfl
    ⟨p, hp, hg⟩⟩

/-- C7: whenever `set_pkmn_in_editor` returns on a non-null creature, every
optional field whose capability flag is off for the creature the pointer then
holds is disabled: gender, nature, ability, held item, both Pokerus boxes,
shininess, egg, origin game, met location, pokeball, met level, fateful
encounter, OT name and OT gender.  This holds for every prior form, every
legality flag and either value of the allow-illegal option. -/
theorem C7_absent_fields_disabled (lib : pklib) (w w' : MainWindow) (a : Nat)
    (h : set_pkmn_in_editor lib (some a) w = Outcome.returned w') :
    ∃ p, w'.deref a = some p ∧
      (p.compat_has_gender = false → w'.ui.pkmnGenderComboBox.enabled = false) ∧
      (p.compat_has_nature = false → w'.ui.natureComboBox.enabled = false) ∧
      (p.compat_has_ability = false → w'.ui.abilityComboBox.enabled = false) ∧
      (p.compat_has_held_item = false → w'.ui.heldItemComboBox.enabled = false) ∧
      (p.compat_has_pokerus = false →
        w'.ui.infectedCheckBox.enabled = false ∧ w'.ui.curedCheckBox.enabled = false) ∧
      (p.compat_has_shiny = false → w'.ui.shinyCheckBox.enabled = false) ∧
      (p.compat_has_egg = false → w'.ui.eggCheckBox.enabled = false) ∧
      (p.compat_has_origin = false → w'.ui.originGameComboBox.enabled = false) ∧
      (p.compat_has_location_met = false → w'.ui.locationComboBox.enabled = false) ∧
      (p.compat_has_pokeball = false → w'.ui.pokeballComboBox.enabled = false) ∧
      (p.compat_has_level_met = false → w'.ui.levelMetSpinBox.enabled = false) ∧
      (p.compat_has_fateful_encounter = false →
        w'.ui.fatefulEncounterCheckBox.enabled = false) ∧
      (p.compat_has_ot_name = false → w'.ui.otNameLineEdit.enabled = false) ∧
      (p.compat_has_ot_gender = false → w'.ui.otGenderComboBox.enabled = false) := by
  unfold set_pkmn_in_editor at h
  simp only at h
  split at h
  · cases h
  · rename_i p0 hp0
    split at h
    · cases h
    · rename_i p hp
      split at h
      · cases h
      · rename_i index hidx
        split at h
        · cases h
        · rename_i t ht
          split at h
          · cases h
          · rename_i box hbox
            injection h with h
            subst h
            refine ⟨p, deref_store w a p0 p hp0, ?_, ?_, ?_, ?_, ?_, ?_, ?_, ?_, ?_, ?_,
              ?_, ?_, ?_, ?_⟩
            · intro hc
              show (if p.compat_has_gender then _ else _ : QComboBox).enabled = _
              rw [hc]; rfl
            · intro hc
              show (if p.compat_has_nature then _ else _ : QComboBox).enabled = _
              rw [hc]; rfl
            · intro hc
              show (if p.compat_has_ability then _ else _ : QComboBox).enabled = _
              rw [hc]; rfl
            · intro hc
              show box.enabled = false
              unfold editor_held_item at hbox
              rw [hc] at hbox
              injection hbox with hbox
              rw [← hbox]; rfl
            · intro hc
              constructor
              · show (if p.compat_has_pokerus then _ else _ : QCheckBox).enabled = _
                rw [hc]; rfl
              · show (if p.compat_has_pokerus then _ else _ : QCheckBox).enabled = _
                rw [hc]; rfl
            · intro hc
              show (if p.compat_has_shiny then _ else _ : QCheckBox).enabled = _
              rw [hc]; rfl
            · intro hc
              show (if p.compat_has_egg then _ else _ : QCheckBox).enabled = _
              rw [hc]; rfl
            · intro hc
              show (if p.compat_has_origin then _ else _ : QComboBox).enabled = _
              rw [hc]; rfl
            · intro hc
              show (if p.compat_has_location_met then _ else _ : QComboBox).enabled = _
              rw [hc]; rfl
            · intro hc
              show (if p.compat_has_pokeball then _ else _ : QComboBox).enabled = _
              rw [hc]; rfl
            · intro hc
              show (if p.compat_has_level_met then _ else _ : QSpinBox).enabled = _
              rw [hc]; rfl
            · intro hc
              show (if p.compat_has_fateful_encounter then _ else _ : QCheckBox).enabled = _
              rw [hc]; rfl
            · intro hc
              show (if p.compat_has_ot_name then _ else _ : QLineEdit).enabled = _
              rw [hc]; rfl
            · intro hc
              show (if p.compat_has_ot_gender then _ else _ : QComboBox).enabled = _
              rw [hc]; rfl

/-- C7 on the fixture, whose creature has no egg flag. -/
theorem C7_absent_fields_witness :
    ∃ w', set_pkmn_in_editor fixture_lib (some 1) fixture_editing = Outcome.returned w' ∧
      ∃ p, w'.deref 1 = some p ∧
        (p.compat_has_egg = false → w'.ui.eggCheckBox.enabled = false) :=
  ⟨_, rfl,
    let ⟨p, hp, _, _, _, _, _, _, hegg, _⟩ :=
      C7_absent_fields_disabled fixture_lib fixture_editing _ 1 rfl
    ⟨p, hp, hegg⟩⟩

/-- C8, as stated, fails: the creature in the editor has the ability
capability but no named ability; after the allow-illegal action is checked the
slot returns with the option set and the ability field still disabled. -/
theorem C8_counterexample_unnamed_ability_stays_disabled :
    fixture_toggle_unnamed_ability.ui.actionAllow_Potentially_Illegal_Modifications.checked
      = true ∧
    fixture_toggle_unnamed_ability.sel_pkmn = some 1 ∧
    fixture_toggle_unnamed_ability.deref 1 = some fixture_pkmn_unnamed_ability ∧
    fixture_pkmn_unnamed_ability.compat_has_ability = true ∧
    ∃ w', actionAllow_Potentially_Illegal_Modifications_triggered fixture_lib
        fixture_toggle_unnamed_ability = Outcome.returned w' ∧
      w'.opt.allow_illegal_modifications = true ∧
      w'.deref 1 = some fixture_pkmn_unnamed_ability ∧
      w'.ui.abilityComboBox.enabled = false :=
  ⟨rfl, rfl, rfl, rfl, _, rfl, rfl, rfl, rfl⟩

/-- C8, amended.  The allow-illegal slot copies the action's checked state
into the option.  With no creature selected nothing else changes.  With the
creature at `a` selected it runs `set_pkmn_in_editor` on it, which returns on a
live creature with a named status whose library calls do not throw; whenever
the slot returns, the one call journalled is `allow_illegal_changes` with the
checked state, the save is the old one with the creature that call returned
stored at `a` (no file is read, the loaded flag stands), and the form is
rebuilt with the new flag: species, move slots and OT ids are enabled when
their legality flag or the checked state is set; gender, nature, shininess,
egg, origin game, met location, met level and fateful encounter when they
exist and their legality flag or the checked state is set; the ability field
when it exists, the creature has a named ability and the legality flag or the
checked state is set; the IV fields that are enabled are read-only unless the
IV flag or the checked state is set. -/
theorem C8_allow_illegal_toggle (lib : pklib) (w : MainWindow) :
    (w.sel_pkmn = none →
      actionAllow_Potentially_Illegal_Modifications_triggered lib w =
        Outcome.returned
          { w with opt := { w.opt with allow_illegal_modifications :=
              w.ui.actionAllow_Potentially_Illegal_Modifications.checked } }) ∧
    (∀ a p0 p, w.sel_pkmn = some a → w.deref a = some p0 →
      lib.allow_illegal_changes p0 w.ui.actionAllow_Potentially_Illegal_Modifications.checked
        = Except.ok p →
      (∀ raw, p.status ≠ status_condition.other raw) →
      (p.has_item = true → ∀ t name, ∃ idx, lib.item_idx_from_name t name = Except.ok idx) →
      ∃ w', actionAllow_Potentially_Illegal_Modifications_triggered lib w =
        Outcome.returned w') ∧
    (∀ a w', w.sel_pkmn = some a →
      actionAllow_Potentially_Illegal_Modifications_triggered lib w = Outcome.returned w' →
      ∃ p0 p, w.deref a = some p0 ∧
        lib.allow_illegal_changes p0 w.ui.actionAllow_Potentially_Illegal_Modifications.checked
          = Except.ok p ∧
        w'.deref a = some p ∧
        w'.opt = { w.opt with allow_illegal_modifications :=
          w.ui.actionAllow_Potentially_Illegal_Modifications.checked } ∧
        w'.save = (w.store a p).save ∧ w'.save_loaded = w.save_loaded ∧
        w'.sel_pkmn = some a ∧
        w'.journal =
          Event.allow_illegal_changes a
            w.ui.actionAllow_Potentially_Illegal_Modifications.checked :: w.journal ∧
        w'.ui.speciesComboBox.enabled =
          (p.allowed_modifications.set_species ||
            w.ui.actionAllow_Potentially_Illegal_Modifications.checked) ∧
        w'.ui.pkmnGenderComboBox.enabled =
          (p.compat_has_gender && (p.allowed_modifications.set_gender ||
            w.ui.actionAllow_Potentially_Illegal_Modifications.checked)) ∧
        w'.ui.natureComboBox.enabled =
          (p.compat_has_nature && (p.allowed_modifications.set_nature ||
            w.ui.actionAllow_Potentially_Illegal_Modifications.checked)) ∧
        w'.ui.abilityComboBox.enabled =
          (p.compat_has_ability && p.abilities.any (fun ab => ab != "_") &&
            (p.allowed_modifications.set_ability ||
              w.ui.actionAllow_Potentially_Illegal_Modifications.checked)) ∧
        w'.ui.shinyCheckBox.enabled =
          (p.compat_has_shiny && (p.allowed_modifications.set_shiny ||
            w.ui.actionAllow_Potentially_Illegal_Modifications.checked)) ∧
        w'.ui.eggCheckBox.enabled =
          (p.compat_has_egg && (p.allowed_modifications.set_egg ||
            w.ui.actionAllow_Potentially_Illegal_Modifications.checked)) ∧
        w'.ui.originGameComboBox.enabled =
          (p.compat_has_origin && (p.allowed_modifications.set_origin_game ||
            w.ui.actionAllow_Potentially_Illegal_Modifications.checked)) ∧
        w'.ui.locationComboBox.enabled =
          (p.compat_has_location_met && (p.allowed_modifications.set_met_location ||
            w.ui.actionAllow_Potentially_Illegal_Modifications.checked)) ∧
        w'.ui.levelMetSpinBox.enabled =
          (p.compat_has_level_met && (p.allowed_modifications.set_level_met ||
            w.ui.actionAllow_Potentially_Illegal_Modifications.checked)) ∧
        (p.compat_has_level_met = true →
          w'.ui.levelMetSpinBox.readOnly =
            !(p.allowed_modifications.set_level_met ||
              w.ui.actionAllow_Potentially_Illegal_Modifications.checked)) ∧
        w'.ui.fatefulEncounterCheckBox.enabled =
          (p.compat_has_fateful_encounter && (p.allowed_modifications.set_fateful_encounter ||
            w.ui.actionAllow_Potentially_Illegal_Modifications.checked)) ∧
        (w'.ui.hpIvSpinBox.enabled = true ∧ w'.ui.atkIvSpinBox.enabled = true ∧
          w'.ui.defIvSpinBox.enabled = true ∧ w'.ui.speIvSpinBox.enabled = true) ∧
        (w'.ui.hpIvSpinBox.readOnly =
            !(p.allowed_modifications.set_ivs ||
              w.ui.actionAllow_Potentially_Illegal_Modifications.checked) ∧
          w'.ui.atkIvSpinBox.readOnly =
            !(p.allowed_modifications.set_ivs ||
              w.ui.actionAllow_Potentially_Illegal_Modifications.checked) ∧
          w'.ui.defIvSpinBox.readOnly =
            !(p.allowed_modifications.set_ivs ||
              w.ui.actionAllow_Potentially_Illegal_Modifications.checked) ∧
          w'.ui.speIvSpinBox.readOnly =
            !(p.allowed_modifications.set_ivs ||
              w.ui.actionAllow_Potentially_Illegal_Modifications.checked)) ∧
        (p.compat_has_spc_eviv = false →
          w'.ui.spAtkIvSpinBox.enabled = true ∧ w'.ui.spDefIvSpinBox.enabled = true ∧
          w'.ui.spAtkIvSpinBox.readOnly =
            !(p.allowed_modifications.set_ivs ||
              w.ui.actionAllow_Potentially_Illegal_Modifications.checked) ∧
          w'.ui.spDefIvSpinBox.readOnly =
            !(p.allowed_modifications.set_ivs ||
              w.ui.actionAllow_Potentially_Illegal_Modifications.checked)) ∧
        (p.compat_has_spc_eviv = true →
          w'.ui.spDvSpinBox.enabled = true ∧
          w'.ui.spDvSpinBox.readOnly =
            !(p.allowed_modifications.set_ivs ||
              w.ui.actionAllow_Potentially_Illegal_Modifications.checked)) ∧
        (w'.ui.m1ComboBox.enabled =
            (p.allowed_modifications.set_moveset ||
              w.ui.actionAllow_Potentially_Illegal_Modifications.checked) ∧
          w'.ui.m2ComboBox.enabled =
            (p.allowed_modifications.set_moveset ||
              w.ui.actionAllow_Potentially_Illegal_Modifications.checked) ∧
          w'.ui.m3ComboBox.enabled =
            (p.allowed_modifications.set_moveset ||
              w.ui.actionAllow_Potentially_Illegal_Modifications.checked) ∧
          w'.ui.m4ComboBox.enabled =
            (p.allowed_modifications.set_moveset ||
              w.ui.actionAllow_Potentially_Illegal_Modifications.checked)) ∧
        (w'.ui.otPidLineEdit.enabled =
            (p.allowed_modifications.set_ot_pid ||
              w.ui.actionAllow_Potentially_Illegal_Modifications.checked) ∧
          w'.ui.otPidLineEdit.readOnly =
            !(p.allowed_modifications.set_ot_pid ||
              w.ui.actionAllow_Potentially_Illegal_Modifications.checked)) ∧
        (w'.ui.otSidLineEdit.enabled =
            (p.allowed_modifications.set_ot_sid ||
              w.ui.actionAllow_Potentially_Illegal_Modifications.checked) ∧
          w'.ui.otSidLineEdit.readOnly =
            !(p.allowed_modifications.set_ot_sid ||
              w.ui.actionAllow_Potentially_Illegal_Modifications.checked))) := by
  refine ⟨?_, ?_, ?_⟩
  · intro hsel
    have key : actionAllow_Potentially_Illegal_Modifications_triggered lib w =
        Outcome.returned
          { w with opt := { w.opt with allow_illegal_modifications :=
              w.ui.actionAllow_Potentially_Illegal_Modifications.checked } } := by
      unfold actionAllow_Potentially_Illegal_Modifications_triggered
      simp only [hsel]
    exact key
  · intro a p0 p hsel hp0 hp hst hit
    have key : actionAllow_Potentially_Illegal_Modifications_triggered lib w =
        set_pkmn_in_editor lib (some a)
          { w with opt := { w.opt with allow_illegal_modifications :=
              w.ui.actionAllow_Potentially_Illegal_Modifications.checked } } := by
      unfold actionAllow_Potentially_Illegal_Modifications_triggered
      simp only [hsel]
    rw [key]
    exact set_pkmn_in_editor_returns lib _ a p0 p hp0 hp hst hit
  · intro a w' hsel h
    have key : actionAllow_Potentially_Illegal_Modifications_triggered lib w =
        set_pkmn_in_editor lib (some a)
          { w with opt := { w.opt with allow_illegal_modifications :=
              w.ui.actionAllow_Potentially_Illegal_Modifications.checked } } := by
      unfold actionAllow_Potentially_Illegal_Modifications_triggered
      simp only [hsel]
    rw [key] at h
    obtain ⟨p0, p, index, box, hp0, hp, hidx, hw'⟩ := set_pkmn_in_editor_returned lib _ w' a h
    subst hw'
    refine ⟨p0, p, hp0, hp, deref_store w a p0 p hp0, rfl, rfl, rfl, rfl, rfl, rfl, ?_, ?_, ?_,
      ?_, ?_, ?_, ?_, ?_, ?_, ?_, ⟨rfl, rfl, rfl, rfl⟩, ⟨rfl, rfl, rfl, rfl⟩, ?_, ?_,
      ⟨rfl, rfl, rfl, rfl⟩, ⟨rfl, rfl⟩, ⟨rfl, rfl⟩⟩
    · show (if p.compat_has_gender then _ else _ : QComboBox).enabled = _
      cases p.compat_has_gender <;> rfl
    · show (if p.compat_has_nature then _ else _ : QComboBox).enabled = _
      cases p.compat_has_nature <;> rfl
    · show (if p.compat_has_ability then
          (if (p.abilities.any fun ab => ab != "_") = true then _ else _) else _ : QComboBox).enabled
        = _
      cases p.compat_has_ability
      · rfl
      · cases p.abilities.any fun ab => ab != "_"
        · show (QComboBox.addItems _ _).enabled = _
          rw [QComboBox.addItems_enabled]; rfl
        · rfl
    · show (if p.compat_has_shiny then _ else _ : QCheckBox).enabled = _
      cases p.compat_has_shiny <;> rfl
    · show (if p.compat_has_egg then _ else _ : QCheckBox).enabled = _
      cases p.compat_has_egg <;> rfl
    · show (if p.compat_has_origin then _ else _ : QComboBox).enabled = _
      cases p.compat_has_origin <;> rfl
    · show (if p.compat_has_location_met then _ else _ : QComboBox).enabled = _
      cases p.compat_has_location_met <;> rfl
    · show (if p.compat_has_level_met then _ else _ : QSpinBox).enabled = _
      cases p.compat_has_level_met <;> rfl
    · intro hc
      show (if p.compat_has_level_met then _ else _ : QSpinBox).readOnly = _
      rw [hc]; rfl
    · show (if p.compat_has_fateful_encounter then _ else _ : QCheckBox).enabled = _
      cases p.compat_has_fateful_encounter <;> rfl
    · intro hc
      refine ⟨?_, ?_, ?_, ?_⟩ <;>
        first
        | (show (if (!p.compat_has_spc_eviv) = true then _ else _ : QSpinBox).enabled = _
           rw [hc]; rfl)
        | (show (if (!p.compat_has_spc_eviv) = true then _ else _ : QSpinBox).readOnly = _
           rw [hc]; rfl)
    · intro hc
      refine ⟨?_, ?_⟩ <;>
        first
        | (show (if (!p.compat_has_spc_eviv) = true then _ else _ : QSpinBox).enabled = _
           rw [hc]; rfl)
        | (show (if (!p.compat_has_spc_eviv) = true then _ else _ : QSpinBox).readOnly = _
           rw [hc]; rfl)

/-- C8, amended, on the fixture with the action checked. -/
theorem C8_allow_illegal_toggle_witness :
    ∃ w', actionAllow_Potentially_Illegal_Modifications_triggered fixture_lib fixture_toggle
        = Outcome.returned w' ∧
      ∃ p0 p, fixture_toggle.deref 1 = some p0 ∧
        fixture_lib.allow_illegal_changes p0
          fixture_toggle.ui.actionAllow_Potentially_Illegal_Modifications.checked = Except.ok p ∧
        w'.deref 1 = some p :=
  let ⟨w', h⟩ :=
    (C8_allow_illegal_toggle fixture_lib fixture_toggle).2.1 1 fixture_pkmn fixture_pkmn
      rfl rfl rfl (fun _ hs => nomatch hs) (fun hi => nomatch hi)
  let ⟨p0, p, h0, hp, hd, _⟩ :=
    (C8_allow_illegal_toggle fixture_lib fixture_toggle).2.2 1 w' rfl h
  ⟨w', h, p0, p, h0, hp, hd⟩

/-- C9: with a live creature `p0` selected at address `a`, each of the gender,
nature and shiny slots, when its library call returns the creature `p`, stores
`p` at `a` and returns with the two other properties and the PID shown as read
from `p`: the nature index is `p.nature + 1`, the gender index is the index of
`p.gender`, the shiny box is `p.is_shiny`, and the PID text is `0x` followed by
`p.personality_value` in upper-case hexadecimal. -/
theorem C9_personality_fields_refreshed (lib : pklib) (w : MainWindow) (a : Nat)
    (p0 p : pokemon) (hsel : w.sel_pkmn = some a) (hp0 : w.deref a = some p0) :
    (∀ g, gender_of_index w.ui.pkmnGenderComboBox.currentIndex = some g →
      lib.set_gender p0 g = Except.ok p →
      ∃ w', pkmnGenderComboBox_currentIndexChanged lib w = Outcome.returned w' ∧
        w'.deref a = some p ∧
        w'.ui.shinyCheckBox.checked = p.is_shiny ∧
        w'.ui.natureComboBox.currentIndex = p.nature + 1 ∧
        w'.ui.pIDLineEdit.text = "0x" ++ hex_upper p.personality_value) ∧
    (w.ui.natureComboBox.currentIndex ≠ 0 →
      lib.set_nature p0 (w.ui.natureComboBox.currentIndex - 1) = Except.ok p →
      ∃ w', natureComboBox_currentIndexChanged lib w = Outcome.returned w' ∧
        w'.deref a = some p ∧
        w'.ui.pkmnGenderComboBox.currentIndex = gender_index p.gender ∧
        w'.ui.shinyCheckBox.checked = p.is_shiny ∧
        w'.ui.pIDLineEdit.text = "0x" ++ hex_upper p.personality_value) ∧
    (lib.set_shiny p0 w.ui.shinyCheckBox.checked = Except.ok p →
      ∃ w', shinyCheckBox_stateChanged lib w = Outcome.returned w' ∧
        w'.deref a = some p ∧
        w'.ui.natureComboBox.currentIndex = p.nature + 1 ∧
        w'.ui.pkmnGenderComboBox.currentIndex = gender_index p.gender ∧
        w'.ui.pIDLineEdit.text = "0x" ++ hex_upper p.personality_value) := by
  refine ⟨?_, ?_, ?_⟩
  · intro g hg hok
    simp only [pkmnGenderComboBox_currentIndexChanged, hsel, hg, hp0, hok]
    refine ⟨_, rfl, ?_, ?_, ?_, ?_⟩
    · rw [refresh_party_deref]; exact deref_store w a p0 p hp0
    · rw [refresh_party_shinyCheckBox]; rfl
    · rw [refresh_party_natureComboBox]; rfl
    · rw [refresh_party_pIDLineEdit]; rfl
  · intro hne hok
    simp only [natureComboBox_currentIndexChanged, hsel, hne, if_false, hp0, hok]
    exact ⟨_, rfl, deref_store w a p0 p hp0, rfl, rfl, rfl⟩
  · intro hok
    simp only [shinyCheckBox_stateChanged, hsel, hp0, hok]
    refine ⟨_, rfl, ?_, ?_, ?_, ?_⟩
    · rw [refresh_party_deref]; exact deref_store w a p0 p hp0
    · rw [refresh_party_natureComboBox]; rfl
    · rw [refresh_party_pkmnGenderComboBox]; rfl
    · rw [refresh_party_pIDLineEdit]; rfl

/-- C9 on the fixture with the shiny box ticked. -/
theorem C9_personality_fields_witness :
    (fixture_edited.sel_pkmn = some 1 ∧ fixture_edited.deref 1 = some fixture_pkmn ∧
      fixture_lib.set_shiny fixture_pkmn fixture_edited.ui.shinyCheckBox.checked =
        Except.ok { fixture_pkmn with is_shiny := true }) ∧
    ∃ w', shinyCheckBox_stateChanged fixture_lib fixture_edited = Outcome.returned w' ∧
      w'.deref 1 = some { fixture_pkmn with is_shiny := true } ∧
      w'.ui.natureComboBox.currentIndex = ({ fixture_pkmn with is_shiny := true }).nature + 1 ∧
      w'.ui.pkmnGenderComboBox.currentIndex =
        gender_index ({ fixture_pkmn with is_shiny := true }).gender ∧
      w'.ui.pIDLineEdit.text =
        "0x" ++ hex_upper ({ fixture_pkmn with is_shiny := true }).personality_value :=
  ⟨⟨rfl, rfl, rfl⟩,
    (C9_personality_fields_refreshed fixture_lib fixture_edited 1 fixture_pkmn
      { fixture_pkmn with is_shiny := true } rfl rfl).2.2 rfl⟩

/-- C10: with a live creature `p0` selected at address `a`, the OT public id
slot and the OT secret id slot return at once, leaving the window as it was,
when their text is empty.  When the text is not empty, `std::stoi` reads the
id from it and the library call returns the creature `p`, the slot stores `p`
at `a`, journals that one call, and the form is the old one with only the
shiny box rewritten, to `p.is_shiny`: the nature combo, the gender combo and
the PID text are the ones the window had. -/
theorem C10_ot_id_refreshes_shiny_only (lib : pklib) (w : MainWindow) (a : Nat)
    (p0 : pokemon) (hsel : w.sel_pkmn = some a) (hp0 : w.deref a = some p0) :
    (w.ui.otPidLineEdit.text.isEmpty = true →
      otPidLineEdit_textChanged lib w = Outcome.returned w) ∧
    (w.ui.otSidLineEdit.text.isEmpty = true →
      otSidLineEdit_textChanged lib w = Outcome.returned w) ∧
    (∀ id p, w.ui.otPidLineEdit.text.isEmpty = false →
      stoi w.ui.otPidLineEdit.text = Except.ok id → lib.set_ot_pid p0 id = Except.ok p →
      ∃ w', otPidLineEdit_textChanged lib w = Outcome.returned w' ∧
        w'.deref a = some p ∧
        w'.journal = Event.set_ot_pid a id :: w.journal ∧
        w'.ui.shinyCheckBox.checked = p.is_shiny ∧
        w'.ui = { w.ui with shinyCheckBox := w.ui.shinyCheckBox.setChecked p.is_shiny } ∧
        w'.ui.natureComboBox = w.ui.natureComboBox ∧
        w'.ui.pkmnGenderComboBox = w.ui.pkmnGenderComboBox ∧
        w'.ui.pIDLineEdit = w.ui.pIDLineEdit) ∧
    (∀ id p, w.ui.otSidLineEdit.text.isEmpty = false →
      stoi w.ui.otSidLineEdit.text = Except.ok id → lib.set_ot_sid p0 id = Except.ok p →
      ∃ w', otSidLineEdit_textChanged lib w = Outcome.returned w' ∧
        w'.deref a = some p ∧
        w'.journal = Event.set_ot_sid a id :: w.journal ∧
        w'.ui.shinyCheckBox.checked = p.is_shiny ∧
        w'.ui = { w.ui with shinyCheckBox := w.ui.shinyCheckBox.setChecked p.is_shiny } ∧
        w'.ui.natureComboBox = w.ui.natureComboBox ∧
        w'.ui.pkmnGenderComboBox = w.ui.pkmnGenderComboBox ∧
        w'.ui.pIDLineEdit = w.ui.pIDLineEdit) := by
  refine ⟨?_, ?_, ?_, ?_⟩
  · intro he
    unfold otPidLineEdit_textChanged
    simp only [hsel, he, if_true]
  · intro he
    unfold otSidLineEdit_textChanged
    simp only [hsel, he, if_true]
  · intro id p he hid hok
    simp only [otPidLineEdit_textChanged, hsel, he, hid, hp0, hok, Bool.false_eq_true, if_false]
    exact ⟨_, rfl, deref_store w a p0 p hp0, rfl, rfl, rfl, rfl, rfl, rfl⟩
  · intro id p he hid hok
    simp only [otSidLineEdit_textChanged, hsel, he, hid, hp0, hok, Bool.false_eq_true, if_false]
    exact ⟨_, rfl, deref_store w a p0 p hp0, rfl, rfl, rfl, rfl, rfl, rfl⟩

/-- C10 on the fixture with `777` typed as OT public id. -/
theorem C10_ot_id_witness :
    (fixture_edited.sel_pkmn = some 1 ∧ fixture_edited.deref 1 = some fixture_pkmn ∧
      fixture_edited.ui.otPidLineEdit.text.isEmpty = false ∧
      stoi fixture_edited.ui.otPidLineEdit.text = Except.ok 777 ∧
      fixture_lib.set_ot_pid fixture_pkmn 777 =
        Except.ok { fixture_pkmn with ot_public_id := 777 }) ∧
    ∃ w', otPidLineEdit_textChanged fixture_lib fixture_edited = Outcome.returned w' ∧
      w'.deref 1 = some { fixture_pkmn with ot_public_id := 777 } ∧
      w'.journal = Event.set_ot_pid 1 777 :: fixture_edited.journal ∧
      w'.ui.shinyCheckBox.checked = ({ fixture_pkmn with ot_public_id := 777 }).is_shiny :=
  ⟨⟨rfl, rfl, rfl, rfl, rfl⟩,
    let ⟨w', h, hd, hj, hs, _⟩ :=
      (C10_ot_id_refreshes_shiny_only fixture_lib fixture_edited 1 fixture_pkmn rfl rfl).2.2.1
        777 { fixture_pkmn with ot_public_id := 777 } rfl rfl rfl
    ⟨w', h, hd, hj, hs⟩⟩

/-- C11 fails on the fixture.  The creature at address 1 has none of the
shiny, egg and fateful encounter flags, the user has ticked the three boxes
and the library refuses each edit.  After the shiny slot and after the egg
slot the error is reported, the creature still has the flag off and the box
is still ticked: the handler sets the box to the state the box already has.
The fateful encounter slot, whose handler sets the box to the creature's
flag, leaves its box unticked. -/
theorem C11_refused_tick_stays_on_screen :
    (∃ w', shinyCheckBox_stateChanged fixture_lib_refusing fixture_ticked = Outcome.returned w' ∧
      w'.journal.head? = some (Event.show_popup_error "not allowed") ∧
      (w'.deref 1).map (fun p => p.is_shiny) = some false ∧
      w'.ui.shinyCheckBox.checked = true) ∧
    (∃ w', eggCheckBox_stateChanged fixture_lib_refusing fixture_ticked = Outcome.returned w' ∧
      w'.journal.head? = some (Event.show_popup_error "not allowed") ∧
      (w'.deref 1).map (fun p => p.is_egg) = some false ∧
      w'.ui.eggCheckBox.checked = true) ∧
    (∃ w', fatefulEncounterCheckBox_stateChanged fixture_lib_refusing fixture_ticked =
        Outcome.returned w' ∧
      w'.journal.head? = some (Event.show_popup_error "not allowed") ∧
      (w'.deref 1).map (fun p => p.fateful_encounter) = some false ∧
      w'.ui.fatefulEncounterCheckBox.checked = false) :=
  ⟨⟨_, rfl, rfl, rfl, rfl⟩, ⟨_, rfl, rfl, rfl, rfl⟩, ⟨_, rfl, rfl, rfl, rfl⟩⟩

/-- C12 fails on the fixtures.  With a library whose `edit_item` and
`del_item` throw, the edit-item and the delete-item slot end with the
exception, no pop-up journalled.  With a creature whose status is a value the
switch of `set_pkmn_in_editor` does not name, the allow-illegal slot and the
edit-party slot end with the exception `invalid status condition`.  The
add-item slot, which has a `try` block, returns after the pop-up. -/
theorem C12_failures_leave_the_slots :
    editItemPushButton_clicked fixture_lib_refusing fixture_items =
      Outcome.threw "no such item"
        (fixture_items.log (Event.edit_item item_category.Pocket 0 "Ether" 3)) ∧
    deleteItemPushButton_clicked fixture_lib_refusing fixture_items =
      Outcome.threw "no such item" (fixture_items.log (Event.del_item item_category.Pocket 0)) ∧
    (∃ w', actionAllow_Potentially_Illegal_Modifications_triggered fixture_lib
        fixture_unnamed_status = Outcome.threw "invalid status condition" w') ∧
    (∃ w', editPkmnPartyPushButton_clicked fixture_lib fixture_unnamed_status =
        Outcome.threw "invalid status condition" w') ∧
    addItemPushButton_clicked fixture_lib_refusing fixture_items =
      Outcome.returned (show_popup_error
        (fixture_items.log (Event.add_item item_category.Pocket "Ether" 3)) "duplicate item") :=
  ⟨rfl, rfl, ⟨_, rfl⟩, ⟨_, rfl⟩, rfl⟩

/-- C13.  Let the trainer be live, `name` the text of the name combo and
`quantity` the quantity field read into a `u16`.  When `add_item` returns, the
add slot returns, has journalled that one call, and the selected table is the
old one followed by the row `[name, quantity]`: one row more, every earlier
row where it was, every other table as it was.  When `add_item` throws `e`,
the slot returns after the pop-up `e` with the save and the whole form as
they were. -/
theorem C13_add_item_appends_one_row (lib : pklib) (w : MainWindow) (t : trainer)
    (name : String) (quantity : Nat)
    (ht : w.save.trainer = some t)
    (hname : w.ui.itemNameComboBox.currentText = name)
    (hq : u16 w.ui.quantitySpinBox.value = quantity) :
    (∀ t1, lib.add_item t w.sel_item_category name quantity = Except.ok t1 →
      ∃ w', addItemPushButton_clicked lib w = Outcome.returned w' ∧
        w'.journal = Event.add_item w.sel_item_category name quantity :: w.journal ∧
        w'.save.trainer = some t1 ∧
        (w'.ui.table w.sel_item_table_widget).rows =
          (w.ui.table w.sel_item_table_widget).rows ++ [[name, toString quantity]] ∧
        (w'.ui.table w.sel_item_table_widget).rows.length =
          (w.ui.table w.sel_item_table_widget).rows.length + 1 ∧
        (∀ i, i < (w.ui.table w.sel_item_table_widget).rows.length →
          (w'.ui.table w.sel_item_table_widget).rows[i]? =
            (w.ui.table w.sel_item_table_widget).rows[i]?) ∧
        (∀ r, r ≠ w.sel_item_table_widget → w'.ui.table r = w.ui.table r)) ∧
    (∀ e, lib.add_item t w.sel_item_category name quantity = Except.error e →
      ∃ w', addItemPushButton_clicked lib w = Outcome.returned w' ∧
        w'.journal =
          Event.show_popup_error e ::
            Event.add_item w.sel_item_category name quantity :: w.journal ∧
        w'.save = w.save ∧
        w'.ui = w.ui) := by
  constructor
  · intro t1 hok
    obtain ⟨w', h, hj, ht', hrows, hothers, _⟩ :=
      addItemPushButton_clicked_rows lib w t t1 _ _ name quantity ht rfl rfl hname hq hok
    refine ⟨w', h, hj, ht', hrows, ?_, ?_, hothers⟩
    · rw [hrows, List.length_append]
      rfl
    · intro i hi
      rw [hrows, List.getElem?_append_left hi]
  · intro e herr
    subst hname hq
    exact ⟨_, addItemPushButton_clicked_error lib w t e ht herr, rfl, rfl, rfl⟩

/-- C13 on the fixture: `Ether`, 3 is appended after the `Potion` row by the
ledger library, and refused with a pop-up by the refusing library. -/
theorem C13_add_item_witness :
    (fixture_items.save.trainer = some fixture_trainer ∧
      fixture_items.ui.itemNameComboBox.currentText = "Ether" ∧
      u16 fixture_items.ui.quantitySpinBox.value = 3) ∧
    (∃ w', addItemPushButton_clicked fixture_lib_ledger fixture_items = Outcome.returned w' ∧
      w'.ui.itemsTableWidget.rows = [["Potion", "5"], ["Ether", "3"]]) ∧
    (∃ w', addItemPushButton_clicked fixture_lib_refusing fixture_items = Outcome.returned w' ∧
      w'.journal = [Event.show_popup_error "duplicate item",
        Event.add_item item_category.Pocket "Ether" 3] ∧
      w'.ui = fixture_items.ui) :=
  ⟨⟨rfl, rfl, rfl⟩,
    (let ⟨w', h, _, _, hrows, _⟩ :=
      (C13_add_item_appends_one_row fixture_lib_ledger fixture_items fixture_trainer "Ether" 3
        rfl rfl rfl).1 _ rfl
     ⟨w', h, hrows⟩),
    (let ⟨w', h, hj, _, hui⟩ :=
      (C13_add_item_appends_one_row fixture_lib_refusing fixture_items fixture_trainer "Ether" 3
        rfl rfl rfl).2 "duplicate item" rfl
     ⟨w', h, hj, hui⟩)⟩

/-- C14.  Let the trainer be live, the current row of the selected table be
`r`, a row of the table, and let `del_item(category, r)` return.  The handler
holds the row in a `u16`, and `r` fits it: `r ≤ 65535`.  Then the delete slot
returns, has journalled that one call on position `r` of the selected
category, and the selected table is the old one with row `r` erased: one row
fewer, the rows before `r` where they were, each row formerly at `r + 1 + k`
now at `r + k`, every other table as it was. -/
theorem C14_delete_item_removes_row (lib : pklib) (w : MainWindow) (t t1 : trainer) (r : Nat)
    (ht : w.save.trainer = some t)
    (hcur : (w.ui.table w.sel_item_table_widget).currentRow = r)
    (hr : r < (w.ui.table w.sel_item_table_widget).rows.length)
    (h16 : r ≤ 65535)
    (hdel : lib.del_item t w.sel_item_category r = Except.ok t1) :
    ∃ w', deleteItemPushButton_clicked lib w = Outcome.returned w' ∧
      w'.journal = Event.del_item w.sel_item_category r :: w.journal ∧
      w'.save.trainer = some t1 ∧
      (w'.ui.table w.sel_item_table_widget).rows =
        (w.ui.table w.sel_item_table_widget).rows.eraseIdx r ∧
      (w'.ui.table w.sel_item_table_widget).rows.length =
        (w.ui.table w.sel_item_table_widget).rows.length - 1 ∧
      (∀ i, i < r →
        (w'.ui.table w.sel_item_table_widget).rows[i]? =
          (w.ui.table w.sel_item_table_widget).rows[i]?) ∧
      (∀ k, (w'.ui.table w.sel_item_table_widget).rows[r + k]? =
          (w.ui.table w.sel_item_table_widget).rows[r + 1 + k]?) ∧
      (∀ r', r' ≠ w.sel_item_table_widget → w'.ui.table r' = w.ui.table r') := by
  have hrow : u16 (w.ui.table w.sel_item_table_widget).currentRow = r := by
    rw [hcur]; exact u16_of_le r h16
  obtain ⟨w', h, hj, ht', hrows, hothers⟩ :=
    deleteItemPushButton_clicked_rows lib w t t1 _ _ r ht rfl rfl hrow hdel
  refine ⟨w', h, hj, ht', hrows, ?_, ?_, ?_, hothers⟩
  · rw [hrows, List.length_eraseIdx, if_pos hr]
  · intro i hi
    rw [hrows, List.getElem?_eraseIdx, if_pos hi]
  · intro k
    rw [hrows, List.getElem?_eraseIdx, if_neg (by omega)]
    congr 1
    omega

/-- C14 on the fixture: deleting row 1 of three leaves the first and the
third, in the ledger and in the table. -/
theorem C14_delete_item_witness :
    (fixture_three_items.save.trainer.map (fun t => t.get_pocket_items) =
        some [{ name := "Potion", count := 5 }, { name := "Ether", count := 1 },
          { name := "Elixir", count := 2 }] ∧
      fixture_three_items.ui.itemsTableWidget.rows =
        [["Potion", "5"], ["Ether", "1"], ["Elixir", "2"]] ∧
      fixture_three_items.ui.itemsTableWidget.currentRow = 1) ∧
    ∃ w', deleteItemPushButton_clicked fixture_lib_ledger fixture_three_items =
        Outcome.returned w' ∧
      w'.journal = [Event.del_item item_category.Pocket 1] ∧
      w'.save.trainer.map (fun t => t.get_pocket_items) =
        some [{ name := "Potion", count := 5 }, { name := "Elixir", count := 2 }] ∧
      w'.ui.itemsTableWidget.rows = [["Potion", "5"], ["Elixir", "2"]] :=
  ⟨⟨rfl, rfl, rfl⟩,
    let ⟨w', h, hj, ht, hrows, _⟩ :=
      C14_delete_item_removes_row fixture_lib_ledger fixture_three_items _ _ 1
        rfl rfl (by decide) (by decide) rfl
    ⟨w', h, hj, congrArg (Option.map (fun t => t.get_pocket_items)) ht, hrows⟩⟩

/-- C15.  Let the trainer be live, the selected table hold no `Potion` row,
the form read `Potion`, 5, and both ledger calls return.  The edit handler
holds the row in a `u16`, and the row where `Potion` is appended fits it: the
table holds at most 65535 rows.  The add slot returns a window `w1` whose selected table
is the old one followed by `[Potion, 5]`.  For every window `w2` that has the
save, the selection and the table rows of `w1`, the appended row current and
`Potion`, 10 in the form, the edit slot returns and the selected table is the
old one followed by `[Potion, 10]`: exactly one `Potion` row, at the position
where it was appended, the row count of `w1`, every other row where it
was. -/
theorem C15_add_then_edit_one_potion (lib : pklib) (w : MainWindow) (t t1 t2 : trainer)
    (ht : w.save.trainer = some t)
    (hname : w.ui.itemNameComboBox.currentText = "Potion")
    (hq : w.ui.quantitySpinBox.value = 5)
    (hno : ∀ cells ∈ (w.ui.table w.sel_item_table_widget).rows, cells.head? ≠ some "Potion")
    (hlen : (w.ui.table w.sel_item_table_widget).rows.length ≤ 65535)
    (hadd : lib.add_item t w.sel_item_category "Potion" 5 = Except.ok t1)
    (hedit : lib.edit_item t1 w.sel_item_category
      (w.ui.table w.sel_item_table_widget).rows.length "Potion" 10 = Except.ok t2) :
    ∃ w1, addItemPushButton_clicked lib w = Outcome.returned w1 ∧
      (w1.ui.table w.sel_item_table_widget).rows =
        (w.ui.table w.sel_item_table_widget).rows ++ [["Potion", "5"]] ∧
      ∀ w2 : MainWindow,
        w2.save = w1.save →
        w2.sel_item_category = w1.sel_item_category →
        w2.sel_item_table_widget = w1.sel_item_table_widget →
        (w2.ui.table w.sel_item_table_widget).rows =
          (w1.ui.table w.sel_item_table_widget).rows →
        (w2.ui.table w.sel_item_table_widget).currentRow =
          (w.ui.table w.sel_item_table_widget).rows.length →
        w2.ui.itemNameComboBox.currentText = "Potion" →
        w2.ui.quantitySpinBox.value = 10 →
        ∃ w3, editItemPushButton_clicked lib w2 = Outcome.returned w3 ∧
          w3.save.trainer = some t2 ∧
          (w3.ui.table w.sel_item_table_widget).rows =
            (w.ui.table w.sel_item_table_widget).rows ++ [["Potion", "10"]] ∧
          (w3.ui.table w.sel_item_table_widget).rows.filter
            (fun cells => cells.head? = some "Potion") = [["Potion", "10"]] ∧
          (w3.ui.table w.sel_item_table_widget).rows[
            (w.ui.table w.sel_item_table_widget).rows.length]? = some ["Potion", "10"] ∧
          (w3.ui.table w.sel_item_table_widget).rows.length =
            (w1.ui.table w.sel_item_table_widget).rows.length ∧
          ∀ i, i < (w.ui.table w.sel_item_table_widget).rows.length →
            (w3.ui.table w.sel_item_table_widget).rows[i]? =
              (w.ui.table w.sel_item_table_widget).rows[i]? := by
  obtain ⟨w1, h1, _, ht1, hr1, _, hc1, hs1, _, _⟩ :=
    addItemPushButton_clicked_rows lib w t t1 _ _ "Potion" 5 ht rfl rfl hname
      (by rw [hq]; rfl) hadd
  have hr1' : (w1.ui.table w.sel_item_table_widget).rows =
      (w.ui.table w.sel_item_table_widget).rows ++ [["Potion", "5"]] := hr1
  refine ⟨w1, h1, hr1', ?_⟩
  intro w2 hsave hcat htab hrows2 hcur2 hname2 hq2
  obtain ⟨w3, h3, _, ht3, hr3, _⟩ :=
    editItemPushButton_clicked_rows lib w2 t1 t2 w.sel_item_category w.sel_item_table_widget
      (w.ui.table w.sel_item_table_widget).rows.length "Potion" 10
      (by rw [hsave]; exact ht1) (hcat.trans hc1) (htab.trans hs1)
      (by rw [hcur2]; exact u16_of_le _ hlen) hname2 (by rw [hq2]; rfl)
      (by rw [hrows2, hr1', List.length_append, List.length_singleton]; omega) hedit
  have hr3' : (w3.ui.table w.sel_item_table_widget).rows =
      (w.ui.table w.sel_item_table_widget).rows ++ [["Potion", "10"]] := by
    rw [hr3, hrows2, hr1']
    simp
    rfl
  refine ⟨w3, h3, ht3, hr3', ?_, ?_, ?_, ?_⟩
  · rw [hr3', List.filter_append, List.filter_eq_nil_iff.mpr (fun cells hc => by
      simpa using hno cells hc)]
    rfl
  · rw [hr3', List.getElem?_append_right (le_refl _)]
    simp
  · rw [hr3', hr1', List.length_append, List.length_append]
    rfl
  · intro i hi
    rw [hr3', List.getElem?_append_left hi]

/-- C15 on the fixture: a pocket holding one `Ether` ends as `Ether`, then
`Potion` with 10, in the ledger and in the table. -/
theorem C15_add_then_edit_witness :
    (fixture_add_potion.ui.itemsTableWidget.rows = [["Ether", "1"]] ∧
      fixture_add_potion.ui.itemNameComboBox.currentText = "Potion" ∧
      fixture_add_potion.ui.quantitySpinBox.value = 5) ∧
    ∃ w1 w3,
      addItemPushButton_clicked fixture_lib_ledger fixture_add_potion = Outcome.returned w1 ∧
      w1.ui.itemsTableWidget.rows = [["Ether", "1"], ["Potion", "5"]] ∧
      editItemPushButton_clicked fixture_lib_ledger (select_item_row 1 10 w1) =
        Outcome.returned w3 ∧
      w3.save.trainer.map (fun t => t.get_pocket_items) =
        some [{ name := "Ether", count := 1 }, { name := "Potion", count := 10 }] ∧
      w3.ui.itemsTableWidget.rows = [["Ether", "1"], ["Potion", "10"]] := by
  obtain ⟨w1, h1, hr1, h⟩ :=
    C15_add_then_edit_one_potion fixture_lib_ledger fixture_add_potion _ _ _ rfl rfl rfl
      (by decide) (by decide) rfl rfl
  have hw : w1 = _ := Outcome.returned.inj (h1.symm.trans rfl)
  obtain ⟨w3, h3, ht3, hr3, _⟩ :=
    h (select_item_row 1 10 w1) rfl rfl rfl (by rw [hw]; rfl) (by rw [hw]; rfl)
      (by rw [hw]; rfl) rfl
  exact ⟨⟨rfl, rfl, rfl⟩, w1, w3, h1, hr1, h3,
    congrArg (Option.map (fun t => t.get_pocket_items)) ht3, hr3⟩

/-- C17 fails on the fixture.  The experience field shows the bracket
`[125, 215]` of level 5; the level becomes 10 and the library leaves the
creature with `min_exp = 1000`, `exp = 1025` and `max_exp = 1330`.  The slot
sets the minimum, then the value while the maximum is still the old one, then
the maximum: the field ends with range `[1000, 1330]` and value 1000, not the
creature's 1025. -/
theorem C17_experience_clamped_by_old_range :
    ∃ w' p, levelSpinBox_valueChanged fixture_lib_level fixture_level_up = Outcome.returned w' ∧
      w'.deref 1 = some p ∧
      p.level = 10 ∧ p.min_exp = 1000 ∧ p.exp = 1025 ∧ p.max_exp = 1330 ∧
      w'.ui.expSpinBox.minimum = 1000 ∧
      w'.ui.expSpinBox.maximum = 1330 ∧
      w'.ui.expSpinBox.value = 1000 :=
  ⟨_, _, rfl, rfl, rfl, rfl, rfl, rfl, rfl, rfl, rfl⟩

/-- C18 fails on the fixture for the trade slot.  The creature in the editor
evolves by trade into a species with another ability.  After the trade slot
the creature is the evolved one and the species combo shows it, but the
ability combo still lists the old ability; running `set_pkmn_in_editor` on
that window lists the new one.  The species slot on the same creature, which
does re-run `set_pkmn_in_editor`, lists the new ability. -/
theorem C18_trade_evolution_leaves_editor_stale :
    (∃ w', fixture_session_trade = Outcome.returned w' ∧
      w'.deref 1 = some fixture_kingdra ∧
      w'.ui.speciesComboBox.currentIndex = 230 ∧
      w'.ui.abilityComboBox.items = ["Poison Point"] ∧
      (∃ w'', set_pkmn_in_editor fixture_lib_trade (some 1) w' = Outcome.returned w'' ∧
        w''.ui.abilityComboBox.items = ["Swift Swim"])) ∧
    (∃ w', fixture_session_species = Outcome.returned w' ∧
      w'.deref 1 = some fixture_kingdra ∧
      w'.ui.abilityComboBox.items = ["Swift Swim"]) :=
  ⟨⟨_, rfl, rfl, rfl, rfl, _, rfl, rfl⟩, ⟨_, rfl, rfl, rfl⟩⟩

/-- C19.  Let a live creature be selected, `k` be a move slot, and `p` a
creature whose slot-`k` PP is at most its slot-`k` max PP and not below the
minimum of the slot-`k` PP field (a minimum the window never sets).  When the
slot-`k` move mutator, called with the index of the slot-`k` combo, returns
`p`, the slot-`k` move slot returns, stores `p`, has journalled that one call,
and the slot-`k` PP field has as maximum the slot-`k` max PP of `p` and as
value the slot-`k` PP of `p`, the slot-`k` max-PP text is that max PP, the PP
fields and max-PP texts of the other three slots and all four move combos and
bonus fields are as they were.  The same holds of the slot-`k` PP bonus slot and the slot-`k`
bonus mutator called with the value of the slot-`k` bonus field. -/
theorem C19_move_slot_pp_refreshed (lib : pklib) (w : MainWindow) (a : Nat)
    (p0 p : pokemon) (k : move_slot)
    (hsel : w.sel_pkmn = some a) (hp0 : w.deref a = some p0)
    (hmin : (w.ui.ppSpinBox k).minimum ≤ p.pp k)
    (hpp : p.pp k ≤ p.move_max_pp k) :
    (lib.set_move k p0 (w.ui.mComboBox k).currentIndex = Except.ok p →
      ∃ w', mComboBox_currentIndexChanged k lib w = Outcome.returned w' ∧
        w'.deref a = some p ∧
        w'.journal = set_move_event k a (w.ui.mComboBox k).currentIndex :: w.journal ∧
        (w'.ui.ppSpinBox k).maximum = p.move_max_pp k ∧
        (w'.ui.ppSpinBox k).value = p.pp k ∧
        (w'.ui.mMaxppLineEdit k).text = toString (p.move_max_pp k) ∧
        (∀ j, j ≠ k →
          w'.ui.ppSpinBox j = w.ui.ppSpinBox j ∧
          w'.ui.mMaxppLineEdit j = w.ui.mMaxppLineEdit j) ∧
        (∀ j, w'.ui.mComboBox j = w.ui.mComboBox j ∧
          w'.ui.ppBonusSpinBox j = w.ui.ppBonusSpinBox j)) ∧
    (lib.set_move_bonus k p0 (w.ui.ppBonusSpinBox k).value = Except.ok p →
      ∃ w', ppBonusSpinBox_valueChanged k lib w = Outcome.returned w' ∧
        w'.deref a = some p ∧
        w'.journal = set_move_bonus_event k a (w.ui.ppBonusSpinBox k).value :: w.journal ∧
        (w'.ui.ppSpinBox k).maximum = p.move_max_pp k ∧
        (w'.ui.ppSpinBox k).value = p.pp k ∧
        (w'.ui.mMaxppLineEdit k).text = toString (p.move_max_pp k) ∧
        (∀ j, j ≠ k →
          w'.ui.ppSpinBox j = w.ui.ppSpinBox j ∧
          w'.ui.mMaxppLineEdit j = w.ui.mMaxppLineEdit j) ∧
        (∀ j, w'.ui.mComboBox j = w.ui.mComboBox j ∧
          w'.ui.ppBonusSpinBox j = w.ui.ppBonusSpinBox j)) := by
  have hpp' : ((p.pp k : Nat) : Int) ≤ (p.move_max_pp k : Nat) := by exact_mod_cast hpp
  have hbox := QSpinBox.setMaximum_setValue (w.ui.ppSpinBox k) (p.move_max_pp k) (p.pp k)
    hmin hpp'
  cases k
  all_goals
    constructor
    · intro hok
      simp only [pklib.set_move, Ui.mComboBox] at hok
      simp only [mComboBox_currentIndexChanged, m1ComboBox_currentIndexChanged,
        m2ComboBox_currentIndexChanged, m3ComboBox_currentIndexChanged,
        m4ComboBox_currentIndexChanged, m1ComboBox_lambda, m2ComboBox_lambda,
        m3ComboBox_lambda, m4ComboBox_lambda, hsel, hp0, hok]
      refine ⟨_, rfl, deref_store w a p0 p hp0, rfl, hbox.1, hbox.2.1, rfl, ?_, ?_⟩
      · intro j hj
        cases j <;> first | exact absurd rfl hj | exact ⟨rfl, rfl⟩
      · intro j
        cases j <;> exact ⟨rfl, rfl⟩
    · intro hok
      simp only [pklib.set_move_bonus, Ui.ppBonusSpinBox] at hok
      simp only [ppBonusSpinBox_valueChanged, pp1BonusSpinBox_valueChanged,
        pp2BonusSpinBox_valueChanged, pp3BonusSpinBox_valueChanged,
        pp4BonusSpinBox_valueChanged, hsel, hp0, hok]
      refine ⟨_, rfl, deref_store w a p0 p hp0, rfl, hbox.1, hbox.2.1, rfl, ?_, ?_⟩
      · intro j hj
        cases j <;> first | exact absurd rfl hj | exact ⟨rfl, rfl⟩
      · intro j
        cases j <;> exact ⟨rfl, rfl⟩

/-- C19 on the fixture: a new move in slot 1 sets its PP field to 20 of 20,
a PP bonus of 2 in slot 2 sets its PP field to 28 of 28, and the other slot's
PP field is as it was. -/
theorem C19_move_slot_witness :
    (fixture_moves.sel_pkmn = some 1 ∧ fixture_moves.deref 1 = some fixture_pkmn_moves ∧
      fixture_moves.ui.pp1SpinBox.maximum = 35 ∧ fixture_moves.ui.pp1SpinBox.value = 35 ∧
      fixture_moves.ui.pp2SpinBox.maximum = 40 ∧ fixture_moves.ui.pp2SpinBox.value = 40) ∧
    (∃ w', m1ComboBox_currentIndexChanged fixture_lib_moves fixture_moves =
        Outcome.returned w' ∧
      w'.ui.pp1SpinBox.maximum = 20 ∧ w'.ui.pp1SpinBox.value = 20 ∧
      w'.ui.m1MaxppLineEdit.text = "20" ∧
      w'.ui.pp2SpinBox = fixture_moves.ui.pp2SpinBox) ∧
    (∃ w', pp2BonusSpinBox_valueChanged fixture_lib_moves fixture_moves =
        Outcome.returned w' ∧
      w'.ui.pp2SpinBox.maximum = 28 ∧ w'.ui.pp2SpinBox.value = 28 ∧
      w'.ui.m2MaxppLineEdit.text = "28" ∧
      w'.ui.pp1SpinBox = fixture_moves.ui.pp1SpinBox) :=
  ⟨⟨rfl, rfl, rfl, rfl, rfl, rfl⟩,
    (let ⟨w', h, _, _, hmax, hval, htext, hothers, _⟩ :=
      (C19_move_slot_pp_refreshed fixture_lib_moves fixture_moves 1 fixture_pkmn_moves _
        move_slot.m1 rfl rfl (by decide) (by decide)).1 rfl
     ⟨w', h, hmax, hval, htext, (hothers move_slot.m2 (by decide)).1⟩),
    (let ⟨w', h, _, _, hmax, hval, htext, hothers, _⟩ :=
      (C19_move_slot_pp_refreshed fixture_lib_moves fixture_moves 1 fixture_pkmn_moves _
        move_slot.m2 rfl rfl (by decide) (by decide)).2 rfl
     ⟨w', h, hmax, hval, htext, (hothers move_slot.m1 (by decide)).1⟩)⟩

/-- C20.  Let the file name be not empty and the read return a save with the
trainer `t`.  From a window with a save loaded, whatever its tables hold, and
from a window with no save loaded and empty pocket tables, `open_file`
returns, the loaded flag is set, the save is the one read, and each of the
six pocket tables lists exactly the entries of the corresponding pocket of
`t`, in order, as rows `[name, count]`. -/
theorem C20_open_file_lists_new_pockets (lib : pklib) (filename : String) (w : MainWindow)
    (new_save : pkmn_save) (t : trainer)
    (hname : filename.isEmpty = false)
    (hread : lib.read_pkmn_save_file filename = Except.ok new_save)
    (ht : new_save.trainer = some t)
    (hempty : w.save_loaded = false →
      w.ui.itemsTableWidget.rows = [] ∧ w.ui.ballsTableWidget.rows = [] ∧
      w.ui.berriesTableWidget.rows = [] ∧ w.ui.tmsTableWidget.rows = [] ∧
      w.ui.keyItemsTableWidget.rows = [] ∧ w.ui.pcItemsTableWidget.rows = []) :
    ∃ w', open_file lib filename w = Outcome.returned w' ∧
      w'.save_loaded = true ∧
      w'.save = new_save ∧
      w'.ui.itemsTableWidget.rows =
        t.get_pocket_items.map (fun it => [it.name, toString it.count]) ∧
      w'.ui.ballsTableWidget.rows =
        t.get_ball_items.map (fun it => [it.name, toString it.count]) ∧
      w'.ui.berriesTableWidget.rows =
        t.get_berry_case.map (fun it => [it.name, toString it.count]) ∧
      w'.ui.tmsTableWidget.rows =
        t.get_tm_case.map (fun it => [it.name, toString it.count]) ∧
      w'.ui.keyItemsTableWidget.rows =
        t.get_key_items.map (fun it => [it.name, toString it.count]) ∧
      w'.ui.pcItemsTableWidget.rows =
        t.get_pc_items.map (fun it => [it.name, toString it.count]) := by
  cases hl : w.save_loaded
  · obtain ⟨h1, h2, h3, h4, h5, h6⟩ := hempty hl
    simp only [open_file, hname, open_file_body, hl, hread, ht, catch_popup,
      Bool.false_eq_true, if_false]
    refine ⟨_, rfl, rfl, rfl, ?_, ?_, ?_, ?_, ?_, ?_⟩
    · exact (congrArg (fun l => _ ++ l) h1).trans (List.append_nil _)
    · exact (congrArg (fun l => _ ++ l) h2).trans (List.append_nil _)
    · exact (congrArg (fun l => _ ++ l) h3).trans (List.append_nil _)
    · exact (congrArg (fun l => _ ++ l) h4).trans (List.append_nil _)
    · exact (congrArg (fun l => _ ++ l) h5).trans (List.append_nil _)
    · exact (congrArg (fun l => _ ++ l) h6).trans (List.append_nil _)
  · simp only [open_file, hname, open_file_body, hl, reset_ui, set_pkmn_in_editor, hread, ht,
      catch_popup, if_true, Bool.false_eq_true, if_false]
    exact ⟨_, rfl, rfl, rfl, List.append_nil _, List.append_nil _, List.append_nil _,
      List.append_nil _, List.append_nil _, List.append_nil _⟩

/-- C20 on the fixtures: opening `ruby.sav` over a loaded window whose
pocket table shows three rows, and over the constructed window, leaves the
one `Potion` row of the new save. -/
theorem C20_open_file_witness :
    ("ruby.sav".isEmpty = false ∧
      fixture_lib.read_pkmn_save_file "ruby.sav" =
        Except.ok { file_name := "ruby.sav", game_name := "Ruby",
                    trainer := some fixture_trainer } ∧
      fixture_three_items.save_loaded = true ∧
      fixture_three_items.ui.itemsTableWidget.rows =
        [["Potion", "5"], ["Ether", "1"], ["Elixir", "2"]]) ∧
    (∃ w', open_file fixture_lib "ruby.sav" fixture_three_items = Outcome.returned w' ∧
      w'.save_loaded = true ∧
      w'.ui.itemsTableWidget.rows = [["Potion", "5"]] ∧
      w'.ui.ballsTableWidget.rows = []) ∧
    (∃ w', open_file fixture_lib "ruby.sav" fixture_empty = Outcome.returned w' ∧
      w'.save_loaded = true ∧
      w'.ui.itemsTableWidget.rows = [["Potion", "5"]] ∧
      w'.ui.ballsTableWidget.rows = []) :=
  ⟨⟨rfl, rfl, rfl, rfl⟩,
    (let ⟨w', h, hl, _, hitems, hballs, _⟩ :=
      C20_open_file_lists_new_pockets fixture_lib "ruby.sav" fixture_three_items _
        fixture_trainer rfl rfl rfl (fun h => nomatch h)
     ⟨w', h, hl, hitems, hballs⟩),
    (let ⟨w', h, hl, _, hitems, hballs, _⟩ :=
      C20_open_file_lists_new_pockets fixture_lib "ruby.sav" fixture_empty _
        fixture_trainer rfl rfl rfl (fun _ => ⟨rfl, rfl, rfl, rfl, rfl, rfl⟩)
     ⟨w', h, hl, hitems, hballs⟩)⟩

/-- C21 fails on the fixture for both handlers.  The creature in the editor
has nature 3 and attack 11, and the attack field shows 11.  The gender mutator
leaves it with nature 1 and attack 12: the gender slot returns and shows the
new nature, but the attack field still shows 11, where `update_stats_on_ui` on
that window shows 12.  The shiny mutator leaves it with nature 2 and attack
13, and the attack field still shows 11.  The nature slot on the same
creature, which does call `update_stats_on_ui`, shows the attack 14 its
mutator left. -/
theorem C21_gender_and_shiny_leave_stats_stale :
    (∃ w p, fixture_party_session = Outcome.returned w ∧ w.deref 1 = some p ∧
      p.nature = 3 ∧ p.attack = 11 ∧ w.ui.atkSpinBox.value = 11) ∧
    (∃ w' p, fixture_party_gender = Outcome.returned w' ∧ w'.deref 1 = some p ∧
      w'.journal.head? = some (Event.set_gender 1 pokemon_gender.FEMALE) ∧
      p.nature = 1 ∧ w'.ui.natureComboBox.currentIndex = 2 ∧
      p.attack = 12 ∧ w'.ui.atkSpinBox.value = 11 ∧
      (update_stats_on_ui (some p) w'.ui).atkSpinBox.value = 12) ∧
    (∃ w' p, fixture_party_shiny = Outcome.returned w' ∧ w'.deref 1 = some p ∧
      w'.journal.head? = some (Event.set_shiny 1 true) ∧
      p.nature = 2 ∧ w'.ui.natureComboBox.currentIndex = 3 ∧
      p.attack = 13 ∧ w'.ui.atkSpinBox.value = 11 ∧
      (update_stats_on_ui (some p) w'.ui).atkSpinBox.value = 13) ∧
    (∃ w' p, fixture_party_nature = Outcome.returned w' ∧ w'.deref 1 = some p ∧
      w'.journal.head? = some (Event.set_nature 1 4) ∧
      p.nature = 4 ∧ p.attack = 14 ∧ w'.ui.atkSpinBox.value = 14) :=
  ⟨⟨_, _, rfl, rfl, rfl, rfl, rfl⟩,
   ⟨_, _, rfl, rfl, rfl, rfl, rfl, rfl, rfl, rfl⟩,
   ⟨_, _, rfl, rfl, rfl, rfl, rfl, rfl, rfl, rfl⟩,
   ⟨_, _, rfl, rfl, rfl, rfl, rfl, rfl⟩⟩

/-- C22 fails on the fixture for the nature, OT id, trade and species slots.
The creature was selected from the party table and row 0 shows it as
`SEADRA`, `Male`, not shiny.  After the nature slot the creature is female and
row 0 still says `Male`; after the OT public id slot it is shiny, the shiny
box is ticked and row 0 still says `No`; after the trade slot and after the
species slot it is named `KINGDRA`, the nickname field says so and row 0 still
says `SEADRA`.  The gender slot on the same creature, which does call
`update_party_table_widget`, leaves row 0 showing the creature as it is. -/
theorem C22_party_table_left_stale :
    (∃ w' p, fixture_party_nature = Outcome.returned w' ∧
      w'.sel_pkmn_table_widget = some table_ref.partyTableWidget ∧
      w'.deref 1 = some p ∧ p.gender_name = "Female" ∧
      w'.ui.partyTableWidget.rows.get? 0 = some ["SEADRA", "Male", "5", "No", "No"] ∧
      add_pkmn_to_table_widget p = ["SEADRA", "Female", "5", "No", "No"]) ∧
    (∃ w' p, fixture_party_ot_pid = Outcome.returned w' ∧
      w'.sel_pkmn_table_widget = some table_ref.partyTableWidget ∧
      w'.deref 1 = some p ∧ p.is_shiny = true ∧ w'.ui.shinyCheckBox.checked = true ∧
      w'.ui.partyTableWidget.rows.get? 0 = some ["SEADRA", "Male", "5", "No", "No"] ∧
      add_pkmn_to_table_widget p = ["SEADRA", "Male", "5", "Yes", "No"]) ∧
    (∃ w' p, fixture_party_trade = Outcome.returned w' ∧
      w'.sel_pkmn_table_widget = some table_ref.partyTableWidget ∧
      w'.deref 1 = some p ∧ p.nickname = "KINGDRA" ∧ w'.ui.nicknameLineEdit.text = "KINGDRA" ∧
      w'.ui.partyTableWidget.rows.get? 0 = some ["SEADRA", "Male", "5", "No", "No"] ∧
      add_pkmn_to_table_widget p = ["KINGDRA", "Male", "5", "No", "No"]) ∧
    (∃ w' p, fixture_party_species = Outcome.returned w' ∧
      w'.sel_pkmn_table_widget = some table_ref.partyTableWidget ∧
      w'.deref 1 = some p ∧ p.nickname = "KINGDRA" ∧ w'.ui.nicknameLineEdit.text = "KINGDRA" ∧
      w'.ui.partyTableWidget.rows.get? 0 = some ["SEADRA", "Male", "5", "No", "No"] ∧
      add_pkmn_to_table_widget p = ["KINGDRA", "Male", "5", "No", "No"]) ∧
    (∃ w' p, fixture_party_gender = Outcome.returned w' ∧
      w'.deref 1 = some p ∧ p.gender_name = "Female" ∧
      w'.ui.partyTableWidget.rows.get? 0 = some (add_pkmn_to_table_widget p) ∧
      add_pkmn_to_table_widget p = ["SEADRA", "Female", "5", "No", "No"]) :=
  ⟨⟨_, _, rfl, rfl, rfl, rfl, rfl, rfl⟩,
   ⟨_, _, rfl, rfl, rfl, rfl, rfl, rfl, rfl⟩,
   ⟨_, _, rfl, rfl, rfl, rfl, rfl, rfl, rfl⟩,
   ⟨_, _, rfl, rfl, rfl, rfl, rfl, rfl, rfl⟩,
   ⟨_, _, rfl, rfl, rfl, rfl, rfl⟩⟩

/-- C23 fails on the fixture.  A first-generation creature is in the editor:
special DV 5, speed DV 3, special EV 7, speed EV 2, each shown in its field.
The user enters 9 in the special DV field: its two slots call `set_iv` with
`pkstat.Spe`, first with 9 and then with the 5 that `update_stats_on_ui` has
put back into the field, so the special DV is still 5 and the speed DV has
become 5.  The speed DV field with the same entry makes the same first call.
The user enters 9 in the special EV field: its slot calls `set_ev` with
`pkstat.Spe`, so the special EV is still 7 and the speed EV has become 9. -/
theorem C23_special_fields_write_speed :
    (∃ w p, fixture_gen1_session = Outcome.returned w ∧ w.deref 1 = some p ∧
      p.compat_has_spc_eviv = true ∧
      p.special_dv = 5 ∧ w.ui.spDvSpinBox.value = 5 ∧
      p.speed_iv = 3 ∧ w.ui.speIvSpinBox.value = 3 ∧
      p.special_ev = 7 ∧ w.ui.spcEvSpinBox.value = 7 ∧
      p.speed_ev = 2 ∧ w.ui.speEvSpinBox.value = 2 ∧
      w.journal = [Event.allow_illegal_changes 1 false, Event.read_pkmn_save_file "red.sav"]) ∧
    (∃ w' p, fixture_gen1_special_dv = Outcome.returned w' ∧ w'.deref 1 = some p ∧
      w'.journal = [Event.mutator (Mutator.set_iv 1 pkstat.Spe 5),
                    Event.mutator (Mutator.set_iv 1 pkstat.Spe 9),
                    Event.allow_illegal_changes 1 false, Event.read_pkmn_save_file "red.sav"] ∧
      p.special_dv = 5 ∧ w'.ui.spDvSpinBox.value = 5 ∧
      p.speed_iv = 5 ∧ w'.ui.speIvSpinBox.value = 5) ∧
    (∃ w' p, fixture_gen1_speed_dv = Outcome.returned w' ∧ w'.deref 1 = some p ∧
      w'.journal = [Event.mutator (Mutator.set_iv 1 pkstat.Spe 9),
                    Event.allow_illegal_changes 1 false, Event.read_pkmn_save_file "red.sav"] ∧
      p.special_dv = 5 ∧ p.speed_iv = 9 ∧ w'.ui.speIvSpinBox.value = 9) ∧
    (∃ w' p, fixture_gen1_special_ev = Outcome.returned w' ∧ w'.deref 1 = some p ∧
      w'.journal = [Event.mutator (Mutator.set_ev 1 pkstat.Spe 9),
                    Event.allow_illegal_changes 1 false, Event.read_pkmn_save_file "red.sav"] ∧
      p.special_ev = 7 ∧ w'.ui.spcEvSpinBox.value = 7 ∧
      p.speed_ev = 9 ∧ w'.ui.speEvSpinBox.value = 9) :=
  ⟨⟨_, _, rfl, rfl, rfl, rfl, rfl, rfl, rfl, rfl, rfl, rfl, rfl, rfl⟩,
   ⟨_, _, rfl, rfl, rfl, rfl, rfl, rfl, rfl⟩,
   ⟨_, _, rfl, rfl, rfl, rfl, rfl, rfl⟩,
   ⟨_, _, rfl, rfl, rfl, rfl, rfl, rfl, rfl⟩⟩

/-- C24 fails on the fixture.  The creature in the editor has move 1 with
3 PP left of 35, game of origin 2, met level 5 and no fateful encounter flag,
each shown in its field.  The user chooses entry 7 of the combo of move slot
1 and `set_move1` refuses it.  The handler resets the combo to entry 1 with
the signals of the combo not blocked, so the slot runs again, calls
`set_move1` with the creature's own move, which fills the PP, and only then is
the error reported: the refused edit has left the creature with 35 PP, not 3.
In the same way the refused origin game, met level and fateful encounter
edits each call their mutator a second time, with the creature's own value,
before the error is reported; there the second call changes nothing. -/
theorem C24_refused_edit_runs_the_slot_again :
    (∃ w, fixture_gate_session = Outcome.returned w ∧
      w.sel_pkmn = some 1 ∧ w.deref 1 = some fixture_pkmn_gate ∧
      fixture_pkmn_gate.move1 = 1 ∧ fixture_pkmn_gate.pp1 = 3 ∧
      fixture_pkmn_gate.move1_max_pp = 35 ∧
      w.ui.m1ComboBox.items.length = 8 ∧ w.ui.m1ComboBox.currentIndex = 1 ∧
      w.ui.m1ComboBox.enabled = true ∧
      w.ui.pp1SpinBox.value = 3 ∧ w.ui.pp1SpinBox.maximum = 35 ∧
      w.ui.originGameComboBox.items.length = 6 ∧ w.ui.originGameComboBox.currentIndex = 2 ∧
      w.ui.originGameComboBox.enabled = true ∧
      w.ui.levelMetSpinBox.value = 5 ∧ w.ui.levelMetSpinBox.maximum = 99 ∧
      w.ui.levelMetSpinBox.enabled = true ∧
      w.ui.fatefulEncounterCheckBox.checked = false ∧
      w.ui.fatefulEncounterCheckBox.enabled = true ∧
      w.ui.fatefulEncounterCheckBox.checkable = true ∧
      w.journal = [Event.allow_illegal_changes 1 false, Event.read_pkmn_save_file "ruby.sav"]) ∧
    (∃ w' p, fixture_gate_move = Outcome.returned w' ∧ w'.deref 1 = some p ∧
      w'.journal = [Event.show_popup_error "illegal move",
                    Event.set_move1 1 1, Event.set_move1 1 7,
                    Event.allow_illegal_changes 1 false, Event.read_pkmn_save_file "ruby.sav"] ∧
      p.move1 = 1 ∧ p.pp1 = 35 ∧ p ≠ fixture_pkmn_gate ∧
      w'.ui.m1ComboBox.currentIndex = 1 ∧ w'.ui.pp1SpinBox.value = 35) ∧
    (∃ w', fixture_gate_origin = Outcome.returned w' ∧
      w'.deref 1 = some fixture_pkmn_gate ∧
      w'.journal = [Event.show_popup_error "illegal origin game",
                    Event.mutator (Mutator.set_origin_game 1 2),
                    Event.mutator (Mutator.set_origin_game 1 4),
                    Event.allow_illegal_changes 1 false, Event.read_pkmn_save_file "ruby.sav"] ∧
      w'.ui.originGameComboBox.currentIndex = 2) ∧
    (∃ w', fixture_gate_level_met = Outcome.returned w' ∧
      w'.deref 1 = some fixture_pkmn_gate ∧
      w'.journal = [Event.show_popup_error "met above its level",
                    Event.mutator (Mutator.set_level_met 1 5),
                    Event.mutator (Mutator.set_level_met 1 50),
                    Event.allow_illegal_changes 1 false, Event.read_pkmn_save_file "ruby.sav"] ∧
      w'.ui.levelMetSpinBox.value = 5) ∧
    (∃ w', fixture_gate_fateful = Outcome.returned w' ∧
      w'.deref 1 = some fixture_pkmn_gate ∧
      w'.journal = [Event.show_popup_error "not an event creature",
                    Event.set_fateful_encounter 1 false, Event.set_fateful_encounter 1 true,
                    Event.allow_illegal_changes 1 false, Event.read_pkmn_save_file "ruby.sav"] ∧
      w'.ui.fatefulEncounterCheckBox.checked = false) :=
  ⟨⟨_, rfl, rfl, rfl, rfl, rfl, rfl, rfl, rfl, rfl, rfl, rfl, rfl, rfl, rfl, rfl, rfl, rfl, rfl,
      rfl, rfl, rfl⟩,
   ⟨_, _, rfl, rfl, rfl, rfl, rfl, by decide, rfl, rfl⟩,
   ⟨_, rfl, rfl, rfl, rfl⟩,
   ⟨_, rfl, rfl, rfl, rfl⟩,
   ⟨_, rfl, rfl, rfl, rfl⟩⟩

/-- C25 fails on the fixture for the special stat field.  With a
first-generation creature in the editor the special stat field, the special DV
field and the special EV field are enabled and the four split fields are
disabled.  The user then opens a third-generation save and puts its first
creature in the editor: `compat_has_spc_eviv()` and `compat_has_spc()` are
false, the four split fields are enabled, the special DV and EV fields are
disabled, and the special stat field is still enabled.  From the constructed
window the same creature leaves the special stat field disabled. -/
theorem C25_special_stat_field_stays_enabled :
    (∃ w p, fixture_gen1_session = Outcome.returned w ∧ w.deref 1 = some p ∧
      p.compat_has_spc_eviv = true ∧ p.compat_has_spc = true ∧
      w.ui.spSpinBox.enabled = true ∧
      w.ui.spDvSpinBox.enabled = true ∧ w.ui.spcEvSpinBox.enabled = true ∧
      w.ui.spAtkIvSpinBox.enabled = false ∧ w.ui.spDefIvSpinBox.enabled = false ∧
      w.ui.spAtkEvSpinBox.enabled = false ∧ w.ui.spDefEvSpinBox.enabled = false) ∧
    (∃ w' p, fixture_gen1_then_gen3 = Outcome.returned w' ∧
      w'.sel_pkmn = some 1 ∧ w'.deref 1 = some p ∧
      p.compat_has_spc_eviv = false ∧ p.compat_has_spc = false ∧
      w'.ui.spSpinBox.enabled = true ∧
      w'.ui.spDvSpinBox.enabled = false ∧ w'.ui.spcEvSpinBox.enabled = false ∧
      w'.ui.spAtkIvSpinBox.enabled = true ∧ w'.ui.spDefIvSpinBox.enabled = true ∧
      w'.ui.spAtkEvSpinBox.enabled = true ∧ w'.ui.spDefEvSpinBox.enabled = true) ∧
    (∃ w' p, fixture_party_session = Outcome.returned w' ∧ w'.deref 1 = some p ∧
      p.compat_has_spc = false ∧ w'.ui.spSpinBox.enabled = false) :=
  ⟨⟨_, _, rfl, rfl, rfl, rfl, rfl, rfl, rfl, rfl, rfl, rfl, rfl⟩,
   ⟨_, _, rfl, rfl, rfl, rfl, rfl, rfl, rfl, rfl, rfl, rfl, rfl, rfl⟩,
   ⟨_, _, rfl, rfl, rfl, rfl⟩⟩

/-- C26 fails on the fixture.  From the constructed window, whose fields have
the range `[0, 99]`, the first creature (experience 150 in `[125, 215]`, 5 PP
of 5) is put in the editor: the experience field ends with range
`[125, 215]` and value 125, not 150.  The second creature (experience 1025 in
`[1000, 1330]`, 35 PP of 35) is then put in the editor: the experience field
ends with range `[1000, 1330]` and value 1000, and the PP field of slot 1 with
maximum 35 and value 5. -/
theorem C26_value_clamped_by_prior_range :
    (∃ w p, fixture_party_session = Outcome.returned w ∧ w.sel_pkmn = some 1 ∧
      w.deref 1 = some p ∧
      p.min_exp = 125 ∧ p.exp = 150 ∧ p.max_exp = 215 ∧
      w.ui.expSpinBox.minimum = 125 ∧ w.ui.expSpinBox.maximum = 215 ∧
      w.ui.expSpinBox.value = 125 ∧
      p.pp1 = 5 ∧ p.move1_max_pp = 5 ∧
      w.ui.pp1SpinBox.maximum = 5 ∧ w.ui.pp1SpinBox.value = 5) ∧
    (∃ w' p, fixture_party_second = Outcome.returned w' ∧ w'.sel_pkmn = some 2 ∧
      w'.deref 2 = some p ∧
      p.min_exp = 1000 ∧ p.exp = 1025 ∧ p.max_exp = 1330 ∧
      w'.ui.expSpinBox.minimum = 1000 ∧ w'.ui.expSpinBox.maximum = 1330 ∧
      w'.ui.expSpinBox.value = 1000 ∧
      p.pp1 = 35 ∧ p.move1_max_pp = 35 ∧
      w'.ui.pp1SpinBox.maximum = 35 ∧ w'.ui.pp1SpinBox.value = 5) :=
  ⟨⟨_, _, rfl, rfl, rfl, rfl, rfl, rfl, rfl, rfl, rfl, rfl, rfl, rfl, rfl⟩,
   ⟨_, _, rfl, rfl, rfl, rfl, rfl, rfl, rfl, rfl, rfl, rfl, rfl, rfl, rfl⟩⟩

/-- C27 fails on the fixture.  The pocket table holds the row `Potion`, `5`.
A click on either cell of that row runs `on_item_select`, which shows `Potion`
and 5.  When the clicked cell was the name cell, showing the balls tab and then
the pocket tab again leaves the name `Potion` and the quantity 0; when it was
the quantity cell, the tab slot looks up the text `5` among the item names and
the exception `error: unable to find item index` leaves the slot. -/
theorem C27_tab_change_reads_one_cell :
    (∃ w, (open_file fixture_lib_party "ruby.sav" (MainWindow.construct {})).andThen
            (click_item_cell 0 0) = Outcome.returned w ∧
      w.ui.itemsTableWidget.rows = [["Potion", "5"]] ∧
      w.ui.itemsTableWidget.selectedRow = some 0 ∧
      w.ui.itemNameComboBox.currentText = "Potion" ∧ w.ui.quantitySpinBox.value = 5) ∧
    (∃ w, (open_file fixture_lib_party "ruby.sav" (MainWindow.construct {})).andThen
            (click_item_cell 0 1) = Outcome.returned w ∧
      w.ui.itemsTableWidget.selectedRow = some 0 ∧
      w.ui.itemNameComboBox.currentText = "Potion" ∧ w.ui.quantitySpinBox.value = 5) ∧
    (∃ w', fixture_tab_session 0 = Outcome.returned w' ∧
      w'.sel_item_table_widget = table_ref.itemsTableWidget ∧
      w'.ui.itemsTableWidget.rows = [["Potion", "5"]] ∧
      w'.ui.itemsTableWidget.selectedRow = some 0 ∧
      w'.ui.itemNameComboBox.currentText = "Potion" ∧ w'.ui.quantitySpinBox.value = 0) ∧
    (∃ w', fixture_tab_session 1 = Outcome.threw "error: unable to find item index" w') :=
  ⟨⟨_, rfl, rfl, rfl, rfl, rfl⟩, ⟨_, rfl, rfl, rfl, rfl⟩,
   ⟨_, rfl, rfl, rfl, rfl, rfl, rfl⟩, ⟨_, rfl⟩⟩

/-- C28.  Let `w` be the window after any run of form edits and signals from
the constructed window, every slot of the run having returned.  Then the
selected item table of `w` is the table `open_file` fills from the pocket of
the selected category (`table_of_category`, which is one-to-one and never the
party table); the tab switch maps the indices 0 to 5 to the six categories in
order, keeps the correspondence at every index and leaves the window as it is
at any other index; the tab slot leaves the pair of its switch; and when the
ledger call returns, the add, edit and delete slots have journalled the call
for the selected category and changed the rows of the table of that category
and of no other table. -/
theorem C28_item_table_matches_category (lib : pklib) (ui0 : Ui) (inputs : List Input)
    (w : MainWindow)
    (hrun : run lib inputs (MainWindow.construct ui0) = Outcome.returned w) :
    w.sel_item_table_widget = table_of_category w.sel_item_category ∧
    (∀ c c', table_of_category c = table_of_category c' → c = c') ∧
    (∀ c, table_of_category c ≠ table_ref.partyTableWidget) ∧
    (∀ game_name c0 t ui c,
      ((open_file_show game_name c0 t ui).table (table_of_category c)).rows =
        (t.pocket c).map (fun it => [it.name, toString it.count]) ++
          (ui.table (table_of_category c)).rows) ∧
    ((select_item_tab 0 w).sel_item_category = item_category.Pocket ∧
      (select_item_tab 1 w).sel_item_category = item_category.Pokeball ∧
      (select_item_tab 2 w).sel_item_category = item_category.Berry ∧
      (select_item_tab 3 w).sel_item_category = item_category.Tm ∧
      (select_item_tab 4 w).sel_item_category = item_category.Key_Item ∧
      (select_item_tab 5 w).sel_item_category = item_category.Pc) ∧
    (∀ index : Int, (select_item_tab index w).sel_item_table_widget =
      table_of_category (select_item_tab index w).sel_item_category) ∧
    (∀ index : Int, index < 0 ∨ 5 < index → select_item_tab index w = w) ∧
    (∀ index w', itemsTabWidget_currentChanged index w = Outcome.returned w' →
      w'.sel_item_category = (select_item_tab index w).sel_item_category ∧
      w'.sel_item_table_widget = table_of_category w'.sel_item_category) ∧
    (∀ t t1, w.save.trainer = some t →
      lib.add_item t w.sel_item_category w.ui.itemNameComboBox.currentText
        (u16 w.ui.quantitySpinBox.value) = Except.ok t1 →
      ∃ w', addItemPushButton_clicked lib w = Outcome.returned w' ∧
        w'.journal = Event.add_item w.sel_item_category w.ui.itemNameComboBox.currentText
          (u16 w.ui.quantitySpinBox.value) :: w.journal ∧
        (w'.ui.table (table_of_category w.sel_item_category)).rows =
          (w.ui.table (table_of_category w.sel_item_category)).rows ++
            [[w.ui.itemNameComboBox.currentText, toString (u16 w.ui.quantitySpinBox.value)]] ∧
        (∀ r, r ≠ table_of_category w.sel_item_category → w'.ui.table r = w.ui.table r)) ∧
    (∀ t t1 row, w.save.trainer = some t →
      u16 (w.ui.table (table_of_category w.sel_item_category)).currentRow = row →
      row < (w.ui.table (table_of_category w.sel_item_category)).rows.length →
      lib.edit_item t w.sel_item_category row w.ui.itemNameComboBox.currentText
        (u16 w.ui.quantitySpinBox.value) = Except.ok t1 →
      ∃ w', editItemPushButton_clicked lib w = Outcome.returned w' ∧
        w'.journal = Event.edit_item w.sel_item_category row w.ui.itemNameComboBox.currentText
          (u16 w.ui.quantitySpinBox.value) :: w.journal ∧
        (w'.ui.table (table_of_category w.sel_item_category)).rows =
          (w.ui.table (table_of_category w.sel_item_category)).rows.set row
            [w.ui.itemNameComboBox.currentText, toString (u16 w.ui.quantitySpinBox.value)] ∧
        (∀ r, r ≠ table_of_category w.sel_item_category → w'.ui.table r = w.ui.table r)) ∧
    (∀ t t1 row, w.save.trainer = some t →
      u16 (w.ui.table (table_of_category w.sel_item_category)).currentRow = row →
      lib.del_item t w.sel_item_category row = Except.ok t1 →
      ∃ w', deleteItemPushButton_clicked lib w = Outcome.returned w' ∧
        w'.journal = Event.del_item w.sel_item_category row :: w.journal ∧
        (w'.ui.table (table_of_category w.sel_item_category)).rows =
          (w.ui.table (table_of_category w.sel_item_category)).rows.eraseIdx row ∧
        (∀ r, r ≠ table_of_category w.sel_item_category → w'.ui.table r = w.ui.table r)) := by
  have hinv : w.sel_item_table_widget = table_of_category w.sel_item_category :=
    run_corresponds lib inputs _ w rfl hrun
  refine ⟨hinv, ?_, ?_, open_file_show_table, ⟨rfl, rfl, rfl, rfl, rfl, rfl⟩,
    fun index => select_item_tab_corresponds index w hinv, ?_, ?_, ?_, ?_, ?_⟩
  · intro c c' h
    cases c <;> cases c' <;> first | rfl | exact nomatch h
  · intro c h
    cases c <;> exact nomatch h
  · intro index hi
    unfold select_item_tab
    rw [if_neg (by omega), if_neg (by omega), if_neg (by omega), if_neg (by omega),
      if_neg (by omega), if_neg (by omega)]
  · intro index w1 h1
    have hk := itemsTabWidget_currentChanged_keeps index w
    rw [h1] at hk
    refine ⟨hk.2, ?_⟩
    rw [hk.1, hk.2]
    exact select_item_tab_corresponds index w hinv
  · intro t t1 ht hok
    obtain ⟨w1, h1, hj, _, hrows, hothers, _⟩ :=
      addItemPushButton_clicked_rows lib w t t1 _ _ _ _ ht rfl hinv rfl rfl hok
    exact ⟨w1, h1, hj, hrows, hothers⟩
  · intro t t1 row ht hrow hlt hok
    obtain ⟨w1, h1, hj, _, hrows, hothers⟩ :=
      editItemPushButton_clicked_rows lib w t t1 _ _ row _ _ ht rfl hinv hrow rfl rfl hlt hok
    exact ⟨w1, h1, hj, hrows, hothers⟩
  · intro t t1 row ht hrow hok
    obtain ⟨w1, h1, hj, _, hrows, hothers⟩ :=
      deleteItemPushButton_clicked_rows lib w t t1 _ _ row ht rfl hinv hrow hok
    exact ⟨w1, h1, hj, hrows, hothers⟩

/-- C28 on the fixture: from the constructed window the user opens
`ruby.sav`, shows the berries tab and presses the add button; the run returns,
the ledger call was made for the berry category and the selected table is the
berries table. -/
theorem C28_item_table_witness :
    ∃ w, run fixture_lib_party fixture_inputs (MainWindow.construct {}) = Outcome.returned w ∧
      w.journal = [Event.add_item item_category.Berry "" 0,
                   Event.read_pkmn_save_file "ruby.sav"] ∧
      w.sel_item_category = item_category.Berry ∧
      w.sel_item_table_widget = table_ref.berriesTableWidget :=
  ⟨_, rfl, rfl, rfl,
    (C28_item_table_matches_category fixture_lib_party {} fixture_inputs _ rfl).1⟩

/-- C29.  The switch of the gender slot (`gender_of_index`) and the switch of
`set_pkmn_gender_combo_box` (`gender_index`) are mutually inverse between the
indices 0 to 3 and the four genders, `set_pkmn_gender_combo_box` shows
`gender_index` of the creature's gender, and any other index decodes to
nothing.  With a live creature selected: when the combo shows the index of a
gender `g` the slot returns having called `set_gender` with `g`; when the
combo index is outside 0 to 3 the slot returns the window with the pop-up
`Invalid gender` journalled and nothing else, so no mutator was called and
the save and the form are as they were. -/
theorem C29_gender_encoding_bijective (lib : pklib) (w : MainWindow) (a : Nat) (p0 : pokemon)
    (hsel : w.sel_pkmn = some a) (hp0 : w.deref a = some p0) :
    (∀ i : Int, 0 ≤ i → i ≤ 3 → ∃ g, gender_of_index i = some g ∧ gender_index g = i) ∧
    (∀ g, gender_of_index (gender_index g) = some g) ∧
    (∀ g, 0 ≤ gender_index g ∧ gender_index g ≤ 3) ∧
    (∀ i : Int, i < 0 ∨ 3 < i → gender_of_index i = none) ∧
    (∀ (p : pokemon) (ui : Ui),
      (set_pkmn_gender_combo_box p ui).pkmnGenderComboBox.currentIndex = gender_index p.gender) ∧
    (∀ g, w.ui.pkmnGenderComboBox.currentIndex = gender_index g →
      ∃ w', pkmnGenderComboBox_currentIndexChanged lib w = Outcome.returned w' ∧
        (w'.journal = Event.set_gender a g :: w.journal ∨
          ∃ e, w'.journal = Event.show_popup_error e :: Event.set_gender a g :: w.journal)) ∧
    (w.ui.pkmnGenderComboBox.currentIndex < 0 ∨ 3 < w.ui.pkmnGenderComboBox.currentIndex →
      pkmnGenderComboBox_currentIndexChanged lib w =
        Outcome.returned (show_popup_error w "Invalid gender") ∧
      (show_popup_error w "Invalid gender").save = w.save ∧
      (show_popup_error w "Invalid gender").ui = w.ui ∧
      (show_popup_error w "Invalid gender").journal =
        Event.show_popup_error "Invalid gender" :: w.journal) := by
  have hout : ∀ i : Int, i < 0 ∨ 3 < i → gender_of_index i = none := by
    intro i hi
    unfold gender_of_index
    rw [if_neg (by omega), if_neg (by omega), if_neg (by omega), if_neg (by omega)]
  have hinv : ∀ g, gender_of_index (gender_index g) = some g := by
    intro g
    cases g <;> rfl
  refine ⟨?_, hinv, ?_, hout, fun _ _ => rfl, ?_, ?_⟩
  · intro i h0 h3
    have hi : i = 0 ∨ i = 1 ∨ i = 2 ∨ i = 3 := by omega
    rcases hi with rfl | rfl | rfl | rfl
    · exact ⟨pokemon_gender.NA, rfl, rfl⟩
    · exact ⟨pokemon_gender.MALE, rfl, rfl⟩
    · exact ⟨pokemon_gender.FEMALE, rfl, rfl⟩
    · exact ⟨pokemon_gender.GENDERLESS, rfl, rfl⟩
  · intro g
    cases g <;> exact ⟨by decide, by decide⟩
  · intro g hg
    have hdec : gender_of_index w.ui.pkmnGenderComboBox.currentIndex = some g := by
      rw [hg]
      exact hinv g
    unfold pkmnGenderComboBox_currentIndexChanged
    simp only [hsel, hdec, hp0]
    show ∃ w', (match lib.set_gender p0 g with
      | Except.error e => _ | Except.ok p => _) = Outcome.returned w' ∧ _
    cases lib.set_gender p0 g with
    | error e => exact ⟨_, rfl, Or.inr ⟨e, rfl⟩⟩
    | ok p =>
      refine ⟨_, rfl, Or.inl ?_⟩
      unfold refresh_party_if_selected
      split
      · split <;> rfl
      · rfl
  · intro hi
    refine ⟨?_, rfl, rfl, rfl⟩
    unfold pkmnGenderComboBox_currentIndexChanged
    simp only [hsel, hout _ hi]

/-- C29 on the fixture: with entry 7 chosen in the gender combo the slot
returns the window with the pop-up `Invalid gender`; with entry 2 chosen it
calls `set_gender` with the female gender. -/
theorem C29_gender_encoding_witness :
    fixture_gender_out_of_range.sel_pkmn = some 1 ∧
    fixture_gender_out_of_range.deref 1 = some fixture_pkmn ∧
    fixture_gender_out_of_range.ui.pkmnGenderComboBox.currentIndex = 7 ∧
    pkmnGenderComboBox_currentIndexChanged fixture_lib fixture_gender_out_of_range =
      Outcome.returned (show_popup_error fixture_gender_out_of_range "Invalid gender") ∧
    (∃ w', pkmnGenderComboBox_currentIndexChanged fixture_lib fixture_edited =
        Outcome.returned w' ∧
      (w'.journal = [Event.set_gender 1 pokemon_gender.FEMALE] ∨
        ∃ e, w'.journal =
          [Event.show_popup_error e, Event.set_gender 1 pokemon_gender.FEMALE])) :=
  ⟨rfl, rfl, rfl,
    ((C29_gender_encoding_bijective fixture_lib fixture_gender_out_of_range 1 fixture_pkmn
      rfl rfl).2.2.2.2.2.2 (Or.inr (by decide))).1,
    (C29_gender_encoding_bijective fixture_lib fixture_edited 1 fixture_pkmn
      rfl rfl).2.2.2.2.2.1 pokemon_gender.FEMALE rfl⟩

/-- C30.  The switch of `set_pkmn_in_editor` (`status_index`) and the switch
of the status slot (`status_of_index`, whatever value the slot's variable is
initialised with) are mutually inverse between the six named statuses and the
indices 0 to 5, and `status_index` gives an index for exactly those six.  End
to end: when `set_pkmn_in_editor` returns on a creature, the status combo
shows the index of the creature's status, the status slot decodes that index
back to the creature's status, and the status slot run on that window returns
having called `set_status` with it. -/
theorem C30_status_encoding_round_trips (lib : pklib) (w w' : MainWindow) (a : Nat)
    (h : set_pkmn_in_editor lib (some a) w = Outcome.returned w') :
    (∀ zero s i, status_index s = some i → status_of_index zero i = s ∧ 0 ≤ i ∧ i ≤ 5) ∧
    (∀ zero (i : Int), 0 ≤ i → i ≤ 5 → status_index (status_of_index zero i) = some i) ∧
    (∀ s, (∃ i, status_index s = some i) ↔
      s ∈ [status_condition.HEALTHY, status_condition.PAR, status_condition.PSN,
           status_condition.SLP, status_condition.FRZ, status_condition.BRN]) ∧
    (∃ s, w'.sel_pkmn = some a ∧ (w'.deref a).map pokemon.status = some s ∧
      status_index s = some w'.ui.statusComboBox.currentIndex ∧
      status_of_index lib.status_zero w'.ui.statusComboBox.currentIndex = s ∧
      ∃ w'', statusComboBox_currentIndexChanged lib w' = Outcome.returned w'' ∧
        (w''.journal = Event.mutator (Mutator.set_status a s) :: w'.journal ∨
          ∃ e, w''.journal =
            Event.show_popup_error e :: Event.mutator (Mutator.set_status a s) :: w'.journal)) := by
  have hdec : ∀ zero s i, status_index s = some i →
      status_of_index zero i = s ∧ 0 ≤ i ∧ i ≤ 5 := by
    intro zero s i hs
    cases s <;> cases hs <;> exact ⟨rfl, by decide, by decide⟩
  refine ⟨hdec, ?_, ?_, ?_⟩
  · intro zero i h0 h5
    have hi : i = 0 ∨ i = 1 ∨ i = 2 ∨ i = 3 ∨ i = 4 ∨ i = 5 := by omega
    rcases hi with rfl | rfl | rfl | rfl | rfl | rfl <;> rfl
  · intro s
    constructor
    · rintro ⟨i, hi⟩
      cases s <;> first | (cases hi; done) | simp
    · intro hs
      cases s <;> first | exact ⟨_, rfl⟩ | simp at hs
  · obtain ⟨p0, p, index, box, hp0, _, hidx, hw⟩ := set_pkmn_in_editor_returned lib w w' a h
    have hd : w'.deref a = some p := by
      rw [hw]
      exact deref_store w a p0 p hp0
    have hsel : w'.sel_pkmn = some a := by rw [hw]
    have hshown : w'.ui.statusComboBox.currentIndex = index := by rw [hw]; rfl
    have hback := (hdec lib.status_zero p.status index hidx).1
    refine ⟨p.status, hsel, by rw [hd]; rfl, by rw [hshown]; exact hidx,
      by rw [hshown]; exact hback, ?_⟩
    unfold statusComboBox_currentIndexChanged
    simp only [hsel, hd, hshown, hback]
    show ∃ w'', (match lib.set_status p p.status with
      | Except.error e => _ | Except.ok p => _) = Outcome.returned w'' ∧ _
    cases lib.set_status p p.status with
    | error e => exact ⟨_, rfl, Or.inr ⟨e, rfl⟩⟩
    | ok p1 => exact ⟨_, rfl, Or.inl rfl⟩

/-- C30 on the fixture: a sleeping creature is put in the editor; the status
combo shows entry 3, which the status slot decodes to the creature's status
and passes to `set_status`. -/
theorem C30_status_encoding_witness :
    fixture_asleep.deref 1 = some fixture_pkmn_asleep ∧
    fixture_pkmn_asleep.status = status_condition.SLP ∧
    ∃ w', set_pkmn_in_editor fixture_lib (some 1) fixture_asleep = Outcome.returned w' ∧
      w'.ui.statusComboBox.currentIndex = 3 ∧
      ∃ s, w'.sel_pkmn = some 1 ∧ (w'.deref 1).map pokemon.status = some s ∧
        status_index s = some w'.ui.statusComboBox.currentIndex ∧
        status_of_index fixture_lib.status_zero w'.ui.statusComboBox.currentIndex = s ∧
        ∃ w'', statusComboBox_currentIndexChanged fixture_lib w' = Outcome.returned w'' ∧
          (w''.journal = Event.mutator (Mutator.set_status 1 s) :: w'.journal ∨
            ∃ e, w''.journal = Event.show_popup_error e ::
              Event.mutator (Mutator.set_status 1 s) :: w'.journal) :=
  ⟨rfl, rfl, _, rfl, rfl,
    (C30_status_encoding_round_trips fixture_lib fixture_asleep _ 1 rfl).2.2.2⟩

end PkEdit
